import Mathlib

/-!
# Diameter peer state machine: a shallow embedding

The event handlers of `sock/snd_state.go` and `sock/rcv_state.go` are embedded
as pure functions on an explicit connection record.  Every effect a handler
has on the outside world (transport writes and closes, channel sends,
notifications, goroutine timers) is recorded in the record, so that a handler
is a function `Env → Conn → Conn × Option Error`.

Code that the handlers call but that lives outside the two state files (the
codec, the collaborator hooks, the transport) is taken as the parameter `Env`.

The second part, namespace `ts29338`, embeds the S6c messages SRR and SRA of
`ts29338/S6c_SRRA.go`: their conversion to and from raw messages, over the
attribute setters and getters of the other files, which are the parameter
`Lib`.
-/

namespace sock

/-! ## Data model -/

/-- Connection states, `snd_state.go` lines 30-37. -/
inductive state where
  | shutdown
  | closed
  | waitCER
  | waitCEA
  | «open»
  | closing
deriving DecidableEq, Repr

/-- Modelled from the spec: RawAVP of section 3, with the field names `Code`
and `VenID` that `S6c_SRRA.go` reads. -/
structure RawAVP where
  Code : Nat
  VenID : Nat
  FlgV : Bool
  FlgM : Bool
  FlgP : Bool
  data : List Nat
deriving DecidableEq, Repr

/-- Modelled from the spec: RawMessage of section 3 (`msg.RawMsg`, declared
with the codec), with the field names the handlers and `S6c_SRRA.go` use; it
also stands where the source writes `msg.Message`.  The zero value
`msg.RawMsg{}` is `RawMsg.zero`. -/
structure RawMsg where
  Ver : Nat
  FlgR : Bool
  FlgP : Bool
  FlgE : Bool
  FlgT : Bool
  Code : Nat
  AppID : Nat
  HbHID : Nat
  EtEID : Nat
  AVP : List RawAVP
deriving DecidableEq, Repr

/-- The Go zero value `msg.RawMsg{}`. -/
def RawMsg.zero : RawMsg :=
  { Ver := 0, FlgR := false, FlgP := false, FlgE := false, FlgT := false,
    Code := 0, AppID := 0, HbHID := 0, EtEID := 0, AVP := [] }

/-- Result-Code `DIAMETER_SUCCESS`. -/
def DiameterSuccess : Nat := 2001

/-- Result-Code `DIAMETER_UNABLE_TO_DELIVER`. -/
def DiameterUnableToDeliver : Nat := 3002

/-- The text of `timeoutMsg`, `snd_state.go` line 39. -/
def timeoutMsg : String := "no response from peer node"

/-- Events of the state machine: one constructor per `stateEvent`
implementation of `snd_state.go` and `rcv_state.go`. -/
inductive stateEvent where
  | eventInit
  | eventConnect
  | eventWatchdog
  | eventStop
  | eventPeerDisc
  | eventSndMsg (m : RawMsg)
  | eventRcvCER (m : RawMsg)
  | eventRcvCEA (m : RawMsg)
  | eventRcvDWR (m : RawMsg)
  | eventRcvDWA (m : RawMsg)
  | eventRcvDPR (m : RawMsg)
  | eventRcvDPA (m : RawMsg)
  | eventRcvMsg (m : RawMsg)
deriving DecidableEq, Repr

/-- Values of Go's `error` that the handlers return.  `other` stands for an
error made outside this package (a decoding or a transport error). -/
inductive Error where
  | NotAcceptableEvent (ev : stateEvent) (st : state)
  | WatchdogExpired
  | UnknownIDAnswer (m : RawMsg)
  | FailureAnswer (m : RawMsg)
  | other (code : Nat)
deriving DecidableEq, Repr

/-- Notices handed to `Notify` (`notify.go`); the `conn` field is the
connection itself and is left out. -/
inductive Notice where
  | CapabilityExchangeEvent (tx req : Bool) (Err : Option Error)
  | WatchdogEvent (tx req : Bool) (Err : Option Error)
  | MessageEvent (tx req : Bool) (Err : Option Error)
  | PurgeEvent (tx req : Bool) (Err : Option Error)
deriving DecidableEq, Repr

/-- What a system timer runs when it fires: `c.watchdog()` or `c.con.Close()`. -/
inductive TimerFunc where
  | watchdog
  | close
deriving DecidableEq, Repr

/-- Modelled from the spec: the system timer handle of a connection
(`Conn.sysTimer`; the `Conn` type is declared outside the two state files).
`armed = some d` means the timer will fire `d` after it was last started. -/
structure Timer where
  f : TimerFunc
  armed : Option Nat
deriving DecidableEq, Repr

/-- The call `time.AfterFunc(d, f)`. -/
def AfterFunc (d : Nat) (f : TimerFunc) : Timer := { f := f, armed := some d }

/-- The call `t.Stop()`. -/
def Timer.Stop (t : Timer) : Timer := { t with armed := none }

/-- The call `t.Reset(d)`. -/
def Timer.Reset (t : Timer) (d : Nat) : Timer := { t with armed := some d }

/-- Modelled from the spec: the byte transport `Conn.con`.  `written` lists
the messages handed to the transport for writing, oldest first; `deadline` is
the last write deadline set, as an offset from the time of the call. -/
structure NetConn where
  written : List RawMsg
  deadline : Option Nat
  closed : Bool
deriving DecidableEq, Repr

/-- The call `con.Close()`. -/
def NetConn.Close (n : NetConn) : NetConn := { n with closed := true }

/-- Modelled from the spec: the per-peer settings read by the handlers
(`c.peer.WDInterval`, `c.peer.WDExpired`, `c.peer.SndTimeout`). -/
structure Peer where
  WDInterval : Nat
  WDExpired : Nat
  SndTimeout : Nat
deriving DecidableEq, Repr

/-- Modelled from the spec: the identifier source of the local node
(`c.local`), section 4.2: 32-bit hop-by-hop and end-to-end counters. -/
structure Node where
  hbhID : Nat
  eteID : Nat
deriving DecidableEq, Repr

/-- Modelled from the spec: `NextHbH` of section 4.2, the next value of a
monotonically increasing 32-bit counter with wraparound. -/
def Node.NextHbH (n : Node) : Nat × Node :=
  let v := (n.hbhID + 1) % 2 ^ 32
  (v, { n with hbhID := v })

/-- Modelled from the spec: `NextEtE` of section 4.2. -/
def Node.NextEtE (n : Node) : Nat × Node :=
  let v := (n.eteID + 1) % 2 ^ 32
  (v, { n with eteID := v })

/-- A goroutine started after a system request was written: it waits on
channel `ch`, and if nothing arrives within `after` it feeds `nak` back into
the event queue. -/
structure Waiter where
  ch : Nat
  after : Nat
  nak : RawMsg
deriving DecidableEq, Repr

/-- The correlation table `Conn.sndstack`, a map from hop-by-hop id to the
channel of the waiting sender.  Channels are named by numbers. -/
abbrev SndStack := List (Nat × Nat)

/-- Map lookup `sndstack[k]`. -/
def SndStack.get (s : SndStack) (k : Nat) : Option Nat :=
  match s with
  | [] => none
  | (k', ch) :: rest => if k' = k then some ch else SndStack.get rest k

/-- The call `delete(sndstack, k)`. -/
def SndStack.delete (s : SndStack) (k : Nat) : SndStack :=
  match s with
  | [] => []
  | (k', ch) :: rest =>
    if k' = k then SndStack.delete rest k else (k', ch) :: SndStack.delete rest k

/-- Map assignment `sndstack[k] = ch`. -/
def SndStack.set (s : SndStack) (k : Nat) (ch : Nat) : SndStack :=
  (k, ch) :: SndStack.delete s k

/-- Modelled from the spec: the connection record (section 3, Connection).
The watchdog counter, which the handlers only increment, reset and compare
with the threshold, is a natural number.
The fields below `con` are not fields of the Go struct: they record the
effects of the handlers on the rest of the process.  `chanSeq` numbers the
channels made with `make(chan ...)`, `delivered` lists the channel sends
`ch <- m` in order, `waiters` the timeout goroutines started, `notices`
the arguments of the calls to `Notify`, and `droppedTimers` the timers that
`sysTimer` pointed to before it was assigned anew, as they were left. -/
structure Conn where
  «local» : Node
  peer : Peer
  state : state
  wdCounter : Nat
  sysTimer : Timer
  sndstack : SndStack
  rcvstack : List RawMsg
  con : NetConn
  chanSeq : Nat
  delivered : List (Nat × RawMsg)
  waiters : List Waiter
  notices : List Notice
  droppedTimers : List Timer
deriving DecidableEq, Repr

/-- The assignment `c.sysTimer = t` of a newly made timer. -/
def Conn.setTimer (c : Conn) (t : Timer) : Conn :=
  { c with sysTimer := t, droppedTimers := c.droppedTimers ++ [c.sysTimer] }

/-- The call `Notify(n)`. -/
def Notify (n : Notice) (c : Conn) : Conn := { c with notices := c.notices ++ [n] }

/-- The call `c.con.Close()`. -/
def Conn.conClose (c : Conn) : Conn := { c with con := c.con.Close }

/-- The channel send `ch <- m`. -/
def Conn.chanSend (c : Conn) (ch : Nat) (m : RawMsg) : Conn :=
  { c with delivered := c.delivered ++ [(ch, m)] }

/-! ## Decoded system messages and the environment -/

/-- The fields of a decoded Capabilities-Exchange-Request that the handlers
read (`snd_state.go` lines 90-102); the type is declared with the codec. -/
structure CER where
  OriginHost : String
  OriginRealm : String
  HostIPAddress : List String
  VendorID : Nat
  ProductName : String
  OriginStateID : Nat
  SupportedVendorID : List Nat
  ApplicationID : List Nat
  VendorSpecificApplicationID : List (Nat × Nat)
  FirmwareRevision : Nat
deriving DecidableEq, Repr

/-- Decoded Capabilities-Exchange-Answer. -/
structure CEA where
  ResultCode : Nat
  OriginHost : String
  OriginRealm : String
  HostIPAddress : List String
  VendorID : Nat
  ProductName : String
  OriginStateID : Nat
  ErrorMessage : Option String
  SupportedVendorID : List Nat
  ApplicationID : List Nat
  VendorSpecificApplicationID : List (Nat × Nat)
  FirmwareRevision : Nat
deriving DecidableEq, Repr

/-- Decoded Device-Watchdog-Request. -/
structure DWR where
  OriginHost : String
  OriginRealm : String
  OriginStateID : Nat
deriving DecidableEq, Repr

/-- Decoded Device-Watchdog-Answer. -/
structure DWA where
  ResultCode : Nat
  OriginHost : String
  OriginRealm : String
  ErrorMessage : Option String
  OriginStateID : Nat
deriving DecidableEq, Repr

/-- Decoded Disconnect-Peer-Request. -/
structure DPR where
  OriginHost : String
  OriginRealm : String
deriving DecidableEq, Repr

/-- Decoded Disconnect-Peer-Answer. -/
structure DPA where
  ResultCode : Nat
  OriginHost : String
  OriginRealm : String
  ErrorMessage : Option String
deriving DecidableEq, Repr

/-- The method `Result()` of a decoded answer: its Result-Code. -/
def CEA.Result (a : CEA) : Nat := a.ResultCode

/-- The method `Result()` of a decoded answer: its Result-Code. -/
def DWA.Result (a : DWA) : Nat := a.ResultCode

/-- The method `Result()` of a decoded answer: its Result-Code. -/
def DPA.Result (a : DPA) : Nat := a.ResultCode

/-- Everything the handlers call that lives outside the two state files: the
package variable `TransportTimeout`, the collaborator hooks `MakeXXX` and
`HandleXXX`, the codec (`encXXX` is `Encode`/`ToRaw`, `decXXX` is `FromRaw`)
and the outcome of a transport write.  The hooks `HandleCEA`, `HandleDWA` and
`HandleDPA` return nothing; by section 4.4 of the specification only the
dispatcher changes the connection, so they do not appear here. -/
structure Env where
  TransportTimeout : Nat
  MakeCER : Conn → CER
  MakeDWR : Conn → DWR
  MakeDPR : Conn → DPR
  HandleCER : CER → Conn → CEA
  HandleDWR : DWR → Conn → DWA
  HandleDPR : DPR → Conn → DPA
  encCER : CER → RawMsg
  encCEA : CEA → RawMsg
  encDWR : DWR → RawMsg
  encDWA : DWA → RawMsg
  encDPR : DPR → RawMsg
  encDPA : DPA → RawMsg
  decCER : RawMsg → Except Error CER
  decCEA : RawMsg → Except Error CEA
  decDWR : RawMsg → Except Error DWR
  decDWA : RawMsg → Except Error DWA
  decDPR : RawMsg → Except Error DPR
  decDPA : RawMsg → Except Error DPA
  WriteTo : RawMsg → NetConn → Option Error

/-- The two statements `c.con.SetWriteDeadline(time.Now().Add(TransportTimeout))`
and `_, e = m.WriteTo(c.con)` of the receive handlers. -/
def Conn.writeTo (env : Env) (m : RawMsg) (c : Conn) : Conn × Option Error :=
  let con1 := { c.con with deadline := some env.TransportTimeout }
  ({ c with con := { con1 with written := con1.written ++ [m] } }, env.WriteTo m con1)

/-- Modelled from the spec: `Conn.write`, which is declared outside the two
state files: the transport write of the dispatcher, with the transport write
deadline started (section 4.5, section 5 Timeouts). -/
def Conn.write (env : Env) (m : RawMsg) (c : Conn) : Conn × Option Error :=
  c.writeTo env m

/-- Modelled from the spec: `Conn.sendSysMsg`, which is declared outside the
two state files.  Sections 4.5 and 4.6: the request gets fresh identifiers, its
completion handle is registered as outstanding, the request is written, and
on success the per-request `SndTimeout` is armed with the answer `nak` to
feed back.  The shape is that of lines 130-160 of `snd_state.go`. -/
def Conn.sendSysMsg (env : Env) (req nak : RawMsg) (c : Conn) : Conn × Option Error :=
  let h := c.local.NextHbH
  let t := h.2.NextEtE
  let req1 := { req with HbHID := h.1, EtEID := t.1 }
  let ch := c.chanSeq
  let c1 := { c with «local» := t.2, chanSeq := ch + 1, sndstack := c.sndstack.set h.1 ch }
  let r := c1.write env req1
  match r.2 with
  | none =>
    ({ r.1 with waiters := r.1.waiters ++
        [{ ch := ch, after := c.peer.SndTimeout,
           nak := { nak with HbHID := h.1, EtEID := t.1 } }] }, none)
  | some e => (r.1, some e)

/-! ## The handlers of `snd_state.go` -/

/-- Handler `eventInit.exec`, `snd_state.go` lines 71-73. -/
def eventInit.exec (_env : Env) (c : Conn) : Conn × Option Error :=
  (c, some (Error.NotAcceptableEvent stateEvent.eventInit c.state))

/-- The answer `nak` built by `eventConnect.exec`, lines 90-102. -/
def eventConnect.nak (req : CER) : CEA :=
  { ResultCode := DiameterUnableToDeliver,
    OriginHost := req.OriginHost,
    OriginRealm := req.OriginRealm,
    HostIPAddress := req.HostIPAddress,
    VendorID := req.VendorID,
    ProductName := req.ProductName,
    OriginStateID := req.OriginStateID,
    ErrorMessage := some timeoutMsg,
    SupportedVendorID := req.SupportedVendorID,
    ApplicationID := req.ApplicationID,
    VendorSpecificApplicationID := req.VendorSpecificApplicationID,
    FirmwareRevision := req.FirmwareRevision }

/-- Handler `eventConnect.exec`, `snd_state.go` lines 82-110. -/
def eventConnect.exec (env : Env) (c : Conn) : Conn × Option Error :=
  if c.state ≠ state.closed then
    (c, some (Error.NotAcceptableEvent stateEvent.eventConnect c.state))
  else
    let c1 := { c with state := state.waitCEA }
    let req := env.MakeCER c1
    let nak := eventConnect.nak req
    let r := c1.sendSysMsg env (env.encCER req) (env.encCEA nak)
    let e := r.2
    let c2 := Notify (Notice.CapabilityExchangeEvent true true e) r.1
    match e with
    | some _ => (c2.conClose, e)
    | none => (c2, e)

/-- The answer fed back when a watchdog request times out,
`snd_state.go` lines 143-151. -/
def eventWatchdog.nak (env : Env) (dwr : DWR) (req : RawMsg) : RawMsg :=
  let dwa : DWA :=
    { ResultCode := DiameterUnableToDeliver,
      OriginHost := dwr.OriginHost,
      OriginRealm := dwr.OriginRealm,
      ErrorMessage := some timeoutMsg,
      OriginStateID := dwr.OriginStateID }
  { env.encDWA dwa with HbHID := req.HbHID, EtEID := req.EtEID }

/-- The request written by `eventWatchdog.exec`, lines 130-133: the encoded
watchdog request with the next hop-by-hop and end-to-end identifiers. -/
def eventWatchdog.req (env : Env) (c : Conn) : RawMsg :=
  { env.encDWR (env.MakeDWR c) with
    HbHID := c.local.NextHbH.1, EtEID := c.local.NextHbH.2.NextEtE.1 }

/-- Handler `eventWatchdog.exec`, `snd_state.go` lines 119-161. -/
def eventWatchdog.exec (env : Env) (c : Conn) : Conn × Option Error :=
  if c.state ≠ state.open then
    (c, some (Error.NotAcceptableEvent stateEvent.eventWatchdog c.state))
  else
    let c1 := { c with wdCounter := c.wdCounter + 1 }
    if c1.wdCounter > c1.peer.WDExpired then
      (c1.conClose, some Error.WatchdogExpired)
    else
      let dwr := env.MakeDWR c1
      let req := eventWatchdog.req env c1
      let ch := c1.chanSeq
      let c2 := { c1 with «local» := c1.local.NextHbH.2.NextEtE.2, chanSeq := ch + 1,
                          sndstack := c1.sndstack.set req.HbHID ch }
      let r := c2.write env req
      let e := r.2
      let c3 := Notify (Notice.WatchdogEvent true true e) r.1
      match e with
      | none =>
        ({ c3 with waiters := c3.waiters ++
            [{ ch := ch, after := c3.peer.SndTimeout,
               nak := eventWatchdog.nak env dwr req }] }, e)
      | some _ => (c3.conClose, e)

/-- The answer `nak` built by `eventStop.exec`, lines 179-183. -/
def eventStop.nak (req : DPR) : DPA :=
  { ResultCode := DiameterUnableToDeliver,
    OriginHost := req.OriginHost,
    OriginRealm := req.OriginRealm,
    ErrorMessage := some timeoutMsg }

/-- Handler `eventStop.exec`, `snd_state.go` lines 170-191. -/
def eventStop.exec (env : Env) (c : Conn) : Conn × Option Error :=
  if c.state ≠ state.open then
    (c, some (Error.NotAcceptableEvent stateEvent.eventStop c.state))
  else
    let c1 := { c with state := state.closing, sysTimer := c.sysTimer.Stop }
    let req := env.MakeDPR c1
    let nak := eventStop.nak req
    let r := c1.sendSysMsg env (env.encDPR req) (env.encDPA nak)
    let e := r.2
    let c2 := Notify (Notice.PurgeEvent true true e) r.1
    match e with
    | some _ => (c2.conClose, e)
    | none => (c2, e)

/-- Handler `eventPeerDisc.exec`, `snd_state.go` lines 200-207. -/
def eventPeerDisc.exec (_env : Env) (c : Conn) : Conn × Option Error :=
  ({ c.conClose with state := state.closed }, none)

/-- Handler `eventSndMsg.exec`, `snd_state.go` lines 218-229. -/
def eventSndMsg.exec (env : Env) (m : RawMsg) (c : Conn) : Conn × Option Error :=
  if c.state ≠ state.open then
    (c, some (Error.NotAcceptableEvent (stateEvent.eventSndMsg m) c.state))
  else
    let r := c.write env m
    let e := r.2
    let c1 := Notify (Notice.MessageEvent true m.FlgR e) r.1
    match e with
    | some _ => (c1.conClose, e)
    | none => (c1, e)

/-! ## The handlers of `rcv_state.go` -/

/-- Lines 53-58, 143-148 and 227-231 of `rcv_state.go`: the raw answer `m0`
gets the identifiers of the request `rq`, and the error flag when the
Result-Code `rc` is not success. -/
def answerRaw (m0 rq : RawMsg) (rc : Nat) : RawMsg :=
  let m1 := { m0 with HbHID := rq.HbHID, EtEID := rq.EtEID }
  if rc ≠ DiameterSuccess then { m1 with FlgE := true } else m1

/-- Lines 62-64 and 152-154 of `rcv_state.go`: a written answer with a
Result-Code other than success becomes a `FailureAnswer`. -/
def failureOf (e : Option Error) (rc : Nat) (m : RawMsg) : Option Error :=
  match e with
  | none => if rc ≠ DiameterSuccess then some (Error.FailureAnswer m) else none
  | some x => some x

/-- Handler `eventRcvCER.exec`, `rcv_state.go` lines 37-77. -/
def eventRcvCER.exec (env : Env) (vm : RawMsg) (c : Conn) : Conn × Option Error :=
  if c.state ≠ state.waitCER then
    (c, some (Error.NotAcceptableEvent (stateEvent.eventRcvCER vm) c.state))
  else
    match env.decCER vm with
    | Except.error e =>
      ((Notify (Notice.CapabilityExchangeEvent false true (some e)) c).conClose, some e)
    | Except.ok cer =>
      let c1 := Notify (Notice.CapabilityExchangeEvent false true none) c
      let cea := env.HandleCER cer c1
      let m := answerRaw (env.encCEA cea) vm cea.ResultCode
      let r := c1.writeTo env m
      let e := failureOf r.2 cea.ResultCode m
      let c2 := match e with
        | none => { r.1 with state := state.open }.setTimer
                    (AfterFunc r.1.peer.WDInterval TimerFunc.watchdog)
        | some _ => r.1
      let c3 := Notify (Notice.CapabilityExchangeEvent true false e) c2
      match e with
      | some _ => (c3.conClose, e)
      | none => (c3, e)

/-- Handler `eventRcvCEA.exec`, `rcv_state.go` lines 88-118. -/
def eventRcvCEA.exec (env : Env) (vm : RawMsg) (c : Conn) : Conn × Option Error :=
  if c.state ≠ state.waitCEA then
    (c, some (Error.NotAcceptableEvent (stateEvent.eventRcvCEA vm) c.state))
  else
    match c.sndstack.get vm.HbHID with
    | none => (c, some (Error.UnknownIDAnswer vm))
    | some ch =>
      let c1 := { c with sndstack := c.sndstack.delete vm.HbHID }
      let r : Conn × Option Error :=
        match env.decCEA vm with
        | Except.ok cea =>
          if cea.Result = DiameterSuccess then
            ({ c1 with state := state.open }.setTimer
                (AfterFunc c1.peer.WDInterval TimerFunc.watchdog), none)
          else (c1, some (Error.FailureAnswer vm))
        | Except.error e => (c1, some e)
      let e := r.2
      let c2 := Notify (Notice.CapabilityExchangeEvent false false e) r.1
      match e with
      | some _ => (c2.conClose.chanSend ch RawMsg.zero, e)
      | none => (c2.chanSend ch vm, e)

/-- Handler `eventRcvDWR.exec`, `rcv_state.go` lines 128-164. -/
def eventRcvDWR.exec (env : Env) (vm : RawMsg) (c : Conn) : Conn × Option Error :=
  if c.state ≠ state.open then
    (c, some (Error.NotAcceptableEvent (stateEvent.eventRcvDWR vm) c.state))
  else
    match env.decDWR vm with
    | Except.error e => (Notify (Notice.WatchdogEvent false true (some e)) c, some e)
    | Except.ok dwr =>
      let c1 := Notify (Notice.WatchdogEvent false true none) c
      let dwa := env.HandleDWR dwr c1
      let m := answerRaw (env.encDWA dwa) vm dwa.ResultCode
      let r := c1.writeTo env m
      let e := failureOf r.2 dwa.ResultCode m
      let c2 := match e with
        | none => { r.1 with sysTimer := r.1.sysTimer.Reset r.1.peer.WDInterval }
        | some _ => r.1
      let c3 := Notify (Notice.WatchdogEvent true false e) c2
      match e with
      | some _ => (c3.conClose, e)
      | none => (c3, e)

/-- Handler `eventRcvDWA.exec`, `rcv_state.go` lines 175-202. -/
def eventRcvDWA.exec (env : Env) (vm : RawMsg) (c : Conn) : Conn × Option Error :=
  if c.state ≠ state.open then
    (c, some (Error.NotAcceptableEvent (stateEvent.eventRcvDWA vm) c.state))
  else
    match c.sndstack.get vm.HbHID with
    | none => (c, some (Error.UnknownIDAnswer vm))
    | some ch =>
      let c1 := { c with sndstack := c.sndstack.delete vm.HbHID }
      let r : Conn × Option Error :=
        match env.decDWA vm with
        | Except.ok dwa =>
          if dwa.Result = DiameterSuccess then
            ({ c1 with wdCounter := 0,
                       sysTimer := c1.sysTimer.Reset c1.peer.WDInterval }, none)
          else (c1, some (Error.FailureAnswer vm))
        | Except.error e => (c1, some e)
      let e := r.2
      let c2 := Notify (Notice.WatchdogEvent false false e) r.1
      match e with
      | some _ => (c2.chanSend ch RawMsg.zero, e)
      | none => (c2.chanSend ch vm, e)

/-- Handler `eventRcvDPR.exec`, `rcv_state.go` lines 212-247. -/
def eventRcvDPR.exec (env : Env) (vm : RawMsg) (c : Conn) : Conn × Option Error :=
  if c.state ≠ state.open then
    (c, some (Error.NotAcceptableEvent (stateEvent.eventRcvDPR vm) c.state))
  else
    match env.decDPR vm with
    | Except.error e => (Notify (Notice.PurgeEvent false true (some e)) c, some e)
    | Except.ok dpr =>
      let c1 := Notify (Notice.PurgeEvent false true none) c
      let dpa := env.HandleDPR dpr c1
      let m := answerRaw (env.encDPA dpa) vm dpa.ResultCode
      let c2 :=
        if dpa.ResultCode ≠ DiameterSuccess then c1
        else { c1 with state := state.closing, sysTimer := c1.sysTimer.Stop }.setTimer
               (AfterFunc c1.peer.SndTimeout TimerFunc.close)
      let r := c2.writeTo env m
      let e := r.2
      let c3 := Notify (Notice.PurgeEvent true false e) r.1
      match e with
      | some _ => (c3.conClose, e)
      | none => (c3, e)

/-- Handler `eventRcvDPA.exec`, `rcv_state.go` lines 257-282. -/
def eventRcvDPA.exec (env : Env) (vm : RawMsg) (c : Conn) : Conn × Option Error :=
  if c.state ≠ state.closing then
    (c, some (Error.NotAcceptableEvent (stateEvent.eventRcvDPA vm) c.state))
  else
    match c.sndstack.get vm.HbHID with
    | none => (c, some (Error.UnknownIDAnswer vm))
    | some ch =>
      let c1 := { c with sndstack := c.sndstack.delete vm.HbHID }
      let e : Option Error :=
        match env.decDPA vm with
        | Except.ok dpa =>
          if dpa.Result ≠ DiameterSuccess then some (Error.FailureAnswer vm) else none
        | Except.error e => some e
      let c2 := (Notify (Notice.PurgeEvent false false e) c1).conClose
      match e with
      | some _ => (c2.chanSend ch RawMsg.zero, e)
      | none => (c2.chanSend ch vm, e)

/-- Lines 307-310 of `rcv_state.go`, the common end of `eventRcvMsg.exec`. -/
def eventRcvMsg.finish (c : Conn) : Conn × Option Error :=
  (Notify (Notice.MessageEvent false true none)
    { c with sysTimer := c.sysTimer.Reset c.peer.WDInterval }, none)

/-- Handler `eventRcvMsg.exec`, `rcv_state.go` lines 292-311. -/
def eventRcvMsg.exec (_env : Env) (vm : RawMsg) (c : Conn) : Conn × Option Error :=
  if c.state ≠ state.open then
    (c, some (Error.NotAcceptableEvent (stateEvent.eventRcvMsg vm) c.state))
  else if vm.FlgR then
    eventRcvMsg.finish { c with rcvstack := c.rcvstack ++ [vm] }
  else
    match c.sndstack.get vm.HbHID with
    | none => (c, none)
    | some ch =>
      eventRcvMsg.finish
        ({ c with sndstack := c.sndstack.delete vm.HbHID }.chanSend ch vm)

/-! ## Dispatch -/

/-- The interface call `v.exec(c)`: each event runs its own handler. -/
def stateEvent.exec (v : stateEvent) (env : Env) (c : Conn) : Conn × Option Error :=
  match v with
  | stateEvent.eventInit => eventInit.exec env c
  | stateEvent.eventConnect => eventConnect.exec env c
  | stateEvent.eventWatchdog => eventWatchdog.exec env c
  | stateEvent.eventStop => eventStop.exec env c
  | stateEvent.eventPeerDisc => eventPeerDisc.exec env c
  | stateEvent.eventSndMsg m => eventSndMsg.exec env m c
  | stateEvent.eventRcvCER m => eventRcvCER.exec env m c
  | stateEvent.eventRcvCEA m => eventRcvCEA.exec env m c
  | stateEvent.eventRcvDWR m => eventRcvDWR.exec env m c
  | stateEvent.eventRcvDWA m => eventRcvDWA.exec env m c
  | stateEvent.eventRcvDPR m => eventRcvDPR.exec env m c
  | stateEvent.eventRcvDPA m => eventRcvDPA.exec env m c
  | stateEvent.eventRcvMsg m => eventRcvMsg.exec env m c

/-- Modelled from the spec: the dispatcher of section 4.4, which is declared
outside the two state files: it takes the events in queue order and runs the
handler of each on the connection.  Every event comes with the environment it
is handled in, and the errors the handlers return are collected in order. -/
def run : List (Env × stateEvent) → Conn → Conn × List (Option Error)
  | [], c => (c, [])
  | p :: rest, c =>
    let r := p.2.exec p.1 c
    let k := run rest r.1
    (k.1, r.2 :: k.2)

/-! ## The transition table of the specification -/

/-- The pairs (event, state) of the transition table of section 4.5 of the
specification: Connect in closed, RcvCER in waitCER, RcvCEA in waitCEA,
RcvDPA in closing, PeerDisc in any state, Init in none, every other event in
open. -/
def legal : stateEvent → state → Bool
  | stateEvent.eventInit, _ => false
  | stateEvent.eventConnect, s => s = state.closed
  | stateEvent.eventWatchdog, s => s = state.open
  | stateEvent.eventStop, s => s = state.open
  | stateEvent.eventPeerDisc, _ => true
  | stateEvent.eventSndMsg _, s => s = state.open
  | stateEvent.eventRcvCER _, s => s = state.waitCER
  | stateEvent.eventRcvCEA _, s => s = state.waitCEA
  | stateEvent.eventRcvDWR _, s => s = state.open
  | stateEvent.eventRcvDWA _, s => s = state.open
  | stateEvent.eventRcvDPR _, s => s = state.open
  | stateEvent.eventRcvDPA _, s => s = state.closing
  | stateEvent.eventRcvMsg _, s => s = state.open

/-! ## Classes of events used in the statements -/

/-- The event is a Watchdog timer event. -/
def isWatchdog : stateEvent → Bool
  | stateEvent.eventWatchdog => true
  | _ => false

/-- The event is one of Stop, RcvDPR and PeerDisc. -/
def leavesOpen : stateEvent → Bool
  | stateEvent.eventStop => true
  | stateEvent.eventRcvDPR _ => true
  | stateEvent.eventPeerDisc => true
  | _ => false

/-- The event is an RcvDWA whose message decodes, in the environment `env`,
as a watchdog answer with Result-Code success. -/
def successDWA (env : Env) : stateEvent → Bool
  | stateEvent.eventRcvDWA m =>
    match env.decDWA m with
    | Except.ok a => a.Result = DiameterSuccess
    | Except.error _ => false
  | _ => false

/-- The capabilities exchange started by the received request `vm` goes
through on connection `c`: the request decodes, the hook `HandleCER` answers
with Result-Code success, and the transport write of the answer succeeds. -/
def cerAccepted (env : Env) (vm : RawMsg) (c : Conn) : Prop :=
  ∃ cer, env.decCER vm = Except.ok cer ∧
    (env.HandleCER cer
      (Notify (Notice.CapabilityExchangeEvent false true none) c)).ResultCode
        = DiameterSuccess ∧
    env.WriteTo
      (answerRaw
        (env.encCEA (env.HandleCER cer
          (Notify (Notice.CapabilityExchangeEvent false true none) c)))
        vm DiameterSuccess)
      { c.con with deadline := some env.TransportTimeout } = none

/-! ## Unanswered watchdog rounds -/

/-- One watchdog round that the peer does not answer: the Watchdog event is
handled, and then the RcvDWA event that the timeout goroutine of lines
141-156 of `snd_state.go` puts on the event queue, which carries the answer
made there (Result-Code unable-to-deliver, the identifiers of the request).
The errors of the two handlers are returned with the connection. -/
def timedOutRound (env : Env) (c : Conn) : Conn × List (Option Error) :=
  let c1 := { c with wdCounter := c.wdCounter + 1 }
  let nak := eventWatchdog.nak env (env.MakeDWR c1) (eventWatchdog.req env c1)
  run [(env, stateEvent.eventWatchdog), (env, stateEvent.eventRcvDWA nak)] c

/-- The first `n` unanswered watchdog rounds in a row. -/
def timedOutRounds (env : Env) : Nat → Conn → Conn × List (Option Error)
  | 0, c => (c, [])
  | n + 1, c =>
    let r := timedOutRound env c
    let k := timedOutRounds env n r.1
    (k.1, r.2 ++ k.2)

/-! ## A concrete environment and connection -/

/-- The Result-Code attribute carrying `rc`. -/
def resultAVP (rc : Nat) : RawAVP :=
  { Code := 268, VenID := 0, FlgV := false, FlgM := true, FlgP := false, data := [rc] }

/-- Header of a sample base-protocol message with command code `code`. -/
def sampleRaw (req : Bool) (code : Nat) (avp : List RawAVP) : RawMsg :=
  { Ver := 1, FlgR := req, FlgP := false, FlgE := false, FlgT := false,
    Code := code, AppID := 0, HbHID := 0, EtEID := 0, AVP := avp }

/-- Result-Code read from a sample answer, if it has one. -/
def sampleResult (m : RawMsg) : Except Error Nat :=
  match m.AVP with
  | [a] => match a.data with
    | [rc] => Except.ok rc
    | _ => Except.error (Error.other 5004)
  | _ => Except.error (Error.other 5005)

/-- A sample decoded request. -/
def sampleCER : CER :=
  { OriginHost := "a", OriginRealm := "r", HostIPAddress := [], VendorID := 0,
    ProductName := "p", OriginStateID := 0, SupportedVendorID := [],
    ApplicationID := [], VendorSpecificApplicationID := [], FirmwareRevision := 0 }

/-- A sample decoded answer with Result-Code `rc`. -/
def sampleCEA (rc : Nat) : CEA :=
  { ResultCode := rc, OriginHost := "b", OriginRealm := "r", HostIPAddress := [],
    VendorID := 0, ProductName := "p", OriginStateID := 0, ErrorMessage := none,
    SupportedVendorID := [], ApplicationID := [], VendorSpecificApplicationID := [],
    FirmwareRevision := 0 }

/-- A concrete environment: the hooks answer with Result-Code `rc`, every
transport write has outcome `w`, requests decode when their request flag is
set, and answers carry their Result-Code in a single attribute. -/
def sampleEnv (rc : Nat) (w : Option Error) : Env :=
  { TransportTimeout := 7,
    MakeCER := fun _ => sampleCER,
    MakeDWR := fun _ => { OriginHost := "a", OriginRealm := "r", OriginStateID := 0 },
    MakeDPR := fun _ => { OriginHost := "a", OriginRealm := "r" },
    HandleCER := fun _ _ => sampleCEA rc,
    HandleDWR := fun _ _ =>
      { ResultCode := rc, OriginHost := "b", OriginRealm := "r", ErrorMessage := none,
        OriginStateID := 0 },
    HandleDPR := fun _ _ =>
      { ResultCode := rc, OriginHost := "b", OriginRealm := "r", ErrorMessage := none },
    encCER := fun _ => sampleRaw true 257 [],
    encCEA := fun a => sampleRaw false 257 [resultAVP a.ResultCode],
    encDWR := fun _ => sampleRaw true 280 [],
    encDWA := fun a => sampleRaw false 280 [resultAVP a.ResultCode],
    encDPR := fun _ => sampleRaw true 282 [],
    encDPA := fun a => sampleRaw false 282 [resultAVP a.ResultCode],
    decCER := fun m => if m.FlgR then Except.ok sampleCER else Except.error (Error.other 3008),
    decCEA := fun m => (sampleResult m).map sampleCEA,
    decDWR := fun m =>
      if m.FlgR then Except.ok { OriginHost := "b", OriginRealm := "r", OriginStateID := 0 }
      else Except.error (Error.other 3008),
    decDWA := fun m => (sampleResult m).map fun r =>
      { ResultCode := r, OriginHost := "b", OriginRealm := "r", ErrorMessage := none,
        OriginStateID := 0 },
    decDPR := fun m =>
      if m.FlgR then Except.ok { OriginHost := "b", OriginRealm := "r" }
      else Except.error (Error.other 3008),
    decDPA := fun m => (sampleResult m).map fun r =>
      { ResultCode := r, OriginHost := "b", OriginRealm := "r", ErrorMessage := none },
    WriteTo := fun _ _ => w }

/-- A concrete connection in state `s` with watchdog counter `k`, threshold 3
and the correlation entries `tbl`. -/
def sampleConn (s : state) (k : Nat) (tbl : SndStack) : Conn :=
  { «local» := { hbhID := 10, eteID := 20 },
    peer := { WDInterval := 30, WDExpired := 3, SndTimeout := 5 },
    state := s,
    wdCounter := k,
    sysTimer := { f := TimerFunc.watchdog, armed := none },
    sndstack := tbl,
    rcvstack := [],
    con := { written := [], deadline := none, closed := false },
    chanSeq := 100,
    delivered := [],
    waiters := [],
    notices := [],
    droppedTimers := [] }

/-- A sample event sequence: a watchdog fire, a watchdog request from the
peer, a stray watchdog answer and a second watchdog fire. -/
def sampleEvents : List (Env × stateEvent) :=
  [(sampleEnv 2001 none, stateEvent.eventWatchdog),
   (sampleEnv 2001 none, stateEvent.eventRcvDWR (sampleRaw true 280 [])),
   (sampleEnv 2001 none, stateEvent.eventRcvDWA (sampleRaw false 280 [resultAVP 3002])),
   (sampleEnv 2001 none, stateEvent.eventWatchdog)]

/-- An application answer whose hop-by-hop identifier 0xDEADBEEF no sender
waits for. -/
def strayAnswer : RawMsg :=
  { Ver := 1, FlgR := false, FlgP := true, FlgE := false, FlgT := false,
    Code := 8388647, AppID := 16777312, HbHID := 3735928559, EtEID := 1, AVP := [] }

/-- The event is an RcvDWA that, on connection `c` and in environment `env`,
is handled in state open, finds its hop-by-hop identifier registered and
decodes with Result-Code success. -/
def resetsCounter (env : Env) (ev : stateEvent) (c : Conn) : Bool :=
  match ev with
  | stateEvent.eventRcvDWA m =>
    decide (c.state = state.open) && (c.sndstack.get m.HbHID).isSome && successDWA env ev
  | _ => false

end sock

namespace ts29338

/-! ## The S6c messages SRR and SRA (`ts29338/S6c_SRRA.go`) -/

/-- Values of Go's `error` that `SRR.FromRaw` and `SRA.FromRaw` return.
`UnexpectedMessage` is the error of the header check, `other` an error of an
attribute getter. -/
inductive DiaError where
  | UnexpectedMessage
  | NoMandatoryAVP
  | InvalidAVP (code : Nat)
  | other (code : Nat)
deriving DecidableEq, Repr

/-- Modelled from the spec: the protocol version `dia.DiaVer`, fixed to 1
(section 3, RawMessage). -/
def DiaVer : Nat := 1

/-- Modelled from the spec: `RawMsg.Validate` of the codec (section 4.1,
validate): `UnexpectedMessage` when the application id, the command code or
one of the four flags disagrees with what is expected. -/
def Validate (m : sock.RawMsg) (appID code : Nat) (r p e t : Bool) : Option DiaError :=
  if m.AppID ≠ appID ∨ m.Code ≠ code ∨ m.FlgR ≠ r ∨ m.FlgP ≠ p ∨ m.FlgE ≠ e ∨ m.FlgT ≠ t then
    some DiaError.UnexpectedMessage
  else none

/-- Modelled from the spec: a telephone number `teldata.E164`, an external
telephony data type (section 1): its digits; `Length` counts them. -/
structure E164 where
  digits : List Nat
deriving DecidableEq, Repr

/-- The method `Length()` of a number. -/
def E164.Length (n : E164) : Nat := n.digits.length

/-- Modelled from the spec: a subscriber identity `teldata.IMSI`, an external
telephony data type (section 1): its digits; `Length` counts them. -/
structure IMSI where
  digits : List Nat
deriving DecidableEq, Repr

/-- The method `Length()` of a subscriber identity. -/
def IMSI.Length (n : IMSI) : Nat := n.digits.length

/-- Modelled from the spec: a short-message address `sms.Address`, an external
telephony data type (section 1); `Addr` is the field the source tests for
nil. -/
structure Address where
  Addr : Option (List Nat)
deriving DecidableEq, Repr

/-- The anonymous struct `Flags` of `SRR`, lines 50-54. -/
structure SRRFlags where
  GPRSSupport : Bool
  Prioritized : Bool
  SingleAttempt : Bool
deriving DecidableEq, Repr

/-- The struct `SRR`, lines 37-59.  `MTType` and `RequiredInfo` are integer
types whose constants are declared elsewhere in the package. -/
structure SRR where
  OriginHost : String
  OriginRealm : String
  DestinationHost : String
  DestinationRealm : String
  MSISDN : E164
  IMSI : IMSI
  SCAddress : E164
  MTType : Nat
  SMEAddr : Address
  Flags : SRRFlags
  RequiredInfo : Nat
deriving DecidableEq, Repr

/-- The Go zero value `SRR{}`. -/
def SRR.zero : SRR :=
  { OriginHost := "", OriginRealm := "", DestinationHost := "", DestinationRealm := "",
    MSISDN := { digits := [] }, IMSI := { digits := [] }, SCAddress := { digits := [] },
    MTType := 0, SMEAddr := { Addr := none },
    Flags := { GPRSSupport := false, Prioritized := false, SingleAttempt := false },
    RequiredInfo := 0 }

/-- One element of the array `ServingNode` of `SRA`, lines 238-244. -/
structure ServingNodeInfo where
  NodeType : Nat
  Address : E164
  Host : String
  Realm : String
  LMSI : Nat
deriving DecidableEq, Repr

/-- The anonymous struct `MWDStat` of `SRA`, lines 246-252. -/
structure MWDStatInfo where
  MSISDN : E164
  NoSCAddr : Bool
  MNRF : Bool
  MCEF : Bool
  MNRG : Bool
deriving DecidableEq, Repr

/-- The anonymous struct `AbsentUserDiag` of `SRA`, lines 253-257. -/
structure AbsentUserDiagInfo where
  MME : Nat
  MSC : Nat
  SGSN : Nat
deriving DecidableEq, Repr

/-- The struct `SRA`, lines 230-262; the array `ServingNode [2]` is the pair
`ServingNode0`, `ServingNode1`. -/
structure SRA where
  ResultCode : Nat
  OriginHost : String
  OriginRealm : String
  IMSI : IMSI
  ServingNode0 : ServingNodeInfo
  ServingNode1 : ServingNodeInfo
  MWDStat : MWDStatInfo
  AbsentUserDiag : AbsentUserDiagInfo
  FailedAVP : List sock.RawAVP
deriving DecidableEq, Repr

/-- The Go zero value `SRA{}`. -/
def SRA.zero : SRA :=
  { ResultCode := 0, OriginHost := "", OriginRealm := "", IMSI := { digits := [] },
    ServingNode0 := { NodeType := 0, Address := { digits := [] }, Host := "", Realm := "",
                      LMSI := 0 },
    ServingNode1 := { NodeType := 0, Address := { digits := [] }, Host := "", Realm := "",
                      LMSI := 0 },
    MWDStat := { MSISDN := { digits := [] }, NoSCAddr := false, MNRF := false, MCEF := false,
                 MNRG := false },
    AbsentUserDiag := { MME := 0, MSC := 0, SGSN := 0 },
    FailedAVP := [] }

/-- Everything `S6c_SRRA.go` uses that is declared in other files: the
constants `dia.ResultOffset`, `dia.DiameterInvalidAvpValue`, `UnknownMT`,
`LocationRequested` and `NodeMSC`, the attribute setters, and the attribute
getters, each of which returns its value together with an error. -/
structure Lib where
  ResultOffset : Nat
  DiameterInvalidAvpValue : Nat
  UnknownMT : Nat
  LocationRequested : Nat
  NodeMSC : Nat
  SetSessionID : String → sock.RawAVP
  SetVendorSpecAppID : Nat → Nat → sock.RawAVP
  SetAuthSessionState : Bool → sock.RawAVP
  SetOriginHost : String → sock.RawAVP
  SetOriginRealm : String → sock.RawAVP
  SetDestinationHost : String → sock.RawAVP
  SetDestinationRealm : String → sock.RawAVP
  SetRouteRecord : String → sock.RawAVP
  SetResultCode : Nat → sock.RawAVP
  SetExperimentalResult : Nat → Nat → sock.RawAVP
  SetFailedAVP : List sock.RawAVP → sock.RawAVP
  setMSISDN : E164 → sock.RawAVP
  setUserName : IMSI → sock.RawAVP
  setSCAddress : E164 → sock.RawAVP
  setSMRPMTI : Nat → sock.RawAVP
  setSMRPSMEA : Address → sock.RawAVP
  setSRRFlags : Bool → Bool → Bool → sock.RawAVP
  setSMDeliveryNotIntended : Nat → sock.RawAVP
  setServingNode : Nat → E164 → String → String → sock.RawAVP
  setAdditionalServingNode : Nat → E164 → String → String → sock.RawAVP
  setLMSI : Nat → sock.RawAVP
  setUserIdentifier : E164 → sock.RawAVP
  setMWDStatus : Bool → Bool → Bool → Bool → sock.RawAVP
  setMMEAbsentUserDiagnosticSM : Nat → sock.RawAVP
  setMSCAbsentUserDiagnosticSM : Nat → sock.RawAVP
  setSGSNAbsentUserDiagnosticSM : Nat → sock.RawAVP
  GetSessionID : sock.RawAVP → String × Option DiaError
  GetOriginHost : sock.RawAVP → String × Option DiaError
  GetOriginRealm : sock.RawAVP → String × Option DiaError
  GetDestinationHost : sock.RawAVP → String × Option DiaError
  GetDestinationRealm : sock.RawAVP → String × Option DiaError
  GetResultCode : sock.RawAVP → Nat × Option DiaError
  GetExperimentalResult : sock.RawAVP → (Nat × Nat) × Option DiaError
  getMSISDN : sock.RawAVP → E164 × Option DiaError
  getUserName : sock.RawAVP → IMSI × Option DiaError
  getSCAddress : sock.RawAVP → E164 × Option DiaError
  getSMRPMTI : sock.RawAVP → Nat × Option DiaError
  getSMRPSMEA : sock.RawAVP → Address × Option DiaError
  getSRRFlags : sock.RawAVP → (Bool × Bool × Bool) × Option DiaError
  getSMDeliveryNotIntended : sock.RawAVP → Nat × Option DiaError
  getUserIdentifier : sock.RawAVP → E164 × Option DiaError
  getServingNode : sock.RawAVP → (Nat × E164 × String × String) × Option DiaError
  getAdditionalServingNode : sock.RawAVP → (Nat × E164 × String × String) × Option DiaError
  getLMSI : sock.RawAVP → Nat × Option DiaError
  getMWDStatus : sock.RawAVP → (Bool × Bool × Bool × Bool) × Option DiaError
  getMMEAbsentUserDiagnosticSM : sock.RawAVP → Nat × Option DiaError
  getMSCAbsentUserDiagnosticSM : sock.RawAVP → Nat × Option DiaError
  getSGSNAbsentUserDiagnosticSM : sock.RawAVP → Nat × Option DiaError

/-- The method `SRR.ToRaw`, lines 99-142. -/
def SRR.ToRaw (k : Lib) (v : SRR) (s : String) : sock.RawMsg :=
  { Ver := DiaVer,
    FlgR := true, FlgP := true, FlgE := false, FlgT := false,
    Code := 8388647, AppID := 16777312,
    HbHID := 0, EtEID := 0,
    AVP :=
      [k.SetSessionID s,
       k.SetVendorSpecAppID 10415 16777312,
       k.SetAuthSessionState false,
       k.SetOriginHost v.OriginHost,
       k.SetOriginRealm v.OriginRealm] ++
      (if v.DestinationHost.length ≠ 0 then [k.SetDestinationHost v.DestinationHost] else []) ++
      [k.SetDestinationRealm v.DestinationRealm] ++
      [if v.MSISDN.Length ≠ 0 then k.setMSISDN v.MSISDN
       else if v.IMSI.Length ≠ 0 then k.setUserName v.IMSI
       else k.setMSISDN v.MSISDN] ++
      [k.setSCAddress v.SCAddress] ++
      (if v.MTType ≠ k.UnknownMT then [k.setSMRPMTI v.MTType] else []) ++
      (if v.SMEAddr.Addr ≠ none then [k.setSMRPSMEA v.SMEAddr] else []) ++
      (if v.Flags.GPRSSupport ∨ v.Flags.SingleAttempt ∨ v.Flags.Prioritized then
        [k.setSRRFlags v.Flags.GPRSSupport v.Flags.SingleAttempt v.Flags.Prioritized]
       else []) ++
      (if v.RequiredInfo ≠ k.LocationRequested then
        [k.setSMDeliveryNotIntended v.RequiredInfo]
       else []) ++
      [k.SetRouteRecord v.OriginHost] }

/-- The header check that opens `SRR.FromRaw`, line 147. -/
def SRR.FromRaw.validate (m : sock.RawMsg) : Option DiaError :=
  Validate m 16777312 8388647 true true false false

/-- The body of the loop of `SRR.FromRaw` for one attribute, lines 154-179:
the value `v`, the session id `s` and the error `e` after the attribute. -/
def SRR.FromRaw.avp (k : Lib) (a : sock.RawAVP) (v : SRR) (s : String) (e : Option DiaError) :
    SRR × String × Option DiaError :=
  if a.VenID = 0 ∧ a.Code = 263 then
    (v, (k.GetSessionID a).1, (k.GetSessionID a).2)
  else if a.VenID = 0 ∧ a.Code = 264 then
    ({ v with OriginHost := (k.GetOriginHost a).1 }, s, (k.GetOriginHost a).2)
  else if a.VenID = 0 ∧ a.Code = 296 then
    ({ v with OriginRealm := (k.GetOriginRealm a).1 }, s, (k.GetOriginRealm a).2)
  else if a.VenID = 0 ∧ a.Code = 293 then
    ({ v with DestinationHost := (k.GetDestinationHost a).1 }, s, (k.GetDestinationHost a).2)
  else if a.VenID = 0 ∧ a.Code = 283 then
    ({ v with DestinationRealm := (k.GetDestinationRealm a).1 }, s,
      (k.GetDestinationRealm a).2)
  else if a.VenID = 10415 ∧ a.Code = 701 then
    ({ v with MSISDN := (k.getMSISDN a).1 }, s, (k.getMSISDN a).2)
  else if a.VenID = 0 ∧ a.Code = 1 then
    ({ v with IMSI := (k.getUserName a).1 }, s, (k.getUserName a).2)
  else if a.VenID = 10415 ∧ a.Code = 3300 then
    ({ v with SCAddress := (k.getSCAddress a).1 }, s, (k.getSCAddress a).2)
  else if a.VenID = 10415 ∧ a.Code = 3308 then
    ({ v with MTType := (k.getSMRPMTI a).1 }, s, (k.getSMRPMTI a).2)
  else if a.VenID = 10415 ∧ a.Code = 3309 then
    ({ v with SMEAddr := (k.getSMRPSMEA a).1 }, s, (k.getSMRPSMEA a).2)
  else if a.VenID = 10415 ∧ a.Code = 3310 then
    ({ v with Flags := { GPRSSupport := (k.getSRRFlags a).1.1,
                         SingleAttempt := (k.getSRRFlags a).1.2.1,
                         Prioritized := (k.getSRRFlags a).1.2.2 } }, s, (k.getSRRFlags a).2)
  else if a.VenID = 10415 ∧ a.Code = 3311 then
    ({ v with RequiredInfo := (k.getSMDeliveryNotIntended a).1 }, s,
      (k.getSMDeliveryNotIntended a).2)
  else (v, s, e)

/-- The loop of `SRR.FromRaw`, lines 153-184.  The result is `(nil, s, e)` on
the early return of line 182, and the value and the session id when the loop
runs to its end; at the top of every iteration the error is nil. -/
def SRR.FromRaw.loop (k : Lib) : List sock.RawAVP → SRR → String →
    Except (String × DiaError) (SRR × String)
  | [], v, s => Except.ok (v, s)
  | a :: rest, v, s =>
    match (SRR.FromRaw.avp k a v s none).2.2 with
    | some e => Except.error ((SRR.FromRaw.avp k a v s none).2.1, e)
    | none =>
      SRR.FromRaw.loop k rest (SRR.FromRaw.avp k a v s none).1
        (SRR.FromRaw.avp k a v s none).2.1

/-- Lines 186-191 of `SRR.FromRaw`: the error after the checks of the
values. -/
def SRR.FromRaw.check (v : SRR) : Option DiaError :=
  if v.OriginHost.length = 0 ∨ v.OriginRealm.length = 0 ∨
      v.DestinationRealm.length = 0 ∨ v.SCAddress.Length = 0 then
    some DiaError.NoMandatoryAVP
  else if v.MSISDN.Length = 0 ∧ v.IMSI.Length = 0 then
    some DiaError.NoMandatoryAVP
  else none

/-- The method `SRR.FromRaw`, lines 145-193.  The three results are the
request (nil on an early return), the session id and the error. -/
def SRR.FromRaw (k : Lib) (m : sock.RawMsg) : Option SRR × String × Option DiaError :=
  match SRR.FromRaw.validate m with
  | some e => (none, "", some e)
  | none =>
    match SRR.FromRaw.loop k m.AVP SRR.zero "" with
    | Except.error (s, e) => (none, s, some e)
    | Except.ok (v, s) => (some v, s, SRR.FromRaw.check v)

/-- The method `SRA.ToRaw`, lines 308-374. -/
def SRA.ToRaw (k : Lib) (v : SRA) (s : String) : sock.RawMsg :=
  let head : List sock.RawAVP :=
    [k.SetSessionID s,
     k.SetVendorSpecAppID 10415 16777312,
     (if v.ResultCode > k.ResultOffset then k.SetExperimentalResult 10415 v.ResultCode
      else k.SetResultCode v.ResultCode),
     k.SetAuthSessionState false,
     k.SetOriginHost v.OriginHost,
     k.SetOriginRealm v.OriginRealm]
  let tail : List sock.RawAVP :=
    if v.ResultCode ≠ sock.DiameterSuccess then
      (if v.FailedAVP.length ≠ 0 then [k.SetFailedAVP v.FailedAVP] else [])
    else
      [k.setUserName v.IMSI] ++
      (if v.ServingNode0.Address.Length ≠ 0 then
        [k.setServingNode v.ServingNode0.NodeType v.ServingNode0.Address v.ServingNode0.Host
          v.ServingNode0.Realm] ++
        (if v.ServingNode0.NodeType = k.NodeMSC ∧ v.ServingNode0.LMSI ≠ 0 then
          [k.setLMSI v.ServingNode0.LMSI] else []) ++
        (if v.ServingNode1.Address.Length ≠ 0 ∧
            v.ServingNode0.NodeType ≠ v.ServingNode1.NodeType then
          [k.setAdditionalServingNode v.ServingNode1.NodeType v.ServingNode1.Address
            v.ServingNode1.Host v.ServingNode1.Realm] ++
          (if v.ServingNode1.NodeType = k.NodeMSC ∧ v.ServingNode1.LMSI ≠ 0 then
            [k.setLMSI v.ServingNode1.LMSI] else [])
         else [])
       else []) ++
      (if v.MWDStat.MSISDN.Length ≠ 0 then [k.setUserIdentifier v.MWDStat.MSISDN] else []) ++
      (if v.MWDStat.NoSCAddr ∨ v.MWDStat.MNRF ∨ v.MWDStat.MCEF ∨ v.MWDStat.MNRG then
        [k.setMWDStatus v.MWDStat.NoSCAddr v.MWDStat.MNRF v.MWDStat.MCEF v.MWDStat.MNRG]
       else []) ++
      (if v.AbsentUserDiag.MME ≠ 0 then
        [k.setMMEAbsentUserDiagnosticSM v.AbsentUserDiag.MME] else []) ++
      (if v.AbsentUserDiag.MSC ≠ 0 then
        [k.setMSCAbsentUserDiagnosticSM v.AbsentUserDiag.MSC] else []) ++
      (if v.AbsentUserDiag.SGSN ≠ 0 then
        [k.setSGSNAbsentUserDiagnosticSM v.AbsentUserDiag.SGSN] else [])
  { Ver := DiaVer,
    FlgR := false, FlgP := true, FlgE := false, FlgT := false,
    Code := 8388647, AppID := 16777312,
    HbHID := 0, EtEID := 0,
    AVP := head ++ tail }

/-- The header check that opens `SRA.FromRaw`, line 379. -/
def SRA.FromRaw.validate (m : sock.RawMsg) : Option DiaError :=
  Validate m 16777312 8388647 false true false false

/-- The body of the loop of `SRA.FromRaw` for one attribute, lines 387-423:
the value `v`, the session id `s`, the local `lmsi` and the error `e` after
the attribute. -/
def SRA.FromRaw.avp (k : Lib) (a : sock.RawAVP) (v : SRA) (s : String) (lmsi : Nat)
    (e : Option DiaError) : SRA × String × Nat × Option DiaError :=
  if a.VenID = 0 ∧ a.Code = 263 then
    (v, (k.GetSessionID a).1, lmsi, (k.GetSessionID a).2)
  else if a.VenID = 0 ∧ a.Code = 268 then
    ({ v with ResultCode := (k.GetResultCode a).1 }, s, lmsi, (k.GetResultCode a).2)
  else if a.VenID = 0 ∧ a.Code = 297 then
    ({ v with ResultCode := (k.GetExperimentalResult a).1.2 }, s, lmsi,
      (k.GetExperimentalResult a).2)
  else if a.VenID = 0 ∧ a.Code = 264 then
    ({ v with OriginHost := (k.GetOriginHost a).1 }, s, lmsi, (k.GetOriginHost a).2)
  else if a.VenID = 0 ∧ a.Code = 296 then
    ({ v with OriginRealm := (k.GetOriginRealm a).1 }, s, lmsi, (k.GetOriginRealm a).2)
  else if a.VenID = 0 ∧ a.Code = 1 then
    ({ v with IMSI := (k.getUserName a).1 }, s, lmsi, (k.getUserName a).2)
  else if a.VenID = 10415 ∧ a.Code = 3102 then
    ({ v with MWDStat := { v.MWDStat with MSISDN := (k.getUserIdentifier a).1 } }, s, lmsi,
      (k.getUserIdentifier a).2)
  else if a.VenID = 10415 ∧ a.Code = 2401 then
    ({ v with ServingNode0 :=
        { v.ServingNode0 with NodeType := (k.getServingNode a).1.1,
                              Address := (k.getServingNode a).1.2.1,
                              Host := (k.getServingNode a).1.2.2.1,
                              Realm := (k.getServingNode a).1.2.2.2 } }, s, lmsi,
      (k.getServingNode a).2)
  else if a.VenID = 10415 ∧ a.Code = 2406 then
    ({ v with ServingNode1 :=
        { v.ServingNode1 with NodeType := (k.getAdditionalServingNode a).1.1,
                              Address := (k.getAdditionalServingNode a).1.2.1,
                              Host := (k.getAdditionalServingNode a).1.2.2.1,
                              Realm := (k.getAdditionalServingNode a).1.2.2.2 } }, s, lmsi,
      (k.getAdditionalServingNode a).2)
  else if a.VenID = 10415 ∧ a.Code = 2400 then
    (v, s, (k.getLMSI a).1, (k.getLMSI a).2)
  else if a.VenID = 10415 ∧ a.Code = 3312 then
    ({ v with MWDStat :=
        { v.MWDStat with NoSCAddr := (k.getMWDStatus a).1.1,
                         MNRF := (k.getMWDStatus a).1.2.1,
                         MCEF := (k.getMWDStatus a).1.2.2.1,
                         MNRG := (k.getMWDStatus a).1.2.2.2 } }, s, lmsi,
      (k.getMWDStatus a).2)
  else if a.VenID = 10415 ∧ a.Code = 3313 then
    ({ v with AbsentUserDiag :=
        { v.AbsentUserDiag with MME := (k.getMMEAbsentUserDiagnosticSM a).1 } }, s, lmsi,
      (k.getMMEAbsentUserDiagnosticSM a).2)
  else if a.VenID = 10415 ∧ a.Code = 3314 then
    ({ v with AbsentUserDiag :=
        { v.AbsentUserDiag with MSC := (k.getMSCAbsentUserDiagnosticSM a).1 } }, s, lmsi,
      (k.getMSCAbsentUserDiagnosticSM a).2)
  else if a.VenID = 10415 ∧ a.Code = 3315 then
    ({ v with AbsentUserDiag :=
        { v.AbsentUserDiag with SGSN := (k.getSGSNAbsentUserDiagnosticSM a).1 } }, s, lmsi,
      (k.getSGSNAbsentUserDiagnosticSM a).2)
  else (v, s, lmsi, e)

/-- The loop of `SRA.FromRaw`, lines 386-427.  The result is `(nil, s, e)` on
the early return of line 425, and the value, the session id and the local
`lmsi` when the loop runs to its end. -/
def SRA.FromRaw.loop (k : Lib) : List sock.RawAVP → SRA → String → Nat →
    Except (String × DiaError) (SRA × String × Nat)
  | [], v, s, lmsi => Except.ok (v, s, lmsi)
  | a :: rest, v, s, lmsi =>
    match (SRA.FromRaw.avp k a v s lmsi none).2.2.2 with
    | some e => Except.error ((SRA.FromRaw.avp k a v s lmsi none).2.1, e)
    | none =>
      SRA.FromRaw.loop k rest (SRA.FromRaw.avp k a v s lmsi none).1
        (SRA.FromRaw.avp k a v s lmsi none).2.1 (SRA.FromRaw.avp k a v s lmsi none).2.2.1

/-- Lines 429-436 of `SRA.FromRaw`: a received LMSI goes to the serving nodes
of type MSC. -/
def SRA.FromRaw.putLMSI (k : Lib) (v : SRA) (lmsi : Nat) : SRA :=
  if lmsi ≠ 0 then
    let v1 := if v.ServingNode0.NodeType = k.NodeMSC then
        { v with ServingNode0 := { v.ServingNode0 with LMSI := lmsi } } else v
    if v1.ServingNode1.NodeType = k.NodeMSC then
      { v1 with ServingNode1 := { v1.ServingNode1 with LMSI := lmsi } } else v1
  else v

/-- Lines 438-451 of `SRA.FromRaw`: the error after the checks of the values. -/
def SRA.FromRaw.check (k : Lib) (v : SRA) : Option DiaError :=
  let e1 : Option DiaError :=
    if v.ResultCode = 0 ∨ v.OriginHost.length = 0 ∨ v.OriginRealm.length = 0 then
      some DiaError.NoMandatoryAVP
    else none
  if v.ResultCode = sock.DiameterSuccess then
    if v.IMSI.Length = 0 then some DiaError.NoMandatoryAVP
    else if v.ServingNode0.Address.Length = 0 then some DiaError.NoMandatoryAVP
    else if v.ServingNode1.Address.Length ≠ 0 ∧
        v.ServingNode0.NodeType = v.ServingNode1.NodeType then
      some (DiaError.InvalidAVP k.DiameterInvalidAvpValue)
    else e1
  else e1

/-- The method `SRA.FromRaw`, lines 377-453.  The three results are the
answer (nil on an early return), the session id and the error. -/
def SRA.FromRaw (k : Lib) (m : sock.RawMsg) : Option SRA × String × Option DiaError :=
  match SRA.FromRaw.validate m with
  | some e => (none, "", some e)
  | none =>
    match SRA.FromRaw.loop k m.AVP SRA.zero "" 0 with
    | Except.error (s, e) => (none, s, some e)
    | Except.ok (v, s, lmsi) =>
      (some (SRA.FromRaw.putLMSI k v lmsi), s,
        SRA.FromRaw.check k (SRA.FromRaw.putLMSI k v lmsi))

/-! ## Terms of the statements on SRR and SRA -/

/-- The attribute carries one of the (vendor, code) pairs that the loop of
`SRR.FromRaw` tests for. -/
def SRR.recognised (a : sock.RawAVP) : Bool :=
  (a.VenID == 0 && a.Code == 263) || (a.VenID == 0 && a.Code == 264) ||
  (a.VenID == 0 && a.Code == 296) || (a.VenID == 0 && a.Code == 293) ||
  (a.VenID == 0 && a.Code == 283) || (a.VenID == 10415 && a.Code == 701) ||
  (a.VenID == 0 && a.Code == 1) || (a.VenID == 10415 && a.Code == 3300) ||
  (a.VenID == 10415 && a.Code == 3308) || (a.VenID == 10415 && a.Code == 3309) ||
  (a.VenID == 10415 && a.Code == 3310) || (a.VenID == 10415 && a.Code == 3311)

/-- A mandatory value is missing, in the words of the specification:
Origin-Host, Origin-Realm, Destination-Realm or SC-Address is empty, or both
MSISDN and User-Name are empty. -/
def SRR.mandatoryMissing (v : SRR) : Prop :=
  v.OriginHost.length = 0 ∨ v.OriginRealm.length = 0 ∨ v.DestinationRealm.length = 0 ∨
  v.SCAddress.Length = 0 ∨ (v.MSISDN.Length = 0 ∧ v.IMSI.Length = 0)

/-- The attribute is a result attribute: Result-Code (268) or
Experimental-Result (297), as `SRA.FromRaw` tests for them. -/
def isResultAVP (a : sock.RawAVP) : Bool :=
  a.VenID == 0 && (a.Code == 268 || a.Code == 297)

/-- The attribute is one of User-Name, Serving-Node, Additional-Serving-Node,
LMSI, User-Identifier, MWD-Status and the three Absent-User-Diagnostic
attributes, as `SRA.FromRaw` tests for them. -/
def isSubscriberAVP (a : sock.RawAVP) : Bool :=
  (a.VenID == 0 && a.Code == 1) ||
  (a.VenID == 10415 &&
    (a.Code == 2401 || a.Code == 2406 || a.Code == 2400 || a.Code == 3102 ||
     a.Code == 3312 || a.Code == 3313 || a.Code == 3314 || a.Code == 3315))

/-- The attribute has vendor `ven` and code `code`. -/
def hasTag (a : sock.RawAVP) (ven code : Nat) : Prop := a.VenID = ven ∧ a.Code = code

/-- The value that `f` reads from the last attribute of the list `l` with
vendor `ven` and code `code`; `d` when the list has no such attribute. -/
def lastValue {α : Type} (f : sock.RawAVP → α) (ven code : Nat) (l : List sock.RawAVP)
    (d : α) : α :=
  match (l.filter fun a => a.VenID == ven && a.Code == code).getLast? with
  | some a => f a
  | none => d

/-- The request that a list of attributes stands for, in the words of the
specification: every field holds the value decoded from the attribute of the
field (Origin-Host 264, Origin-Realm 296, Destination-Host 293,
Destination-Realm 283, User-Name 1; with vendor 10415 MSISDN 701, SC-Address
3300, SM-RP-MTI 3308, SM-RP-SMEA 3309, SRR-Flags 3310 and
SM-Delivery-Not-Intended 3311), the last one when the attribute occurs more
than once, and is empty when the list has no such attribute. -/
def SRR.ofAVPs (k : Lib) (l : List sock.RawAVP) : SRR :=
  { OriginHost := lastValue (fun a => (k.GetOriginHost a).1) 0 264 l "",
    OriginRealm := lastValue (fun a => (k.GetOriginRealm a).1) 0 296 l "",
    DestinationHost := lastValue (fun a => (k.GetDestinationHost a).1) 0 293 l "",
    DestinationRealm := lastValue (fun a => (k.GetDestinationRealm a).1) 0 283 l "",
    MSISDN := lastValue (fun a => (k.getMSISDN a).1) 10415 701 l { digits := [] },
    IMSI := lastValue (fun a => (k.getUserName a).1) 0 1 l { digits := [] },
    SCAddress := lastValue (fun a => (k.getSCAddress a).1) 10415 3300 l { digits := [] },
    MTType := lastValue (fun a => (k.getSMRPMTI a).1) 10415 3308 l 0,
    SMEAddr := lastValue (fun a => (k.getSMRPSMEA a).1) 10415 3309 l { Addr := none },
    Flags := lastValue
      (fun a => { GPRSSupport := (k.getSRRFlags a).1.1,
                  SingleAttempt := (k.getSRRFlags a).1.2.1,
                  Prioritized := (k.getSRRFlags a).1.2.2 })
      10415 3310 l { GPRSSupport := false, Prioritized := false, SingleAttempt := false },
    RequiredInfo := lastValue (fun a => (k.getSMDeliveryNotIntended a).1) 10415 3311 l 0 }

/-- The session id that a list of attributes carries: the value decoded from
its last Session-Id attribute (263), empty when it has none. -/
def SRR.sessionOfAVPs (k : Lib) (l : List sock.RawAVP) : String :=
  lastValue (fun a => (k.GetSessionID a).1) 0 263 l ""

/-- The attribute, when it is one that an SRR is read from, decodes without
error: the getter of its (vendor, code) pair reports none. -/
def SRR.decodes (k : Lib) (a : sock.RawAVP) : Prop :=
  (hasTag a 0 263 → (k.GetSessionID a).2 = none) ∧
  (hasTag a 0 264 → (k.GetOriginHost a).2 = none) ∧
  (hasTag a 0 296 → (k.GetOriginRealm a).2 = none) ∧
  (hasTag a 0 293 → (k.GetDestinationHost a).2 = none) ∧
  (hasTag a 0 283 → (k.GetDestinationRealm a).2 = none) ∧
  (hasTag a 10415 701 → (k.getMSISDN a).2 = none) ∧
  (hasTag a 0 1 → (k.getUserName a).2 = none) ∧
  (hasTag a 10415 3300 → (k.getSCAddress a).2 = none) ∧
  (hasTag a 10415 3308 → (k.getSMRPMTI a).2 = none) ∧
  (hasTag a 10415 3309 → (k.getSMRPSMEA a).2 = none) ∧
  (hasTag a 10415 3310 → (k.getSRRFlags a).2 = none) ∧
  (hasTag a 10415 3311 → (k.getSMDeliveryNotIntended a).2 = none)

/-- The setters that `SRA.ToRaw` calls make attributes with the vendor and
code under which `SRA.FromRaw` reads them back (for Vendor-Specific-
Application-Id, Auth-Session-State and Failed-AVP, which it does not read,
the codes 260, 277 and 279 of the base protocol). -/
def Lib.tagged (k : Lib) : Prop :=
  (∀ s, hasTag (k.SetSessionID s) 0 263) ∧
  (∀ v a, hasTag (k.SetVendorSpecAppID v a) 0 260) ∧
  (∀ c, hasTag (k.SetResultCode c) 0 268) ∧
  (∀ v c, hasTag (k.SetExperimentalResult v c) 0 297) ∧
  (∀ b, hasTag (k.SetAuthSessionState b) 0 277) ∧
  (∀ h, hasTag (k.SetOriginHost h) 0 264) ∧
  (∀ r, hasTag (k.SetOriginRealm r) 0 296) ∧
  (∀ l, hasTag (k.SetFailedAVP l) 0 279) ∧
  (∀ i, hasTag (k.setUserName i) 0 1) ∧
  (∀ t a h r, hasTag (k.setServingNode t a h r) 10415 2401) ∧
  (∀ t a h r, hasTag (k.setAdditionalServingNode t a h r) 10415 2406) ∧
  (∀ l, hasTag (k.setLMSI l) 10415 2400) ∧
  (∀ n, hasTag (k.setUserIdentifier n) 10415 3102) ∧
  (∀ a b c d, hasTag (k.setMWDStatus a b c d) 10415 3312) ∧
  (∀ n, hasTag (k.setMMEAbsentUserDiagnosticSM n) 10415 3313) ∧
  (∀ n, hasTag (k.setMSCAbsentUserDiagnosticSM n) 10415 3314) ∧
  (∀ n, hasTag (k.setSGSNAbsentUserDiagnosticSM n) 10415 3315)

/-! ## A concrete attribute library -/

/-- A sample attribute with vendor `ven`, code `code` and payload `data`. -/
def tagAVP (ven code : Nat) (data : List Nat) : sock.RawAVP :=
  { Code := code, VenID := ven, FlgV := ven != 0, FlgM := true, FlgP := false, data := data }

/-- The character codes of a string. -/
def strData (s : String) : List Nat := s.toList.map Char.toNat

/-- The string with the given character codes. -/
def dataStr (d : List Nat) : String := String.mk (d.map Char.ofNat)

/-- A concrete library: every setter tags its attribute with the vendor and
code of the attribute and puts the value into the payload, and every getter
reads the payload back and reports no error, but for the Result-Code getter,
which reports an error on an empty payload. -/
def sampleLib : Lib :=
  { ResultOffset := 10000,
    DiameterInvalidAvpValue := 5004,
    UnknownMT := 0,
    LocationRequested := 0,
    NodeMSC := 2,
    SetSessionID := fun s => tagAVP 0 263 (strData s),
    SetVendorSpecAppID := fun v a => tagAVP 0 260 [v, a],
    SetAuthSessionState := fun b => tagAVP 0 277 [if b then 0 else 1],
    SetOriginHost := fun h => tagAVP 0 264 (strData h),
    SetOriginRealm := fun r => tagAVP 0 296 (strData r),
    SetDestinationHost := fun h => tagAVP 0 293 (strData h),
    SetDestinationRealm := fun r => tagAVP 0 283 (strData r),
    SetRouteRecord := fun h => tagAVP 0 282 (strData h),
    SetResultCode := fun c => tagAVP 0 268 [c],
    SetExperimentalResult := fun v c => tagAVP 0 297 [v, c],
    SetFailedAVP := fun l => tagAVP 0 279 (l.map fun a => a.Code),
    setMSISDN := fun n => tagAVP 10415 701 n.digits,
    setUserName := fun n => tagAVP 0 1 n.digits,
    setSCAddress := fun n => tagAVP 10415 3300 n.digits,
    setSMRPMTI := fun t => tagAVP 10415 3308 [t],
    setSMRPSMEA := fun a => tagAVP 10415 3309 (a.Addr.getD []),
    setSRRFlags := fun g s p =>
      tagAVP 10415 3310 [if g then 1 else 0, if s then 1 else 0, if p then 1 else 0],
    setSMDeliveryNotIntended := fun r => tagAVP 10415 3311 [r],
    setServingNode := fun t a _ _ => tagAVP 10415 2401 (t :: a.digits),
    setAdditionalServingNode := fun t a _ _ => tagAVP 10415 2406 (t :: a.digits),
    setLMSI := fun l => tagAVP 10415 2400 [l],
    setUserIdentifier := fun n => tagAVP 10415 3102 n.digits,
    setMWDStatus := fun a b c d =>
      tagAVP 10415 3312
        [if a then 1 else 0, if b then 1 else 0, if c then 1 else 0, if d then 1 else 0],
    setMMEAbsentUserDiagnosticSM := fun n => tagAVP 10415 3313 [n],
    setMSCAbsentUserDiagnosticSM := fun n => tagAVP 10415 3314 [n],
    setSGSNAbsentUserDiagnosticSM := fun n => tagAVP 10415 3315 [n],
    GetSessionID := fun a => (dataStr a.data, none),
    GetOriginHost := fun a => (dataStr a.data, none),
    GetOriginRealm := fun a => (dataStr a.data, none),
    GetDestinationHost := fun a => (dataStr a.data, none),
    GetDestinationRealm := fun a => (dataStr a.data, none),
    GetResultCode := fun a =>
      match a.data with
      | [] => (0, some (DiaError.other 5014))
      | c :: _ => (c, none),
    GetExperimentalResult := fun a => ((a.data.headD 0, a.data.tail.headD 0), none),
    getMSISDN := fun a => ({ digits := a.data }, none),
    getUserName := fun a => ({ digits := a.data }, none),
    getSCAddress := fun a => ({ digits := a.data }, none),
    getSMRPMTI := fun a => (a.data.headD 0, none),
    getSMRPSMEA := fun a => ({ Addr := some a.data }, none),
    getSRRFlags := fun a =>
      ((a.data.headD 0 == 1, a.data.tail.headD 0 == 1, a.data.tail.tail.headD 0 == 1), none),
    getSMDeliveryNotIntended := fun a => (a.data.headD 0, none),
    getUserIdentifier := fun a => ({ digits := a.data }, none),
    getServingNode := fun a => ((a.data.headD 0, { digits := a.data.tail }, "", ""), none),
    getAdditionalServingNode := fun a =>
      ((a.data.headD 0, { digits := a.data.tail }, "", ""), none),
    getLMSI := fun a => (a.data.headD 0, none),
    getMWDStatus := fun a =>
      ((a.data.headD 0 == 1, a.data.tail.headD 0 == 1, a.data.tail.tail.headD 0 == 1,
        a.data.tail.tail.tail.headD 0 == 1), none),
    getMMEAbsentUserDiagnosticSM := fun a => (a.data.headD 0, none),
    getMSCAbsentUserDiagnosticSM := fun a => (a.data.headD 0, none),
    getSGSNAbsentUserDiagnosticSM := fun a => (a.data.headD 0, none) }

/-- A sample request: origin and destination given, the subscriber named by
an MSISDN. -/
def sampleSRR : SRR :=
  { SRR.zero with
    OriginHost := "a", OriginRealm := "r", DestinationRealm := "d",
    MSISDN := { digits := [8, 1, 9, 0] }, SCAddress := { digits := [8, 1, 3] } }

/-- A sample request message: the one made from `sampleSRR` with one
attribute that `SRR.FromRaw` does not know put in front. -/
def sampleSRRMsg : sock.RawMsg :=
  { SRR.ToRaw sampleLib sampleSRR "s" with
    AVP := tagAVP 10415 9999 [7] :: (SRR.ToRaw sampleLib sampleSRR "s").AVP }

/-- A sample request message with the header of an SRR and, as its only
attributes, Origin-Host "a", Origin-Realm "r", Destination-Realm "d", MSISDN
8190 and SC-Address 813: it has neither a Session-Id nor an
Auth-Session-State attribute. -/
def sampleSRRBare : sock.RawMsg :=
  { Ver := DiaVer, FlgR := true, FlgP := true, FlgE := false, FlgT := false,
    Code := 8388647, AppID := 16777312, HbHID := 0, EtEID := 0,
    AVP := [tagAVP 0 264 (strData "a"), tagAVP 0 296 (strData "r"),
            tagAVP 0 283 (strData "d"), tagAVP 10415 701 [8, 1, 9, 0],
            tagAVP 10415 3300 [8, 1, 3]] }

/-- A sample answer that reports a failure and carries subscriber data. -/
def sampleSRA : SRA :=
  { SRA.zero with
    ResultCode := 5001, OriginHost := "b", OriginRealm := "r",
    IMSI := { digits := [4, 4, 0] },
    MWDStat := { SRA.zero.MWDStat with MNRF := true },
    AbsentUserDiag := { MME := 1, MSC := 2, SGSN := 3 } }

end ts29338

namespace sock

/-! ## Lemmas on the correlation table -/

theorem SndStack.get_delete_self (s : SndStack) (k : Nat) :
    SndStack.get (SndStack.delete s k) k = none := by
  induction s with
  | nil => rfl
  | cons p rest ih =>
    obtain ⟨k', ch⟩ := p
    by_cases hk : k' = k
    · simp [SndStack.delete, hk, ih]
    · simp [SndStack.delete, SndStack.get, hk, ih]

theorem SndStack.get_delete_ne (s : SndStack) (k j : Nat) (hj : j ≠ k) :
    SndStack.get (SndStack.delete s k) j = SndStack.get s j := by
  induction s with
  | nil => rfl
  | cons p rest ih =>
    obtain ⟨k', ch⟩ := p
    by_cases hk : k' = k
    · have hkj : ¬ k' = j := fun h => hj (h ▸ hk)
      simp only [SndStack.delete, SndStack.get, if_pos hk, if_neg hkj, ih]
    · by_cases hkj : k' = j
      · simp only [SndStack.delete, SndStack.get, if_neg hk, if_pos hkj]
      · simp only [SndStack.delete, SndStack.get, if_neg hk, if_neg hkj, ih]

theorem SndStack.get_set_self (s : SndStack) (k ch : Nat) :
    SndStack.get (SndStack.set s k ch) k = some ch := by
  simp [SndStack.set, SndStack.get]

theorem SndStack.get_set_ne (s : SndStack) (k ch j : Nat) (hj : j ≠ k) :
    SndStack.get (SndStack.set s k ch) j = SndStack.get s j := by
  have hkj : ¬ k = j := fun h => hj h.symm
  simp [SndStack.set, SndStack.get, hkj, SndStack.get_delete_ne s k j hj]

/-! ## Illegal events -/

/-- C1: an event handled in a state that is not its legal state (Connect
outside closed, RcvCER outside waitCER, RcvCEA outside waitCEA, RcvDPA outside
closing, Watchdog, RcvDWR, RcvDWA, RcvDPR, RcvMsg, SndMsg and Stop outside
open, Init in any state; PeerDisc is legal everywhere) returns
NotAcceptableEvent with that event and the current state, and the whole
connection record, with the logs of writes, closes, channel sends and
notices, is unchanged. -/
theorem illegal_event_not_acceptable (env : Env) (ev : stateEvent) (c : Conn)
    (h : legal ev c.state = false) :
    ev.exec env c = (c, some (Error.NotAcceptableEvent ev c.state)) := by
  cases ev <;>
    simp [legal] at h <;>
    simp [stateEvent.exec, eventInit.exec, eventConnect.exec, eventWatchdog.exec,
      eventStop.exec, eventSndMsg.exec, eventRcvCER.exec, eventRcvCEA.exec,
      eventRcvDWR.exec, eventRcvDWA.exec, eventRcvDPR.exec, eventRcvDPA.exec,
      eventRcvMsg.exec, h]

theorem illegal_event_not_acceptable_witness :
    legal stateEvent.eventConnect (sampleConn state.open 0 []).state = false ∧
    stateEvent.eventConnect.exec (sampleEnv 2001 none) (sampleConn state.open 0 []) =
      (sampleConn state.open 0 [],
       some (Error.NotAcceptableEvent stateEvent.eventConnect state.open)) :=
  ⟨by decide,
   illegal_event_not_acceptable (sampleEnv 2001 none) stateEvent.eventConnect
     (sampleConn state.open 0 []) (by decide)⟩

/-! ## The watchdog -/

/-- C2: a Watchdog event handled in state open with counter k and threshold W
raises the counter to k+1 and leaves the state open.  If k+1 > W the transport
is closed, WatchdogExpired is returned, nothing is written and the
correlation table is unchanged.  If k+1 <= W the encoded watchdog request is
written with the next hop-by-hop and end-to-end identifiers of the identifier
source, which is advanced past them, and a new channel is registered in the
correlation table under that hop-by-hop identifier. -/
theorem watchdog_in_open (env : Env) (c : Conn) (hs : c.state = state.open) :
    (stateEvent.eventWatchdog.exec env c).1.wdCounter = c.wdCounter + 1 ∧
    (stateEvent.eventWatchdog.exec env c).1.state = state.open ∧
    (c.wdCounter + 1 > c.peer.WDExpired →
      (stateEvent.eventWatchdog.exec env c).1.con.closed = true ∧
      (stateEvent.eventWatchdog.exec env c).2 = some Error.WatchdogExpired ∧
      (stateEvent.eventWatchdog.exec env c).1.con.written = c.con.written ∧
      (stateEvent.eventWatchdog.exec env c).1.sndstack = c.sndstack) ∧
    (c.wdCounter + 1 ≤ c.peer.WDExpired →
      (stateEvent.eventWatchdog.exec env c).1.con.written = c.con.written ++
        [{ env.encDWR (env.MakeDWR { c with wdCounter := c.wdCounter + 1 }) with
           HbHID := c.local.NextHbH.1, EtEID := c.local.NextHbH.2.NextEtE.1 }] ∧
      (stateEvent.eventWatchdog.exec env c).1.local = c.local.NextHbH.2.NextEtE.2 ∧
      (stateEvent.eventWatchdog.exec env c).1.sndstack.get c.local.NextHbH.1
        = some c.chanSeq ∧
      (stateEvent.eventWatchdog.exec env c).1.chanSeq = c.chanSeq + 1 ∧
      ∀ j, j ≠ c.local.NextHbH.1 →
        (stateEvent.eventWatchdog.exec env c).1.sndstack.get j = c.sndstack.get j) := by
  by_cases hk : c.wdCounter + 1 > c.peer.WDExpired
  · have hk' : ¬ c.wdCounter + 1 ≤ c.peer.WDExpired := by omega
    simp [stateEvent.exec, eventWatchdog.exec, hs, hk, hk', Conn.conClose, NetConn.Close]
  · have hk' : c.wdCounter + 1 ≤ c.peer.WDExpired := by omega
    simp only [stateEvent.exec, eventWatchdog.exec, hs, ne_eq, not_true_eq_false, if_false, hk]
    split <;>
      simp [Conn.write, Conn.writeTo, Notify, eventWatchdog.req, Conn.conClose,
        NetConn.Close, hk, hk', SndStack.get_set_self] <;>
      exact fun j hj => SndStack.get_set_ne _ _ _ j hj

theorem watchdog_in_open_witness :
    (sampleConn state.open 3 []).state = state.open ∧
    (stateEvent.eventWatchdog.exec (sampleEnv 2001 none) (sampleConn state.open 3 [])).1.wdCounter
      = 3 + 1 :=
  ⟨rfl, (watchdog_in_open (sampleEnv 2001 none) (sampleConn state.open 3 []) rfl).1⟩

theorem exec_open_counter (env : Env) (ev : stateEvent) (c : Conn)
    (hs : c.state = state.open) (hl : leavesOpen ev = false)
    (hd : successDWA env ev = false) :
    (ev.exec env c).1.state = state.open ∧
    (ev.exec env c).1.wdCounter = c.wdCounter + (if isWatchdog ev then 1 else 0) := by
  cases ev with
  | eventInit => simp [stateEvent.exec, eventInit.exec, hs, isWatchdog]
  | eventConnect => simp [stateEvent.exec, eventConnect.exec, hs, isWatchdog]
  | eventWatchdog =>
    simp only [stateEvent.exec, eventWatchdog.exec, hs, ne_eq, not_true_eq_false, if_false,
      isWatchdog]
    split
    · simp [Conn.conClose, hs]
    · split <;> simp [Conn.write, Conn.writeTo, Notify, Conn.conClose, hs]
  | eventStop => simp [leavesOpen] at hl
  | eventPeerDisc => simp [leavesOpen] at hl
  | eventSndMsg m =>
    simp only [stateEvent.exec, eventSndMsg.exec, hs, ne_eq, not_true_eq_false, if_false,
      isWatchdog]
    split <;> simp [Conn.write, Conn.writeTo, Notify, Conn.conClose, hs]
  | eventRcvCER m => simp [stateEvent.exec, eventRcvCER.exec, hs, isWatchdog]
  | eventRcvCEA m => simp [stateEvent.exec, eventRcvCEA.exec, hs, isWatchdog]
  | eventRcvDWR m =>
    simp only [stateEvent.exec, eventRcvDWR.exec, hs, ne_eq, not_true_eq_false, if_false,
      isWatchdog]
    split
    · simp [Notify, hs]
    · split <;> rename_i h <;> simp only [h] <;>
        simp [Conn.writeTo, Notify, Conn.conClose, hs]
  | eventRcvDWA m =>
    simp only [stateEvent.exec, eventRcvDWA.exec, hs, ne_eq, not_true_eq_false, if_false,
      isWatchdog]
    simp only [successDWA] at hd
    split
    · simp [hs]
    · split at hd
      · rename_i a ha
        have hne : ¬ a.Result = DiameterSuccess := by simpa using hd
        simp [ha, hne, Notify, Conn.chanSend, hs]
      · rename_i e he
        simp [he, Notify, Conn.chanSend, hs]
  | eventRcvDPR m => simp [leavesOpen] at hl
  | eventRcvDPA m => simp [stateEvent.exec, eventRcvDPA.exec, hs, isWatchdog]
  | eventRcvMsg m =>
    simp only [stateEvent.exec, eventRcvMsg.exec, hs, ne_eq, not_true_eq_false, if_false,
      isWatchdog]
    split
    · simp [eventRcvMsg.finish, Notify, hs]
    · split <;> simp [eventRcvMsg.finish, Notify, Conn.chanSend, hs]

theorem run_open_counter (evs : List (Env × stateEvent)) :
    ∀ c : Conn, c.state = state.open →
    (∀ p ∈ evs, leavesOpen p.2 = false) →
    (∀ p ∈ evs, successDWA p.1 p.2 = false) →
    (run evs c).1.state = state.open ∧
    (run evs c).1.wdCounter = c.wdCounter + evs.countP (fun p => isWatchdog p.2) := by
  induction evs with
  | nil => intro c hs _ _; simp [run, hs]
  | cons p rest ih =>
    intro c hs hl hd
    have h1 := exec_open_counter p.1 p.2 c hs (hl p (List.mem_cons_self _ _))
      (hd p (List.mem_cons_self _ _))
    have h2 := ih (p.2.exec p.1 c).1 h1.1
      (fun q hq => hl q (List.mem_cons_of_mem _ hq))
      (fun q hq => hd q (List.mem_cons_of_mem _ hq))
    refine ⟨by simpa [run] using h2.1, ?_⟩
    simp only [run, h2.2, h1.2, List.countP_cons]
    by_cases hw : isWatchdog p.2 = true
    · simp [hw]; omega
    · simp [hw]

/-- C3: starting in state open with watchdog counter 0, after any event
sequence that holds exactly N Watchdog events, no RcvDWA whose message decodes
with Result-Code success, and no Stop, RcvDPR or PeerDisc, the watchdog counter
is N.  (That each Watchdog event emits its request is not needed.) -/
theorem watchdog_counter_counts (c : Conn) (evs : List (Env × stateEvent)) (N : Nat)
    (hs : c.state = state.open) (h0 : c.wdCounter = 0)
    (hN : evs.countP (fun p => isWatchdog p.2) = N)
    (hl : ∀ p ∈ evs, leavesOpen p.2 = false)
    (hd : ∀ p ∈ evs, successDWA p.1 p.2 = false) :
    (run evs c).1.wdCounter = N := by
  have h := (run_open_counter evs c hs hl hd).2
  rw [h, h0, hN, Nat.zero_add]

theorem watchdog_counter_counts_witness :
    (run sampleEvents (sampleConn state.open 0 [])).1.wdCounter = 2 :=
  watchdog_counter_counts (sampleConn state.open 0 []) sampleEvents 2 rfl rfl
    (by decide) (by decide) (by decide)

/-- C4: an RcvDWA handled in state open whose hop-by-hop identifier is
registered under channel ch and whose message decodes as a watchdog answer
with Result-Code success, whatever the counter was: the counter becomes 0, the
watchdog timer is reset to WDInterval, the entry is removed from the
correlation table, the received message is sent unchanged on ch, the notice
of a received answer without error is given, no error is returned, and
everything else, the state open included, is as before. -/
theorem dwa_success_resets (env : Env) (vm : RawMsg) (c : Conn) (ch : Nat) (dwa : DWA)
    (hs : c.state = state.open) (hreg : c.sndstack.get vm.HbHID = some ch)
    (hdec : env.decDWA vm = Except.ok dwa) (hrc : dwa.ResultCode = DiameterSuccess) :
    (stateEvent.eventRcvDWA vm).exec env c =
      ({ c with wdCounter := 0,
                sysTimer := { f := c.sysTimer.f, armed := some c.peer.WDInterval },
                sndstack := c.sndstack.delete vm.HbHID,
                delivered := c.delivered ++ [(ch, vm)],
                notices := c.notices ++ [Notice.WatchdogEvent false false none] }, none) ∧
    ((stateEvent.eventRcvDWA vm).exec env c).1.state = state.open ∧
    ((stateEvent.eventRcvDWA vm).exec env c).1.sndstack.get vm.HbHID = none := by
  have h : (stateEvent.eventRcvDWA vm).exec env c =
      ({ c with wdCounter := 0,
                sysTimer := { f := c.sysTimer.f, armed := some c.peer.WDInterval },
                sndstack := c.sndstack.delete vm.HbHID,
                delivered := c.delivered ++ [(ch, vm)],
                notices := c.notices ++ [Notice.WatchdogEvent false false none] }, none) := by
    simp [stateEvent.exec, eventRcvDWA.exec, hs, hreg, hdec, hrc, DWA.Result, Notify,
      Conn.chanSend, Timer.Reset]
  refine ⟨h, ?_, ?_⟩
  · rw [h]; exact hs
  · rw [h]; exact SndStack.get_delete_self _ _

theorem dwa_success_resets_witness :
    ((stateEvent.eventRcvDWA (sampleRaw false 280 [resultAVP 2001])).exec (sampleEnv 2001 none)
        (sampleConn state.open 2 [(0, 9)])).1.wdCounter = 0 := by
  have h := (dwa_success_resets (sampleEnv 2001 none) (sampleRaw false 280 [resultAVP 2001])
    (sampleConn state.open 2 [(0, 9)]) 9
    { ResultCode := 2001, OriginHost := "b", OriginRealm := "r", ErrorMessage := none,
      OriginStateID := 0 } rfl rfl rfl rfl).1
  rw [h]

/-! ## Watchdog expiry -/

theorem watchdog_expired_step (env : Env) (c : Conn) (hs : c.state = state.open)
    (hk : c.wdCounter + 1 > c.peer.WDExpired) :
    stateEvent.eventWatchdog.exec env c =
      ({ c with wdCounter := c.wdCounter + 1, con := { c.con with closed := true } },
       some Error.WatchdogExpired) := by
  simp [stateEvent.exec, eventWatchdog.exec, hs, hk, Conn.conClose, NetConn.Close]

theorem watchdog_starts_waiter (env : Env) (c : Conn) (hs : c.state = state.open)
    (hk : c.wdCounter + 1 ≤ c.peer.WDExpired)
    (hw : ∀ m n, env.WriteTo m n = none) :
    (stateEvent.eventWatchdog.exec env c).1.waiters = c.waiters ++
      [{ ch := c.chanSeq, after := c.peer.SndTimeout,
         nak := eventWatchdog.nak env (env.MakeDWR { c with wdCounter := c.wdCounter + 1 })
           (eventWatchdog.req env { c with wdCounter := c.wdCounter + 1 }) }] := by
  have hk' : ¬ c.wdCounter + 1 > c.peer.WDExpired := by omega
  simp [stateEvent.exec, eventWatchdog.exec, hs, hk', hw, Conn.write, Conn.writeTo, Notify]

theorem timedOutRound_spec (env : Env) (c : Conn) (hs : c.state = state.open)
    (hk : c.wdCounter + 1 ≤ c.peer.WDExpired)
    (hw : ∀ m n, env.WriteTo m n = none)
    (hdec : ∀ a h t, ∃ b, env.decDWA { env.encDWA a with HbHID := h, EtEID := t } = Except.ok b ∧
      b.ResultCode = a.ResultCode) :
    (timedOutRound env c).1.state = state.open ∧
    (timedOutRound env c).1.wdCounter = c.wdCounter + 1 ∧
    (timedOutRound env c).1.peer = c.peer ∧
    (timedOutRound env c).1.con.closed = c.con.closed ∧
    (timedOutRound env c).2 = [none, some (Error.FailureAnswer
      (eventWatchdog.nak env (env.MakeDWR { c with wdCounter := c.wdCounter + 1 })
           (eventWatchdog.req env { c with wdCounter := c.wdCounter + 1 })))] := by
  have hne : ¬ DiameterUnableToDeliver = DiameterSuccess := by decide
  obtain ⟨l, p, st, k, tm, ss, rs, con, cs, dl, ws, ns, dt⟩ := c
  simp only at hs hk
  subst hs
  have hk' : ¬ k + 1 > p.WDExpired := by omega
  obtain ⟨b, hb, hrc⟩ := hdec
    { ResultCode := DiameterUnableToDeliver,
      OriginHost := (env.MakeDWR ⟨l, p, state.open, k + 1, tm, ss, rs, con, cs, dl, ws, ns,
        dt⟩).OriginHost,
      OriginRealm := (env.MakeDWR ⟨l, p, state.open, k + 1, tm, ss, rs, con, cs, dl, ws, ns,
        dt⟩).OriginRealm,
      ErrorMessage := some timeoutMsg,
      OriginStateID := (env.MakeDWR ⟨l, p, state.open, k + 1, tm, ss, rs, con, cs, dl, ws, ns,
        dt⟩).OriginStateID }
    l.NextHbH.1 l.NextHbH.2.NextEtE.1
  simp only at hb hrc
  simp [timedOutRound, run, stateEvent.exec, eventWatchdog.exec, eventRcvDWA.exec, hk', hw,
    Conn.write, Conn.writeTo, Notify, eventWatchdog.nak, eventWatchdog.req,
    SndStack.get_set_self, hb, hrc, DWA.Result, hne, Conn.chanSend]

/-- C5, amended: with WDExpired = 3, starting in state open with watchdog
counter 0 and an open transport, when the transport writes succeed and the
codec decodes an encoded watchdog answer with the Result-Code it was given:
after
three unanswered watchdog rounds in a row the counter is 3, the state is open,
the transport has not been closed and no handler has returned
WatchdogExpired; the fourth Watchdog event closes the transport and returns
WatchdogExpired. -/
theorem watchdog_expiry_needs_fourth_fire (env : Env) (c : Conn)
    (hs : c.state = state.open) (h0 : c.wdCounter = 0) (hW : c.peer.WDExpired = 3)
    (hc : c.con.closed = false)
    (hw : ∀ m n, env.WriteTo m n = none)
    (hdec : ∀ a h t, ∃ b, env.decDWA { env.encDWA a with HbHID := h, EtEID := t } = Except.ok b ∧
      b.ResultCode = a.ResultCode) :
    (timedOutRounds env 3 c).1.wdCounter = 3 ∧
    (timedOutRounds env 3 c).1.state = state.open ∧
    (timedOutRounds env 3 c).1.con.closed = false ∧
    some Error.WatchdogExpired ∉ (timedOutRounds env 3 c).2 ∧
    (stateEvent.eventWatchdog.exec env (timedOutRounds env 3 c).1).1.con.closed = true ∧
    (stateEvent.eventWatchdog.exec env (timedOutRounds env 3 c).1).2
      = some Error.WatchdogExpired := by
  obtain ⟨s1, k1, p1, c1, e1⟩ := timedOutRound_spec env c hs (by omega) hw hdec
  obtain ⟨s2, k2, p2, c2, e2⟩ := timedOutRound_spec env (timedOutRound env c).1 s1
    (by rw [k1, p1]; omega) hw hdec
  obtain ⟨s3, k3, p3, c3, e3⟩ := timedOutRound_spec env
    (timedOutRound env (timedOutRound env c).1).1 s2 (by rw [k2, k1, p2, p1]; omega) hw hdec
  have hr : (timedOutRounds env 3 c).1 =
      (timedOutRound env (timedOutRound env (timedOutRound env c).1).1).1 := by
    simp only [timedOutRounds]
  have he : (timedOutRounds env 3 c).2 = (timedOutRound env c).2 ++
      ((timedOutRound env (timedOutRound env c).1).2 ++
        ((timedOutRound env (timedOutRound env (timedOutRound env c).1).1).2 ++ [])) := by
    simp only [timedOutRounds]
  have hk : (timedOutRounds env 3 c).1.wdCounter = 3 := by
    rw [hr, k3, k2, k1, h0]
  have hp : (timedOutRounds env 3 c).1.peer.WDExpired = 3 := by
    rw [hr, p3, p2, p1, hW]
  have hst : (timedOutRounds env 3 c).1.state = state.open := by rw [hr]; exact s3
  refine ⟨hk, hst, ?_, ?_, ?_⟩
  · rw [hr, c3, c2, c1, hc]
  · rw [he, e1, e2, e3]; simp
  · have h4 := watchdog_expired_step env (timedOutRounds env 3 c).1 hst
      (by rw [hk, hp]; omega)
    rw [h4]
    exact ⟨rfl, rfl⟩

theorem watchdog_expiry_needs_fourth_fire_witness :
    (timedOutRounds (sampleEnv 2001 none) 3 (sampleConn state.open 0 [])).1.wdCounter = 3 ∧
    (stateEvent.eventWatchdog.exec (sampleEnv 2001 none)
      (timedOutRounds (sampleEnv 2001 none) 3 (sampleConn state.open 0 [])).1).2
      = some Error.WatchdogExpired :=
  have h := watchdog_expiry_needs_fourth_fire (sampleEnv 2001 none)
    (sampleConn state.open 0 []) rfl rfl rfl rfl (fun _ _ => rfl) (fun _ _ _ => ⟨_, rfl, rfl⟩)
  ⟨h.1, h.2.2.2.2.2⟩

/-- C5 as stated fails: with WDExpired = 3, after three watchdog fires from
state open and counter 0, each answered only by the answer of its timeout, the
transport is not closed and no handler has returned WatchdogExpired. -/
theorem three_timeouts_do_not_expire :
    (sampleConn state.open 0 []).peer.WDExpired = 3 ∧
    (timedOutRounds (sampleEnv 2001 none) 3 (sampleConn state.open 0 [])).1.con.closed = false ∧
    some Error.WatchdogExpired ∉
      (timedOutRounds (sampleEnv 2001 none) 3 (sampleConn state.open 0 [])).2 := by
  decide

/-! ## Capabilities exchange -/

/-- C6, amended: after an RcvCER handled in state waitCER the state is open when
the request decodes, HandleCER answers with Result-Code success and the answer
is written; in every other case (undecodable request, another Result-Code, or
a failed write) the transport is closed, an error is returned and the state
is still waitCER. -/
theorem rcvCER_outcome (env : Env) (vm : RawMsg) (c : Conn)
    (hs : c.state = state.waitCER) :
    (cerAccepted env vm c →
      ((stateEvent.eventRcvCER vm).exec env c).1.state = state.open ∧
      ((stateEvent.eventRcvCER vm).exec env c).2 = none) ∧
    (¬ cerAccepted env vm c →
      ((stateEvent.eventRcvCER vm).exec env c).1.state = state.waitCER ∧
      ((stateEvent.eventRcvCER vm).exec env c).1.con.closed = true ∧
      ((stateEvent.eventRcvCER vm).exec env c).2 ≠ none) := by
  obtain ⟨l, p, st, k, tm, ss, rs, con, cs, dl, ws, ns, dt⟩ := c
  simp only at hs
  subst hs
  constructor
  · rintro ⟨cer, hdec, hrc, hw⟩
    simp only [Notify] at hrc hw
    simp [stateEvent.exec, eventRcvCER.exec, hdec, hrc, Conn.writeTo, Notify, failureOf, hw,
      Conn.setTimer]
  · intro hn
    simp only [stateEvent.exec, eventRcvCER.exec, ne_eq, not_true_eq_false, if_false]
    cases hdec : env.decCER vm with
    | error e => simp [Notify, Conn.conClose, NetConn.Close]
    | ok cer =>
      simp only
      split
      · rename_i e x he
        simp only [he]
        simp [Notify, Conn.conClose, NetConn.Close, Conn.writeTo]
      · rename_i e he
        exfalso
        apply hn
        refine ⟨cer, hdec, ?_⟩
        simp only [failureOf, Conn.writeTo, Notify] at he
        simp only [Notify]
        split at he
        · rename_i hw
          split at he
          · exact absurd he (by simp)
          · rename_i hrc
            have hrc' := not_not.mp hrc
            exact ⟨hrc', by rw [← hrc']; exact hw⟩
        · exact absurd he (by simp)

theorem rcvCER_outcome_witness :
    (sampleConn state.waitCER 0 []).state = state.waitCER ∧
    ((stateEvent.eventRcvCER (sampleRaw true 257 [])).exec (sampleEnv 2001 none)
      (sampleConn state.waitCER 0 [])).1.state = state.open :=
  ⟨rfl, ((rcvCER_outcome (sampleEnv 2001 none) (sampleRaw true 257 [])
    (sampleConn state.waitCER 0 []) rfl).1 ⟨sampleCER, rfl, rfl, rfl⟩).1⟩

/-- C6 as stated fails: when HandleCER answers an RcvCER in state waitCER with
Result-Code 3002, the state afterwards is waitCER, not closed. -/
theorem rcvCER_failure_stays_waitCER :
    ((sampleEnv 3002 none).HandleCER sampleCER (sampleConn state.waitCER 0 [])).ResultCode
      ≠ DiameterSuccess ∧
    ((stateEvent.eventRcvCER (sampleRaw true 257 [])).exec (sampleEnv 3002 none)
      (sampleConn state.waitCER 0 [])).1.state = state.waitCER ∧
    ((stateEvent.eventRcvCER (sampleRaw true 257 [])).exec (sampleEnv 3002 none)
      (sampleConn state.waitCER 0 [])).1.state ≠ state.closed := by
  decide

/-- C7: an RcvCEA handled in state waitCEA whose hop-by-hop identifier is
registered under channel ch and whose message decodes as an answer with
Result-Code success: the state becomes open, the system timer is a new timer
armed at WDInterval that runs the watchdog, the entry is removed from the
correlation table, the received message is sent unchanged on ch, the notice
of a received answer without error is given, no error is returned, and
everything else, the transport included, is as before. -/
theorem rcvCEA_success_opens (env : Env) (vm : RawMsg) (c : Conn) (ch : Nat) (cea : CEA)
    (hs : c.state = state.waitCEA) (hreg : c.sndstack.get vm.HbHID = some ch)
    (hdec : env.decCEA vm = Except.ok cea) (hrc : cea.ResultCode = DiameterSuccess) :
    (stateEvent.eventRcvCEA vm).exec env c =
      ({ c with state := state.open,
                sysTimer := { f := TimerFunc.watchdog, armed := some c.peer.WDInterval },
                droppedTimers := c.droppedTimers ++ [c.sysTimer],
                sndstack := c.sndstack.delete vm.HbHID,
                delivered := c.delivered ++ [(ch, vm)],
                notices := c.notices ++ [Notice.CapabilityExchangeEvent false false none] },
       none) ∧
    ((stateEvent.eventRcvCEA vm).exec env c).1.sndstack.get vm.HbHID = none ∧
    ((stateEvent.eventRcvCEA vm).exec env c).1.con = c.con := by
  have h : (stateEvent.eventRcvCEA vm).exec env c =
      ({ c with state := state.open,
                sysTimer := { f := TimerFunc.watchdog, armed := some c.peer.WDInterval },
                droppedTimers := c.droppedTimers ++ [c.sysTimer],
                sndstack := c.sndstack.delete vm.HbHID,
                delivered := c.delivered ++ [(ch, vm)],
                notices := c.notices ++ [Notice.CapabilityExchangeEvent false false none] },
       none) := by
    simp [stateEvent.exec, eventRcvCEA.exec, hs, hreg, hdec, hrc, CEA.Result, Notify,
      Conn.chanSend, Conn.setTimer, AfterFunc]
  refine ⟨h, ?_, ?_⟩
  · rw [h]; exact SndStack.get_delete_self _ _
  · rw [h]

theorem rcvCEA_success_opens_witness :
    ((stateEvent.eventRcvCEA (sampleRaw false 257 [resultAVP 2001])).exec (sampleEnv 2001 none)
      (sampleConn state.waitCEA 0 [(0, 9)])).1.state = state.open := by
  have h := (rcvCEA_success_opens (sampleEnv 2001 none) (sampleRaw false 257 [resultAVP 2001])
    (sampleConn state.waitCEA 0 [(0, 9)]) 9 (sampleCEA 2001) rfl rfl rfl rfl).1
  rw [h]

/-- C8, amended: an RcvCEA handled in state waitCEA whose hop-by-hop identifier
is registered under channel ch and whose message decodes as an answer with a
Result-Code other than success: the handler returns FailureAnswer carrying the
received message, the transport is closed, the entry is removed from the
correlation table, the message sent on ch is the empty message, the notice
carries the FailureAnswer, and everything else is as before: the state is
still waitCEA. -/
theorem rcvCEA_failure (env : Env) (vm : RawMsg) (c : Conn) (ch : Nat) (cea : CEA)
    (hs : c.state = state.waitCEA) (hreg : c.sndstack.get vm.HbHID = some ch)
    (hdec : env.decCEA vm = Except.ok cea) (hrc : cea.ResultCode ≠ DiameterSuccess) :
    (stateEvent.eventRcvCEA vm).exec env c =
      ({ c with con := { c.con with closed := true },
                sndstack := c.sndstack.delete vm.HbHID,
                delivered := c.delivered ++ [(ch, RawMsg.zero)],
                notices := c.notices ++
                  [Notice.CapabilityExchangeEvent false false (some (Error.FailureAnswer vm))] },
       some (Error.FailureAnswer vm)) ∧
    ((stateEvent.eventRcvCEA vm).exec env c).1.state = state.waitCEA := by
  have h : (stateEvent.eventRcvCEA vm).exec env c =
      ({ c with con := { c.con with closed := true },
                sndstack := c.sndstack.delete vm.HbHID,
                delivered := c.delivered ++ [(ch, RawMsg.zero)],
                notices := c.notices ++
                  [Notice.CapabilityExchangeEvent false false (some (Error.FailureAnswer vm))] },
       some (Error.FailureAnswer vm)) := by
    simp [stateEvent.exec, eventRcvCEA.exec, hs, hreg, hdec, hrc, CEA.Result, Notify,
      Conn.chanSend, Conn.conClose, NetConn.Close]
  refine ⟨h, ?_⟩
  rw [h]; exact hs

theorem rcvCEA_failure_witness :
    ((stateEvent.eventRcvCEA (sampleRaw false 257 [resultAVP 3002])).exec (sampleEnv 2001 none)
      (sampleConn state.waitCEA 0 [(0, 9)])).2
      = some (Error.FailureAnswer (sampleRaw false 257 [resultAVP 3002])) := by
  have h := (rcvCEA_failure (sampleEnv 2001 none) (sampleRaw false 257 [resultAVP 3002])
    (sampleConn state.waitCEA 0 [(0, 9)]) 9 (sampleCEA 3002) rfl rfl rfl (by decide)).1
  rw [h]

/-- C8 as stated fails: for a registered answer with Result-Code 3002 received
in state waitCEA, what is sent on the waiting channel is the empty message and
not the received one, and the state afterwards is waitCEA and not closed. -/
theorem rcvCEA_failure_delivers_empty :
    ((stateEvent.eventRcvCEA (sampleRaw false 257 [resultAVP 3002])).exec (sampleEnv 2001 none)
      (sampleConn state.waitCEA 0 [(0, 9)])).1.delivered = [(9, RawMsg.zero)] ∧
    sampleRaw false 257 [resultAVP 3002] ≠ RawMsg.zero ∧
    ((stateEvent.eventRcvCEA (sampleRaw false 257 [resultAVP 3002])).exec (sampleEnv 2001 none)
      (sampleConn state.waitCEA 0 [(0, 9)])).1.state = state.waitCEA ∧
    ((stateEvent.eventRcvCEA (sampleRaw false 257 [resultAVP 3002])).exec (sampleEnv 2001 none)
      (sampleConn state.waitCEA 0 [(0, 9)])).1.state ≠ state.closed := by
  decide

/-- C9: after a Connect handled in state closed the state is waitCEA, whether
sending the request succeeded or not.  When sending fails with error e, the
transport is closed, the last notice given is a CapabilityExchangeEvent with
tx = true, req = true and Err = e, and e is returned; when sending succeeds
no error is returned. -/
theorem connect_in_closed (env : Env) (c : Conn) (hs : c.state = state.closed) :
    (stateEvent.eventConnect.exec env c).1.state = state.waitCEA ∧
    (∀ e,
      (Conn.sendSysMsg env (env.encCER (env.MakeCER { c with state := state.waitCEA }))
        (env.encCEA (eventConnect.nak (env.MakeCER { c with state := state.waitCEA })))
        { c with state := state.waitCEA }).2 = some e →
      (stateEvent.eventConnect.exec env c).1.con.closed = true ∧
      (stateEvent.eventConnect.exec env c).1.notices.getLast? =
        some (Notice.CapabilityExchangeEvent true true (some e)) ∧
      (stateEvent.eventConnect.exec env c).2 = some e) ∧
    ((Conn.sendSysMsg env (env.encCER (env.MakeCER { c with state := state.waitCEA }))
        (env.encCEA (eventConnect.nak (env.MakeCER { c with state := state.waitCEA })))
        { c with state := state.waitCEA }).2 = none →
      (stateEvent.eventConnect.exec env c).2 = none) := by
  simp only [stateEvent.exec, eventConnect.exec, hs, ne_eq, not_true_eq_false, if_false]
  refine ⟨?_, ?_, ?_⟩
  · split <;>
      · simp only [Conn.sendSysMsg, Conn.write, Conn.writeTo, Notify, Conn.conClose]
        split <;> rfl
  · intro e he
    simp only [he]
    simp [Notify, Conn.conClose, NetConn.Close]
  · intro he
    simp only [he]

theorem connect_in_closed_witness :
    (sampleConn state.closed 0 []).state = state.closed ∧
    (stateEvent.eventConnect.exec (sampleEnv 2001 (some (Error.other 1)))
      (sampleConn state.closed 0 [])).1.state = state.waitCEA :=
  ⟨rfl, (connect_in_closed (sampleEnv 2001 (some (Error.other 1)))
    (sampleConn state.closed 0 []) rfl).1⟩

/-! ## Answers to system requests -/

theorem answerRaw_ids (m0 rq : RawMsg) (rc : Nat) :
    (answerRaw m0 rq rc).HbHID = rq.HbHID ∧ (answerRaw m0 rq rc).EtEID = rq.EtEID := by
  unfold answerRaw
  split <;> simp

theorem answerRaw_FlgE (m0 rq : RawMsg) (rc : Nat) (h0 : m0.FlgE = false) :
    (answerRaw m0 rq rc).FlgE = true ↔ rc ≠ DiameterSuccess := by
  unfold answerRaw
  split <;> simp_all

theorem rcvCER_written (env : Env) (vm : RawMsg) (c : Conn) (cer : CER)
    (hs : c.state = state.waitCER) (hdec : env.decCER vm = Except.ok cer) :
    ((stateEvent.eventRcvCER vm).exec env c).1.con.written = c.con.written ++
      [answerRaw
        (env.encCEA (env.HandleCER cer
          (Notify (Notice.CapabilityExchangeEvent false true none) c))) vm
        (env.HandleCER cer
          (Notify (Notice.CapabilityExchangeEvent false true none) c)).ResultCode] := by
  simp only [stateEvent.exec, eventRcvCER.exec, hs, ne_eq, not_true_eq_false, if_false, hdec]
  split <;> rename_i h <;> simp only [h] <;>
    simp [Conn.writeTo, Notify, Conn.conClose, NetConn.Close, Conn.setTimer]

theorem rcvDWR_written (env : Env) (vm : RawMsg) (c : Conn) (dwr : DWR)
    (hs : c.state = state.open) (hdec : env.decDWR vm = Except.ok dwr) :
    ((stateEvent.eventRcvDWR vm).exec env c).1.con.written = c.con.written ++
      [answerRaw
        (env.encDWA (env.HandleDWR dwr (Notify (Notice.WatchdogEvent false true none) c))) vm
        (env.HandleDWR dwr (Notify (Notice.WatchdogEvent false true none) c)).ResultCode] := by
  simp only [stateEvent.exec, eventRcvDWR.exec, hs, ne_eq, not_true_eq_false, if_false, hdec]
  split <;> rename_i h <;> simp only [h] <;>
    simp [Conn.writeTo, Notify, Conn.conClose, NetConn.Close]

theorem rcvDPR_written (env : Env) (vm : RawMsg) (c : Conn) (dpr : DPR)
    (hs : c.state = state.open) (hdec : env.decDPR vm = Except.ok dpr) :
    ((stateEvent.eventRcvDPR vm).exec env c).1.con.written = c.con.written ++
      [answerRaw
        (env.encDPA (env.HandleDPR dpr (Notify (Notice.PurgeEvent false true none) c))) vm
        (env.HandleDPR dpr (Notify (Notice.PurgeEvent false true none) c)).ResultCode] := by
  simp only [stateEvent.exec, eventRcvDPR.exec, hs, ne_eq, not_true_eq_false, if_false, hdec]
  split <;> split <;>
    simp [Conn.writeTo, Notify, Conn.conClose, NetConn.Close, Conn.setTimer]

/-- C10: for a system request that decodes and is handled in its legal state
(RcvCER in waitCER, RcvDWR in open, RcvDPR in open), exactly one message is
handed to the transport; its hop-by-hop and end-to-end identifiers are those
of the received request, whatever identifiers the encoded answer of the hook
had; and, the codec encoding answers with the error flag clear, its error
flag is set exactly when the Result-Code of the hook's answer is not
DiameterSuccess. -/
theorem system_answer_echoes_ids (env : Env) (vm : RawMsg) (c : Conn)
    (hcea : ∀ a, (env.encCEA a).FlgE = false)
    (hdwa : ∀ a, (env.encDWA a).FlgE = false)
    (hdpa : ∀ a, (env.encDPA a).FlgE = false) :
    (∀ cer, c.state = state.waitCER → env.decCER vm = Except.ok cer →
      ∃ m, ((stateEvent.eventRcvCER vm).exec env c).1.con.written = c.con.written ++ [m] ∧
        m.HbHID = vm.HbHID ∧ m.EtEID = vm.EtEID ∧
        (m.FlgE = true ↔
          (env.HandleCER cer
            (Notify (Notice.CapabilityExchangeEvent false true none) c)).ResultCode
              ≠ DiameterSuccess)) ∧
    (∀ dwr, c.state = state.open → env.decDWR vm = Except.ok dwr →
      ∃ m, ((stateEvent.eventRcvDWR vm).exec env c).1.con.written = c.con.written ++ [m] ∧
        m.HbHID = vm.HbHID ∧ m.EtEID = vm.EtEID ∧
        (m.FlgE = true ↔
          (env.HandleDWR dwr (Notify (Notice.WatchdogEvent false true none) c)).ResultCode
            ≠ DiameterSuccess)) ∧
    (∀ dpr, c.state = state.open → env.decDPR vm = Except.ok dpr →
      ∃ m, ((stateEvent.eventRcvDPR vm).exec env c).1.con.written = c.con.written ++ [m] ∧
        m.HbHID = vm.HbHID ∧ m.EtEID = vm.EtEID ∧
        (m.FlgE = true ↔
          (env.HandleDPR dpr (Notify (Notice.PurgeEvent false true none) c)).ResultCode
            ≠ DiameterSuccess)) := by
  refine ⟨?_, ?_, ?_⟩
  · intro cer hs hdec
    exact ⟨_, rcvCER_written env vm c cer hs hdec, (answerRaw_ids _ _ _).1,
      (answerRaw_ids _ _ _).2, answerRaw_FlgE _ _ _ (hcea _)⟩
  · intro dwr hs hdec
    exact ⟨_, rcvDWR_written env vm c dwr hs hdec, (answerRaw_ids _ _ _).1,
      (answerRaw_ids _ _ _).2, answerRaw_FlgE _ _ _ (hdwa _)⟩
  · intro dpr hs hdec
    exact ⟨_, rcvDPR_written env vm c dpr hs hdec, (answerRaw_ids _ _ _).1,
      (answerRaw_ids _ _ _).2, answerRaw_FlgE _ _ _ (hdpa _)⟩

theorem system_answer_echoes_ids_witness :
    ∃ m, ((stateEvent.eventRcvCER { sampleRaw true 257 [] with HbHID := 77, EtEID := 88 }).exec
          (sampleEnv 3002 none) (sampleConn state.waitCER 0 [])).1.con.written =
        (sampleConn state.waitCER 0 []).con.written ++ [m] ∧
      m.HbHID = 77 ∧ m.EtEID = 88 ∧
      (m.FlgE = true ↔
        ((sampleEnv 3002 none).HandleCER sampleCER
          (Notify (Notice.CapabilityExchangeEvent false true none)
            (sampleConn state.waitCER 0 []))).ResultCode ≠ DiameterSuccess) :=
  (system_answer_echoes_ids (sampleEnv 3002 none)
    { sampleRaw true 257 [] with HbHID := 77, EtEID := 88 } (sampleConn state.waitCER 0 [])
    (fun _ => rfl) (fun _ => rfl) (fun _ => rfl)).1 sampleCER rfl rfl

/-! ## Disconnect -/

theorem rcvDPR_success_step (env : Env) (vm : RawMsg) (c : Conn) (dpr : DPR)
    (hs : c.state = state.open) (hdec : env.decDPR vm = Except.ok dpr)
    (hrc : (env.HandleDPR dpr (Notify (Notice.PurgeEvent false true none) c)).ResultCode
      = DiameterSuccess) :
    ((stateEvent.eventRcvDPR vm).exec env c).1.state = state.closing ∧
    ((stateEvent.eventRcvDPR vm).exec env c).1.sysTimer
      = { f := TimerFunc.close, armed := some c.peer.SndTimeout } ∧
    ((stateEvent.eventRcvDPR vm).exec env c).1.droppedTimers
      = c.droppedTimers ++ [{ f := c.sysTimer.f, armed := none }] := by
  simp only [stateEvent.exec, eventRcvDPR.exec, hs, ne_eq, not_true_eq_false, if_false, hdec,
    hrc]
  split <;>
    simp [Conn.writeTo, Notify, Conn.conClose, NetConn.Close, Conn.setTimer, AfterFunc,
      Timer.Stop]

theorem rcvDPR_failure_step (env : Env) (vm : RawMsg) (c : Conn) (dpr : DPR)
    (hs : c.state = state.open) (hdec : env.decDPR vm = Except.ok dpr)
    (hrc : (env.HandleDPR dpr (Notify (Notice.PurgeEvent false true none) c)).ResultCode
      ≠ DiameterSuccess) :
    ((stateEvent.eventRcvDPR vm).exec env c).1.state = state.open ∧
    ((stateEvent.eventRcvDPR vm).exec env c).1.sysTimer = c.sysTimer ∧
    ((stateEvent.eventRcvDPR vm).exec env c).1.droppedTimers = c.droppedTimers := by
  simp only [stateEvent.exec, eventRcvDPR.exec, hs, ne_eq, not_true_eq_false, if_false, hdec,
    hrc]
  split <;>
    simp [Conn.writeTo, Notify, Conn.conClose, NetConn.Close, hs]

/-- C11: for an RcvDPR handled in state open that decodes.  If HandleDPR
answers with Result-Code success, the state becomes closing, the watchdog
timer is left stopped, and the system timer is a new timer armed at SndTimeout
that closes the transport.  If it answers with another Result-Code, the state
stays open, the system timer is untouched and no timer is dropped, and the
answer is still handed to the transport, with its error flag set and the
identifiers of the request. -/
theorem rcvDPR_outcome (env : Env) (vm : RawMsg) (c : Conn) (dpr : DPR)
    (hs : c.state = state.open) (hdec : env.decDPR vm = Except.ok dpr) :
    ((env.HandleDPR dpr (Notify (Notice.PurgeEvent false true none) c)).ResultCode
        = DiameterSuccess →
      ((stateEvent.eventRcvDPR vm).exec env c).1.state = state.closing ∧
      ((stateEvent.eventRcvDPR vm).exec env c).1.sysTimer
        = { f := TimerFunc.close, armed := some c.peer.SndTimeout } ∧
      ((stateEvent.eventRcvDPR vm).exec env c).1.droppedTimers
        = c.droppedTimers ++ [{ f := c.sysTimer.f, armed := none }]) ∧
    ((env.HandleDPR dpr (Notify (Notice.PurgeEvent false true none) c)).ResultCode
        ≠ DiameterSuccess →
      ((stateEvent.eventRcvDPR vm).exec env c).1.state = state.open ∧
      ((stateEvent.eventRcvDPR vm).exec env c).1.sysTimer = c.sysTimer ∧
      ((stateEvent.eventRcvDPR vm).exec env c).1.droppedTimers = c.droppedTimers ∧
      ∃ m, ((stateEvent.eventRcvDPR vm).exec env c).1.con.written = c.con.written ++ [m] ∧
        m.FlgE = true ∧ m.HbHID = vm.HbHID ∧ m.EtEID = vm.EtEID ∧
        m.AVP = (env.encDPA
          (env.HandleDPR dpr (Notify (Notice.PurgeEvent false true none) c))).AVP) := by
  refine ⟨fun hrc => rcvDPR_success_step env vm c dpr hs hdec hrc, fun hrc => ?_⟩
  obtain ⟨h1, h2, h3⟩ := rcvDPR_failure_step env vm c dpr hs hdec hrc
  refine ⟨h1, h2, h3, _, rcvDPR_written env vm c dpr hs hdec, ?_, (answerRaw_ids _ _ _).1,
    (answerRaw_ids _ _ _).2, ?_⟩
  · simp [answerRaw, hrc]
  · simp [answerRaw, hrc]

theorem rcvDPR_outcome_witness :
    ((stateEvent.eventRcvDPR (sampleRaw true 282 [])).exec (sampleEnv 2001 none)
      (sampleConn state.open 0 [])).1.state = state.closing ∧
    ((stateEvent.eventRcvDPR (sampleRaw true 282 [])).exec (sampleEnv 3002 none)
      (sampleConn state.open 0 [])).1.state = state.open :=
  ⟨((rcvDPR_outcome (sampleEnv 2001 none) (sampleRaw true 282 []) (sampleConn state.open 0 [])
      { OriginHost := "b", OriginRealm := "r" } rfl rfl).1 rfl).1,
   ((rcvDPR_outcome (sampleEnv 3002 none) (sampleRaw true 282 []) (sampleConn state.open 0 [])
      { OriginHost := "b", OriginRealm := "r" } rfl rfl).2 (by decide)).1⟩

/-- C12, amended: after an RcvDPA handled in state closing whose hop-by-hop
identifier is registered, the transport is closed, the entry is removed from
the correlation table, and the state is still closing. -/
theorem rcvDPA_closes_transport (env : Env) (vm : RawMsg) (c : Conn) (ch : Nat)
    (hs : c.state = state.closing) (hreg : c.sndstack.get vm.HbHID = some ch) :
    ((stateEvent.eventRcvDPA vm).exec env c).1.con.closed = true ∧
    ((stateEvent.eventRcvDPA vm).exec env c).1.sndstack = c.sndstack.delete vm.HbHID ∧
    ((stateEvent.eventRcvDPA vm).exec env c).1.state = state.closing := by
  simp only [stateEvent.exec, eventRcvDPA.exec, hs, ne_eq, not_true_eq_false, if_false, hreg]
  split <;>
    simp [Notify, Conn.conClose, NetConn.Close, Conn.chanSend, hs]

theorem rcvDPA_closes_transport_witness :
    ((stateEvent.eventRcvDPA (sampleRaw false 282 [resultAVP 2001])).exec (sampleEnv 2001 none)
      (sampleConn state.closing 0 [(0, 9)])).1.con.closed = true :=
  (rcvDPA_closes_transport (sampleEnv 2001 none) (sampleRaw false 282 [resultAVP 2001])
    (sampleConn state.closing 0 [(0, 9)]) 9 rfl rfl).1

/-- C12 as stated fails: after a registered answer with Result-Code success is
handled by RcvDPA in state closing, the state is closing and not closed. -/
theorem rcvDPA_stays_closing :
    (sampleConn state.closing 0 [(0, 9)]).sndstack.get
      (sampleRaw false 282 [resultAVP 2001]).HbHID = some 9 ∧
    ((stateEvent.eventRcvDPA (sampleRaw false 282 [resultAVP 2001])).exec (sampleEnv 2001 none)
      (sampleConn state.closing 0 [(0, 9)])).1.state = state.closing ∧
    ((stateEvent.eventRcvDPA (sampleRaw false 282 [resultAVP 2001])).exec (sampleEnv 2001 none)
      (sampleConn state.closing 0 [(0, 9)])).1.state ≠ state.closed := by
  decide

/-- C13: after a Stop handled in state open the state is closing and the
watchdog timer is stopped, whether sending the request succeeded or not.  When
sending fails with error e, the transport is closed, the last notice given is
a PurgeEvent with tx = true, req = true and Err = e, and e is returned; when
sending succeeds no error is returned. -/
theorem stop_in_open (env : Env) (c : Conn) (hs : c.state = state.open) :
    (stateEvent.eventStop.exec env c).1.state = state.closing ∧
    (stateEvent.eventStop.exec env c).1.sysTimer = { f := c.sysTimer.f, armed := none } ∧
    (∀ e,
      (Conn.sendSysMsg env
        (env.encDPR (env.MakeDPR
          { c with state := state.closing, sysTimer := c.sysTimer.Stop }))
        (env.encDPA (eventStop.nak (env.MakeDPR
          { c with state := state.closing, sysTimer := c.sysTimer.Stop })))
        { c with state := state.closing, sysTimer := c.sysTimer.Stop }).2 = some e →
      (stateEvent.eventStop.exec env c).1.con.closed = true ∧
      (stateEvent.eventStop.exec env c).1.notices.getLast? =
        some (Notice.PurgeEvent true true (some e)) ∧
      (stateEvent.eventStop.exec env c).2 = some e) ∧
    ((Conn.sendSysMsg env
        (env.encDPR (env.MakeDPR
          { c with state := state.closing, sysTimer := c.sysTimer.Stop }))
        (env.encDPA (eventStop.nak (env.MakeDPR
          { c with state := state.closing, sysTimer := c.sysTimer.Stop })))
        { c with state := state.closing, sysTimer := c.sysTimer.Stop }).2 = none →
      (stateEvent.eventStop.exec env c).2 = none) := by
  simp only [stateEvent.exec, eventStop.exec, hs, ne_eq, not_true_eq_false, if_false]
  refine ⟨?_, ?_, ?_, ?_⟩
  · split <;>
      · simp only [Conn.sendSysMsg, Conn.write, Conn.writeTo, Notify, Conn.conClose]
        split <;> rfl
  · split <;>
      · simp only [Conn.sendSysMsg, Conn.write, Conn.writeTo, Notify, Conn.conClose,
          Timer.Stop]
        split <;> rfl
  · intro e he
    simp only [he]
    simp [Notify, Conn.conClose, NetConn.Close]
  · intro he
    simp only [he]

theorem stop_in_open_witness :
    (sampleConn state.open 0 []).state = state.open ∧
    (stateEvent.eventStop.exec (sampleEnv 2001 (some (Error.other 1)))
      (sampleConn state.open 0 [])).1.state = state.closing :=
  ⟨rfl, (stop_in_open (sampleEnv 2001 (some (Error.other 1)))
    (sampleConn state.open 0 []) rfl).1⟩

/-- C14: in every connection state, handling PeerDisc closes the transport,
sets the state to closed and returns no error; the watchdog counter, the
correlation table and every other part of the connection are unchanged. -/
theorem peerDisc_closes (env : Env) (c : Conn) :
    stateEvent.eventPeerDisc.exec env c =
      ({ c with con := { c.con with closed := true }, state := state.closed }, none) ∧
    (stateEvent.eventPeerDisc.exec env c).1.con.closed = true ∧
    (stateEvent.eventPeerDisc.exec env c).1.state = state.closed ∧
    (stateEvent.eventPeerDisc.exec env c).2 = none ∧
    (stateEvent.eventPeerDisc.exec env c).1.wdCounter = c.wdCounter ∧
    (stateEvent.eventPeerDisc.exec env c).1.sndstack = c.sndstack := by
  simp [stateEvent.exec, eventPeerDisc.exec, Conn.conClose, NetConn.Close]

/-! ## Application messages and unknown identifiers -/

theorem rcvMsg_unknown_answer_step (env : Env) (vm : RawMsg) (c : Conn)
    (hs : c.state = state.open) (hr : vm.FlgR = false)
    (hreg : c.sndstack.get vm.HbHID = none) :
    (stateEvent.eventRcvMsg vm).exec env c = (c, none) := by
  simp [stateEvent.exec, eventRcvMsg.exec, hs, hr, hreg]

/-- C15, the code at the failing input: an RcvMsg handled in state open with
the request flag clear and the hop-by-hop identifier 0xDEADBEEF, with nothing
registered, returns no error and leaves the whole connection as it was: no
notice is given, nothing is sent on any channel and nothing is put on the
inbound request channel. -/
theorem rcvMsg_unknown_answer_is_silent :
    (stateEvent.eventRcvMsg strayAnswer).exec (sampleEnv 2001 none)
        (sampleConn state.open 0 []) = (sampleConn state.open 0 [], none) ∧
    ((stateEvent.eventRcvMsg strayAnswer).exec (sampleEnv 2001 none)
        (sampleConn state.open 0 [])).1.notices = [] := by
  decide

/-- C16: a system answer handled in its legal state (RcvCEA in waitCEA, RcvDWA
in open, RcvDPA in closing) whose hop-by-hop identifier is not in the
correlation table returns UnknownIDAnswer carrying the received message, and
the whole connection (state, watchdog counter, correlation table, timer,
transport, channel sends, notices) is unchanged. -/
theorem unknown_id_answer (env : Env) (vm : RawMsg) (c : Conn)
    (hreg : c.sndstack.get vm.HbHID = none) :
    (c.state = state.waitCEA →
      (stateEvent.eventRcvCEA vm).exec env c = (c, some (Error.UnknownIDAnswer vm))) ∧
    (c.state = state.open →
      (stateEvent.eventRcvDWA vm).exec env c = (c, some (Error.UnknownIDAnswer vm))) ∧
    (c.state = state.closing →
      (stateEvent.eventRcvDPA vm).exec env c = (c, some (Error.UnknownIDAnswer vm))) := by
  refine ⟨fun hs => ?_, fun hs => ?_, fun hs => ?_⟩
  · simp [stateEvent.exec, eventRcvCEA.exec, hs, hreg]
  · simp [stateEvent.exec, eventRcvDWA.exec, hs, hreg]
  · simp [stateEvent.exec, eventRcvDPA.exec, hs, hreg]

theorem unknown_id_answer_witness :
    (stateEvent.eventRcvDWA strayAnswer).exec (sampleEnv 2001 none)
        (sampleConn state.open 2 [(5, 9)]) =
      (sampleConn state.open 2 [(5, 9)], some (Error.UnknownIDAnswer strayAnswer)) :=
  (unknown_id_answer (sampleEnv 2001 none) strayAnswer (sampleConn state.open 2 [(5, 9)])
    (by decide)).2.1 rfl

/-- C17: an RcvMsg handled in state open whose message has the request flag
clear and whose hop-by-hop identifier h is registered under channel ch: the
entry for h is removed from the correlation table and the lookup of every
other identifier is as before, the received message is sent unchanged on ch
and on no other channel, the watchdog timer is reset to WDInterval, a
MessageEvent without error is notified, no error is returned, and everything
else, the state open and the inbound request channel included, is as
before. -/
theorem rcvMsg_answer_completes (env : Env) (vm : RawMsg) (c : Conn) (ch : Nat)
    (hs : c.state = state.open) (hr : vm.FlgR = false)
    (hreg : c.sndstack.get vm.HbHID = some ch) :
    (stateEvent.eventRcvMsg vm).exec env c =
      ({ c with sndstack := c.sndstack.delete vm.HbHID,
                delivered := c.delivered ++ [(ch, vm)],
                sysTimer := { f := c.sysTimer.f, armed := some c.peer.WDInterval },
                notices := c.notices ++ [Notice.MessageEvent false true none] }, none) ∧
    ((stateEvent.eventRcvMsg vm).exec env c).1.sndstack.get vm.HbHID = none ∧
    (∀ j, j ≠ vm.HbHID →
      ((stateEvent.eventRcvMsg vm).exec env c).1.sndstack.get j = c.sndstack.get j) ∧
    ((stateEvent.eventRcvMsg vm).exec env c).1.state = state.open ∧
    ((stateEvent.eventRcvMsg vm).exec env c).1.rcvstack = c.rcvstack := by
  have h : (stateEvent.eventRcvMsg vm).exec env c =
      ({ c with sndstack := c.sndstack.delete vm.HbHID,
                delivered := c.delivered ++ [(ch, vm)],
                sysTimer := { f := c.sysTimer.f, armed := some c.peer.WDInterval },
                notices := c.notices ++ [Notice.MessageEvent false true none] }, none) := by
    simp [stateEvent.exec, eventRcvMsg.exec, eventRcvMsg.finish, hs, hr, hreg, Notify,
      Conn.chanSend, Timer.Reset]
  refine ⟨h, ?_, ?_, ?_, ?_⟩
  · rw [h]; exact SndStack.get_delete_self _ _
  · intro j hj
    rw [h]; exact SndStack.get_delete_ne _ _ j hj
  · rw [h]; exact hs
  · rw [h]

theorem rcvMsg_answer_completes_witness :
    ((stateEvent.eventRcvMsg strayAnswer).exec (sampleEnv 2001 none)
      (sampleConn state.open 0 [(5, 8), (3735928559, 9)])).1.delivered = [(9, strayAnswer)] := by
  have h := (rcvMsg_answer_completes (sampleEnv 2001 none) strayAnswer
    (sampleConn state.open 0 [(5, 8), (3735928559, 9)]) 9 rfl rfl (by decide)).1
  rw [h]
  rfl

/-- C18: an RcvMsg handled in state open whose message has the request flag
set: the message is appended unchanged to the inbound request channel, the
watchdog timer is reset to WDInterval, a MessageEvent without error is
notified, no error is returned, and everything else is as before: the state
is open and the correlation table is unchanged, also when the hop-by-hop
identifier of the message is registered. -/
theorem rcvMsg_request_enqueued (env : Env) (vm : RawMsg) (c : Conn)
    (hs : c.state = state.open) (hr : vm.FlgR = true) :
    (stateEvent.eventRcvMsg vm).exec env c =
      ({ c with rcvstack := c.rcvstack ++ [vm],
                sysTimer := { f := c.sysTimer.f, armed := some c.peer.WDInterval },
                notices := c.notices ++ [Notice.MessageEvent false true none] }, none) ∧
    ((stateEvent.eventRcvMsg vm).exec env c).1.sndstack = c.sndstack ∧
    ((stateEvent.eventRcvMsg vm).exec env c).1.state = state.open := by
  have h : (stateEvent.eventRcvMsg vm).exec env c =
      ({ c with rcvstack := c.rcvstack ++ [vm],
                sysTimer := { f := c.sysTimer.f, armed := some c.peer.WDInterval },
                notices := c.notices ++ [Notice.MessageEvent false true none] }, none) := by
    simp [stateEvent.exec, eventRcvMsg.exec, eventRcvMsg.finish, hs, hr, Notify, Timer.Reset]
  refine ⟨h, ?_, ?_⟩
  · rw [h]
  · rw [h]; exact hs

theorem rcvMsg_request_enqueued_witness :
    ((stateEvent.eventRcvMsg { strayAnswer with FlgR := true }).exec (sampleEnv 2001 none)
      (sampleConn state.open 0 [(3735928559, 9)])).1.sndstack = [(3735928559, 9)] :=
  (rcvMsg_request_enqueued (sampleEnv 2001 none) { strayAnswer with FlgR := true }
    (sampleConn state.open 0 [(3735928559, 9)]) rfl rfl).2.1

/-! ## Decoding and write failures -/

/-- C19, amended: when decoding the raw message of a system event handled in
its legal state fails with error e, the notice of the received message is
given with Err = e and e is returned.  For RcvCER, and for RcvCEA and RcvDPA
with a registered hop-by-hop identifier, the transport is closed; for RcvDWR
and RcvDPR, and for RcvDWA with a registered hop-by-hop identifier, the
transport is left as it was. -/
theorem decode_failure (env : Env) (vm : RawMsg) (c : Conn) (e : Error) :
    (c.state = state.waitCER → env.decCER vm = Except.error e →
      ((stateEvent.eventRcvCER vm).exec env c).1.notices
        = c.notices ++ [Notice.CapabilityExchangeEvent false true (some e)] ∧
      ((stateEvent.eventRcvCER vm).exec env c).1.con.closed = true ∧
      ((stateEvent.eventRcvCER vm).exec env c).2 = some e) ∧
    (∀ ch, c.state = state.waitCEA → c.sndstack.get vm.HbHID = some ch →
      env.decCEA vm = Except.error e →
      ((stateEvent.eventRcvCEA vm).exec env c).1.notices
        = c.notices ++ [Notice.CapabilityExchangeEvent false false (some e)] ∧
      ((stateEvent.eventRcvCEA vm).exec env c).1.con.closed = true ∧
      ((stateEvent.eventRcvCEA vm).exec env c).2 = some e) ∧
    (∀ ch, c.state = state.closing → c.sndstack.get vm.HbHID = some ch →
      env.decDPA vm = Except.error e →
      ((stateEvent.eventRcvDPA vm).exec env c).1.notices
        = c.notices ++ [Notice.PurgeEvent false false (some e)] ∧
      ((stateEvent.eventRcvDPA vm).exec env c).1.con.closed = true ∧
      ((stateEvent.eventRcvDPA vm).exec env c).2 = some e) ∧
    (c.state = state.open → env.decDWR vm = Except.error e →
      ((stateEvent.eventRcvDWR vm).exec env c).1.notices
        = c.notices ++ [Notice.WatchdogEvent false true (some e)] ∧
      ((stateEvent.eventRcvDWR vm).exec env c).1.con = c.con ∧
      ((stateEvent.eventRcvDWR vm).exec env c).2 = some e) ∧
    (∀ ch, c.state = state.open → c.sndstack.get vm.HbHID = some ch →
      env.decDWA vm = Except.error e →
      ((stateEvent.eventRcvDWA vm).exec env c).1.notices
        = c.notices ++ [Notice.WatchdogEvent false false (some e)] ∧
      ((stateEvent.eventRcvDWA vm).exec env c).1.con = c.con ∧
      ((stateEvent.eventRcvDWA vm).exec env c).2 = some e) ∧
    (c.state = state.open → env.decDPR vm = Except.error e →
      ((stateEvent.eventRcvDPR vm).exec env c).1.notices
        = c.notices ++ [Notice.PurgeEvent false true (some e)] ∧
      ((stateEvent.eventRcvDPR vm).exec env c).1.con = c.con ∧
      ((stateEvent.eventRcvDPR vm).exec env c).2 = some e) := by
  refine ⟨?_, ?_, ?_, ?_, ?_, ?_⟩
  · intro hs hdec
    simp [stateEvent.exec, eventRcvCER.exec, hs, hdec, Notify, Conn.conClose, NetConn.Close]
  · intro ch hs hreg hdec
    simp [stateEvent.exec, eventRcvCEA.exec, hs, hreg, hdec, Notify, Conn.conClose,
      NetConn.Close, Conn.chanSend]
  · intro ch hs hreg hdec
    simp [stateEvent.exec, eventRcvDPA.exec, hs, hreg, hdec, Notify, Conn.conClose,
      NetConn.Close, Conn.chanSend]
  · intro hs hdec
    simp [stateEvent.exec, eventRcvDWR.exec, hs, hdec, Notify]
  · intro ch hs hreg hdec
    simp [stateEvent.exec, eventRcvDWA.exec, hs, hreg, hdec, Notify, Conn.chanSend]
  · intro hs hdec
    simp [stateEvent.exec, eventRcvDPR.exec, hs, hdec, Notify]

theorem decode_failure_witness :
    ((stateEvent.eventRcvCER (sampleRaw false 257 [])).exec (sampleEnv 2001 none)
      (sampleConn state.waitCER 0 [])).1.con.closed = true ∧
    ((stateEvent.eventRcvDWR (sampleRaw false 280 [])).exec (sampleEnv 2001 none)
      (sampleConn state.open 0 [])).1.con = (sampleConn state.open 0 []).con :=
  ⟨((decode_failure (sampleEnv 2001 none) (sampleRaw false 257 [])
      (sampleConn state.waitCER 0 []) (Error.other 3008)).1 rfl rfl).2.1,
   ((decode_failure (sampleEnv 2001 none) (sampleRaw false 280 [])
      (sampleConn state.open 0 []) (Error.other 3008)).2.2.2.1 rfl rfl).2.1⟩

/-- C19 as stated fails: a watchdog request that does not decode, handled by
RcvDWR in state open, is notified and its error returned, but the transport
is not closed. -/
theorem rcvDWR_decode_failure_keeps_transport :
    (sampleEnv 2001 none).decDWR (sampleRaw false 280 []) = Except.error (Error.other 3008) ∧
    ((stateEvent.eventRcvDWR (sampleRaw false 280 [])).exec (sampleEnv 2001 none)
      (sampleConn state.open 0 [])).2 = some (Error.other 3008) ∧
    ((stateEvent.eventRcvDWR (sampleRaw false 280 [])).exec (sampleEnv 2001 none)
      (sampleConn state.open 0 [])).1.con.closed = false :=
  ⟨rfl, by decide, by decide⟩

theorem single_of_append_eq {α : Type} (l : List α) (a b : α) (h : l ++ [a] = l ++ [b]) :
    a = b := by
  have := List.append_cancel_left h
  simpa using this

theorem rcvCER_write_fails (env : Env) (vm m : RawMsg) (c : Conn) (e : Error)
    (hw : env.WriteTo m { c.con with deadline := some env.TransportTimeout } = some e)
    (hs : c.state = state.waitCER)
    (hlog : ((stateEvent.eventRcvCER vm).exec env c).1.con.written = c.con.written ++ [m]) :
    ((stateEvent.eventRcvCER vm).exec env c).1.notices.getLast?
      = some (Notice.CapabilityExchangeEvent true false (some e)) ∧
    ((stateEvent.eventRcvCER vm).exec env c).1.con.closed = true ∧
    ((stateEvent.eventRcvCER vm).exec env c).2 = some e := by
  cases hdec : env.decCER vm with
  | error e' =>
    simp [stateEvent.exec, eventRcvCER.exec, hs, hdec, Notify, Conn.conClose, NetConn.Close]
      at hlog
  | ok cer =>
    rw [rcvCER_written env vm c cer hs hdec] at hlog
    have hm := single_of_append_eq _ _ _ hlog
    subst hm
    obtain ⟨l, p, st, k, tm, ss, rs, con, cs, dl, ws, ns, dt⟩ := c
    simp only at hs
    subst hs
    simp only [Notify] at hw
    simp [stateEvent.exec, eventRcvCER.exec, hdec, Conn.writeTo, Notify, hw, failureOf,
      Conn.conClose, NetConn.Close]

theorem rcvDWR_write_fails (env : Env) (vm m : RawMsg) (c : Conn) (e : Error)
    (hw : env.WriteTo m { c.con with deadline := some env.TransportTimeout } = some e)
    (hs : c.state = state.open)
    (hlog : ((stateEvent.eventRcvDWR vm).exec env c).1.con.written = c.con.written ++ [m]) :
    ((stateEvent.eventRcvDWR vm).exec env c).1.notices.getLast?
      = some (Notice.WatchdogEvent true false (some e)) ∧
    ((stateEvent.eventRcvDWR vm).exec env c).1.con.closed = true ∧
    ((stateEvent.eventRcvDWR vm).exec env c).2 = some e := by
  cases hdec : env.decDWR vm with
  | error e' =>
    simp [stateEvent.exec, eventRcvDWR.exec, hs, hdec, Notify] at hlog
  | ok dwr =>
    rw [rcvDWR_written env vm c dwr hs hdec] at hlog
    have hm := single_of_append_eq _ _ _ hlog
    subst hm
    obtain ⟨l, p, st, k, tm, ss, rs, con, cs, dl, ws, ns, dt⟩ := c
    simp only at hs
    subst hs
    simp only [Notify] at hw
    simp [stateEvent.exec, eventRcvDWR.exec, hdec, Conn.writeTo, Notify, hw, failureOf,
      Conn.conClose, NetConn.Close]

theorem rcvDPR_write_fails (env : Env) (vm m : RawMsg) (c : Conn) (e : Error)
    (hw : env.WriteTo m { c.con with deadline := some env.TransportTimeout } = some e)
    (hs : c.state = state.open)
    (hlog : ((stateEvent.eventRcvDPR vm).exec env c).1.con.written = c.con.written ++ [m]) :
    ((stateEvent.eventRcvDPR vm).exec env c).1.notices.getLast?
      = some (Notice.PurgeEvent true false (some e)) ∧
    ((stateEvent.eventRcvDPR vm).exec env c).1.con.closed = true ∧
    ((stateEvent.eventRcvDPR vm).exec env c).2 = some e := by
  cases hdec : env.decDPR vm with
  | error e' =>
    simp [stateEvent.exec, eventRcvDPR.exec, hs, hdec, Notify] at hlog
  | ok dpr =>
    rw [rcvDPR_written env vm c dpr hs hdec] at hlog
    have hm := single_of_append_eq _ _ _ hlog
    subst hm
    obtain ⟨l, p, st, k, tm, ss, rs, con, cs, dl, ws, ns, dt⟩ := c
    simp only at hs
    subst hs
    simp only [Notify] at hw
    by_cases hrc : (env.HandleDPR dpr ⟨l, p, state.open, k, tm, ss, rs, con, cs, dl, ws,
        ns ++ [Notice.PurgeEvent false true none], dt⟩).ResultCode = DiameterSuccess
    · simp only [hrc] at hw
      simp [stateEvent.exec, eventRcvDPR.exec, hdec, Conn.writeTo, Notify, hw, hrc,
        Conn.conClose, NetConn.Close, Conn.setTimer]
    · simp [stateEvent.exec, eventRcvDPR.exec, hdec, Conn.writeTo, Notify, hw, hrc,
        Conn.conClose, NetConn.Close, Conn.setTimer]

theorem watchdog_write_fails (env : Env) (m : RawMsg) (c : Conn) (e : Error)
    (hw : env.WriteTo m { c.con with deadline := some env.TransportTimeout } = some e)
    (hs : c.state = state.open)
    (hlog : (stateEvent.eventWatchdog.exec env c).1.con.written = c.con.written ++ [m]) :
    (stateEvent.eventWatchdog.exec env c).1.notices.getLast?
      = some (Notice.WatchdogEvent true true (some e)) ∧
    (stateEvent.eventWatchdog.exec env c).1.con.closed = true ∧
    (stateEvent.eventWatchdog.exec env c).2 = some e := by
  obtain ⟨l, p, st, k, tm, ss, rs, con, cs, dl, ws, ns, dt⟩ := c
  simp only at hs hw
  subst hs
  by_cases hk : k + 1 > p.WDExpired
  · simp [stateEvent.exec, eventWatchdog.exec, hk, Conn.conClose, NetConn.Close] at hlog
  · have hwr : (stateEvent.eventWatchdog.exec env
        ⟨l, p, state.open, k, tm, ss, rs, con, cs, dl, ws, ns, dt⟩).1.con.written =
        con.written ++ [eventWatchdog.req env
          ⟨l, p, state.open, k + 1, tm, ss, rs, con, cs, dl, ws, ns, dt⟩] := by
      simp only [stateEvent.exec, eventWatchdog.exec, ne_eq, not_true_eq_false, if_false, hk]
      split <;> simp [Conn.write, Conn.writeTo, Notify, Conn.conClose, NetConn.Close]
    rw [hwr] at hlog
    have hm := single_of_append_eq _ _ _ hlog
    subst hm
    simp [stateEvent.exec, eventWatchdog.exec, hk, Conn.write, Conn.writeTo, Notify, hw,
      Conn.conClose, NetConn.Close]

theorem sendSysMsg_written (env : Env) (req nak : RawMsg) (c : Conn) :
    (c.sendSysMsg env req nak).1.con.written = c.con.written ++
      [{ req with HbHID := c.local.NextHbH.1, EtEID := c.local.NextHbH.2.NextEtE.1 }] ∧
    (c.sendSysMsg env req nak).2 = env.WriteTo
      { req with HbHID := c.local.NextHbH.1, EtEID := c.local.NextHbH.2.NextEtE.1 }
      { c.con with deadline := some env.TransportTimeout } := by
  simp only [Conn.sendSysMsg, Conn.write, Conn.writeTo]
  split <;> rename_i h <;> simp [h]

theorem connect_send_fails (env : Env) (c : Conn) (e : Error)
    (hs : c.state = state.closed)
    (he : (Conn.sendSysMsg env (env.encCER (env.MakeCER { c with state := state.waitCEA }))
        (env.encCEA (eventConnect.nak (env.MakeCER { c with state := state.waitCEA })))
        { c with state := state.waitCEA }).2 = some e) :
    (stateEvent.eventConnect.exec env c).1.notices.getLast?
      = some (Notice.CapabilityExchangeEvent true true (some e)) ∧
    (stateEvent.eventConnect.exec env c).1.con.closed = true ∧
    (stateEvent.eventConnect.exec env c).2 = some e := by
  simp only [stateEvent.exec, eventConnect.exec, hs, ne_eq, not_true_eq_false, if_false, he]
  simp [Notify, Conn.conClose, NetConn.Close]

theorem connect_written (env : Env) (c : Conn) (hs : c.state = state.closed) :
    (stateEvent.eventConnect.exec env c).1.con.written =
      (Conn.sendSysMsg env (env.encCER (env.MakeCER { c with state := state.waitCEA }))
        (env.encCEA (eventConnect.nak (env.MakeCER { c with state := state.waitCEA })))
        { c with state := state.waitCEA }).1.con.written := by
  simp only [stateEvent.exec, eventConnect.exec, hs, ne_eq, not_true_eq_false, if_false]
  split <;> simp [Notify, Conn.conClose, NetConn.Close]

theorem connect_write_fails (env : Env) (m : RawMsg) (c : Conn) (e : Error)
    (hw : env.WriteTo m { c.con with deadline := some env.TransportTimeout } = some e)
    (hs : c.state = state.closed)
    (hlog : (stateEvent.eventConnect.exec env c).1.con.written = c.con.written ++ [m]) :
    (stateEvent.eventConnect.exec env c).1.notices.getLast?
      = some (Notice.CapabilityExchangeEvent true true (some e)) ∧
    (stateEvent.eventConnect.exec env c).1.con.closed = true ∧
    (stateEvent.eventConnect.exec env c).2 = some e := by
  have hsend := sendSysMsg_written env
    (env.encCER (env.MakeCER { c with state := state.waitCEA }))
    (env.encCEA (eventConnect.nak (env.MakeCER { c with state := state.waitCEA })))
    { c with state := state.waitCEA }
  rw [connect_written env c hs, hsend.1] at hlog
  have hm := single_of_append_eq _ _ _ hlog
  have he := hsend.2
  rw [hm] at he
  exact connect_send_fails env c e hs (he.trans hw)

theorem stop_send_fails (env : Env) (c : Conn) (e : Error)
    (hs : c.state = state.open)
    (he : (Conn.sendSysMsg env
        (env.encDPR (env.MakeDPR
          { c with state := state.closing, sysTimer := c.sysTimer.Stop }))
        (env.encDPA (eventStop.nak (env.MakeDPR
          { c with state := state.closing, sysTimer := c.sysTimer.Stop })))
        { c with state := state.closing, sysTimer := c.sysTimer.Stop }).2 = some e) :
    (stateEvent.eventStop.exec env c).1.notices.getLast?
      = some (Notice.PurgeEvent true true (some e)) ∧
    (stateEvent.eventStop.exec env c).1.con.closed = true ∧
    (stateEvent.eventStop.exec env c).2 = some e := by
  simp only [stateEvent.exec, eventStop.exec, hs, ne_eq, not_true_eq_false, if_false, he]
  simp [Notify, Conn.conClose, NetConn.Close]

theorem stop_written (env : Env) (c : Conn) (hs : c.state = state.open) :
    (stateEvent.eventStop.exec env c).1.con.written =
      (Conn.sendSysMsg env
        (env.encDPR (env.MakeDPR
          { c with state := state.closing, sysTimer := c.sysTimer.Stop }))
        (env.encDPA (eventStop.nak (env.MakeDPR
          { c with state := state.closing, sysTimer := c.sysTimer.Stop })))
        { c with state := state.closing, sysTimer := c.sysTimer.Stop }).1.con.written := by
  simp only [stateEvent.exec, eventStop.exec, hs, ne_eq, not_true_eq_false, if_false]
  split <;> simp [Notify, Conn.conClose, NetConn.Close]

theorem stop_write_fails (env : Env) (m : RawMsg) (c : Conn) (e : Error)
    (hw : env.WriteTo m { c.con with deadline := some env.TransportTimeout } = some e)
    (hs : c.state = state.open)
    (hlog : (stateEvent.eventStop.exec env c).1.con.written = c.con.written ++ [m]) :
    (stateEvent.eventStop.exec env c).1.notices.getLast?
      = some (Notice.PurgeEvent true true (some e)) ∧
    (stateEvent.eventStop.exec env c).1.con.closed = true ∧
    (stateEvent.eventStop.exec env c).2 = some e := by
  have hsend := sendSysMsg_written env
    (env.encDPR (env.MakeDPR { c with state := state.closing, sysTimer := c.sysTimer.Stop }))
    (env.encDPA (eventStop.nak (env.MakeDPR
      { c with state := state.closing, sysTimer := c.sysTimer.Stop })))
    { c with state := state.closing, sysTimer := c.sysTimer.Stop }
  rw [stop_written env c hs, hsend.1] at hlog
  have hm := single_of_append_eq _ _ _ hlog
  have he := hsend.2
  rw [hm] at he
  exact stop_send_fails env c e hs (he.trans hw)

/-- C20: for a system exchange handled in its legal state (Connect in closed,
Watchdog, Stop, RcvDWR and RcvDPR in open, RcvCER in waitCER): if the handler
hands a message m to the transport and that write fails with error e, then
the last notice given is the one of the exchange (CapabilityExchangeEvent for
Connect and RcvCER, WatchdogEvent for Watchdog and RcvDWR, PurgeEvent for Stop
and RcvDPR; tx = true, req = true for the three requests sent and req = false
for the three answers) with Err = e, the transport is closed and e is
returned. -/
theorem write_failure_closes (env : Env) (vm m : RawMsg) (c : Conn) (e : Error)
    (hw : env.WriteTo m { c.con with deadline := some env.TransportTimeout } = some e) :
    (c.state = state.closed →
      (stateEvent.eventConnect.exec env c).1.con.written = c.con.written ++ [m] →
      (stateEvent.eventConnect.exec env c).1.notices.getLast?
        = some (Notice.CapabilityExchangeEvent true true (some e)) ∧
      (stateEvent.eventConnect.exec env c).1.con.closed = true ∧
      (stateEvent.eventConnect.exec env c).2 = some e) ∧
    (c.state = state.open →
      (stateEvent.eventWatchdog.exec env c).1.con.written = c.con.written ++ [m] →
      (stateEvent.eventWatchdog.exec env c).1.notices.getLast?
        = some (Notice.WatchdogEvent true true (some e)) ∧
      (stateEvent.eventWatchdog.exec env c).1.con.closed = true ∧
      (stateEvent.eventWatchdog.exec env c).2 = some e) ∧
    (c.state = state.open →
      (stateEvent.eventStop.exec env c).1.con.written = c.con.written ++ [m] →
      (stateEvent.eventStop.exec env c).1.notices.getLast?
        = some (Notice.PurgeEvent true true (some e)) ∧
      (stateEvent.eventStop.exec env c).1.con.closed = true ∧
      (stateEvent.eventStop.exec env c).2 = some e) ∧
    (c.state = state.waitCER →
      ((stateEvent.eventRcvCER vm).exec env c).1.con.written = c.con.written ++ [m] →
      ((stateEvent.eventRcvCER vm).exec env c).1.notices.getLast?
        = some (Notice.CapabilityExchangeEvent true false (some e)) ∧
      ((stateEvent.eventRcvCER vm).exec env c).1.con.closed = true ∧
      ((stateEvent.eventRcvCER vm).exec env c).2 = some e) ∧
    (c.state = state.open →
      ((stateEvent.eventRcvDWR vm).exec env c).1.con.written = c.con.written ++ [m] →
      ((stateEvent.eventRcvDWR vm).exec env c).1.notices.getLast?
        = some (Notice.WatchdogEvent true false (some e)) ∧
      ((stateEvent.eventRcvDWR vm).exec env c).1.con.closed = true ∧
      ((stateEvent.eventRcvDWR vm).exec env c).2 = some e) ∧
    (c.state = state.open →
      ((stateEvent.eventRcvDPR vm).exec env c).1.con.written = c.con.written ++ [m] →
      ((stateEvent.eventRcvDPR vm).exec env c).1.notices.getLast?
        = some (Notice.PurgeEvent true false (some e)) ∧
      ((stateEvent.eventRcvDPR vm).exec env c).1.con.closed = true ∧
      ((stateEvent.eventRcvDPR vm).exec env c).2 = some e) :=
  ⟨connect_write_fails env m c e hw, watchdog_write_fails env m c e hw,
   stop_write_fails env m c e hw, rcvCER_write_fails env vm m c e hw,
   rcvDWR_write_fails env vm m c e hw, rcvDPR_write_fails env vm m c e hw⟩

theorem write_failure_closes_witness :
    (stateEvent.eventWatchdog.exec (sampleEnv 2001 (some (Error.other 1)))
      (sampleConn state.open 0 [])).2 = some (Error.other 1) ∧
    ((stateEvent.eventRcvDPR (sampleRaw true 282 [])).exec (sampleEnv 2001 (some (Error.other 1)))
      (sampleConn state.open 0 [])).1.con.closed = true :=
  ⟨((write_failure_closes (sampleEnv 2001 (some (Error.other 1))) (sampleRaw true 282 [])
      (eventWatchdog.req (sampleEnv 2001 (some (Error.other 1))) (sampleConn state.open 1 []))
      (sampleConn state.open 0 []) (Error.other 1) rfl).2.1 rfl (by decide)).2.2,
   ((write_failure_closes (sampleEnv 2001 (some (Error.other 1))) (sampleRaw true 282 [])
      (answerRaw (sampleRaw false 282 [resultAVP 2001]) (sampleRaw true 282 []) 2001)
      (sampleConn state.open 0 []) (Error.other 1) rfl).2.2.2.2.2 rfl (by decide)).2.1⟩

/-! ## Watchdog requests of the peer, notices and the counter -/

theorem rcvDWR_stays_open (env : Env) (vm : RawMsg) (c : Conn) (hs : c.state = state.open) :
    ((stateEvent.eventRcvDWR vm).exec env c).1.state = state.open :=
  (exec_open_counter env (stateEvent.eventRcvDWR vm) c hs rfl rfl).1

/-- C21: after an RcvDWR handled in state open the state is open.  When the
request decodes, HandleDWR answers with Result-Code success and the write of
the answer succeeds, the watchdog timer is reset to WDInterval, the answer is
handed to the transport with the write deadline set, the two notices of the
exchange are given without error, no error is returned, and everything else
is as before: the watchdog counter and the correlation table are unchanged
and the transport is not closed. -/
theorem rcvDWR_success (env : Env) (vm : RawMsg) (c : Conn) (hs : c.state = state.open) :
    ((stateEvent.eventRcvDWR vm).exec env c).1.state = state.open ∧
    (∀ dwr, env.decDWR vm = Except.ok dwr →
      (env.HandleDWR dwr (Notify (Notice.WatchdogEvent false true none) c)).ResultCode
        = DiameterSuccess →
      env.WriteTo
        (answerRaw
          (env.encDWA (env.HandleDWR dwr (Notify (Notice.WatchdogEvent false true none) c)))
          vm DiameterSuccess)
        { c.con with deadline := some env.TransportTimeout } = none →
      (stateEvent.eventRcvDWR vm).exec env c =
        ({ c with
            sysTimer := { f := c.sysTimer.f, armed := some c.peer.WDInterval },
            con := { written := c.con.written ++
                       [answerRaw
                         (env.encDWA (env.HandleDWR dwr
                           (Notify (Notice.WatchdogEvent false true none) c)))
                         vm DiameterSuccess],
                     deadline := some env.TransportTimeout,
                     closed := c.con.closed },
            notices := c.notices ++ [Notice.WatchdogEvent false true none,
                                     Notice.WatchdogEvent true false none] }, none)) := by
  refine ⟨rcvDWR_stays_open env vm c hs, ?_⟩
  intro dwr hdec hrc hw
  obtain ⟨l, p, st, k, tm, ss, rs, con, cs, dl, ws, ns, dt⟩ := c
  simp only at hs
  subst hs
  simp only [Notify] at hrc hw
  simp [stateEvent.exec, eventRcvDWR.exec, hdec, hrc, Conn.writeTo, Notify, failureOf, hw,
    Timer.Reset]

theorem rcvDWR_success_witness :
    ((stateEvent.eventRcvDWR (sampleRaw true 280 [])).exec (sampleEnv 2001 none)
      (sampleConn state.open 2 [(5, 9)])).2 = none := by
  have h := (rcvDWR_success (sampleEnv 2001 none) (sampleRaw true 280 [])
    (sampleConn state.open 2 [(5, 9)]) rfl).2
    { OriginHost := "b", OriginRealm := "r", OriginStateID := 0 } rfl rfl rfl
  rw [h]

/-- C24, the code at the failing input: an answer (request flag clear) whose
hop-by-hop identifier is registered, handled by RcvMsg in state open, is
notified as MessageEvent with tx = false and req = true. -/
theorem rcvMsg_answer_notified_as_request :
    strayAnswer.FlgR = false ∧
    ((stateEvent.eventRcvMsg strayAnswer).exec (sampleEnv 2001 none)
      (sampleConn state.open 0 [(3735928559, 9)])).1.notices
      = [Notice.MessageEvent false true none] := by
  decide

theorem sendSysMsg_wdCounter (env : Env) (req nak : RawMsg) (c : Conn) :
    (c.sendSysMsg env req nak).1.wdCounter = c.wdCounter := by
  simp only [Conn.sendSysMsg, Conn.write, Conn.writeTo]
  split <;> rfl

theorem exec_keeps_counter (env : Env) (ev : stateEvent) (c : Conn)
    (hw : isWatchdog ev = false) (hd : ∀ m, ev ≠ stateEvent.eventRcvDWA m) :
    (ev.exec env c).1.wdCounter = c.wdCounter := by
  cases ev with
  | eventInit => rfl
  | eventConnect =>
    simp only [stateEvent.exec, eventConnect.exec]
    split
    · rfl
    · split <;> simp [Notify, Conn.conClose, sendSysMsg_wdCounter]
  | eventWatchdog => simp [isWatchdog] at hw
  | eventStop =>
    simp only [stateEvent.exec, eventStop.exec]
    split
    · rfl
    · split <;> simp [Notify, Conn.conClose, sendSysMsg_wdCounter]
  | eventPeerDisc => rfl
  | eventSndMsg m =>
    simp only [stateEvent.exec, eventSndMsg.exec]
    split
    · rfl
    · split <;> simp [Notify, Conn.conClose, Conn.write, Conn.writeTo]
  | eventRcvCER m =>
    simp only [stateEvent.exec, eventRcvCER.exec]
    split
    · rfl
    · split
      · simp [Notify, Conn.conClose]
      · split <;> rename_i h <;> simp only [h] <;>
          simp [Notify, Conn.conClose, Conn.writeTo, Conn.setTimer]
  | eventRcvCEA m =>
    simp only [stateEvent.exec, eventRcvCEA.exec]
    split
    · rfl
    · split
      · rfl
      · split <;> rename_i h <;> (try simp only [h]) <;>
          (split <;> try split) <;>
          simp [Notify, Conn.conClose, Conn.chanSend, Conn.setTimer]
  | eventRcvDWR m =>
    simp only [stateEvent.exec, eventRcvDWR.exec]
    split
    · rfl
    · split
      · simp [Notify]
      · split <;> rename_i h <;> simp only [h] <;>
          simp [Notify, Conn.conClose, Conn.writeTo]
  | eventRcvDWA m => exact absurd rfl (hd m)
  | eventRcvDPR m =>
    simp only [stateEvent.exec, eventRcvDPR.exec]
    split
    · rfl
    · split
      · simp [Notify]
      · split <;> split <;>
          simp [Notify, Conn.conClose, Conn.writeTo, Conn.setTimer]
  | eventRcvDPA m =>
    simp only [stateEvent.exec, eventRcvDPA.exec]
    split
    · rfl
    · split
      · rfl
      · split <;> simp [Notify, Conn.conClose, Conn.chanSend]
  | eventRcvMsg m =>
    simp only [stateEvent.exec, eventRcvMsg.exec]
    split
    · rfl
    · split
      · simp [eventRcvMsg.finish, Notify]
      · split <;> simp [eventRcvMsg.finish, Notify, Conn.chanSend]

theorem rcvDWA_keeps_counter (env : Env) (m : RawMsg) (c : Conn)
    (hr : resetsCounter env (stateEvent.eventRcvDWA m) c = false) :
    ((stateEvent.eventRcvDWA m).exec env c).1.wdCounter = c.wdCounter := by
  simp only [stateEvent.exec, eventRcvDWA.exec]
  split
  · rfl
  · rename_i hs
    have hs' : c.state = state.open := not_not.mp hs
    split
    · rfl
    · rename_i ch hch
      simp only [resetsCounter, hs', hch, decide_True, Option.isSome_some, Bool.true_and,
        successDWA] at hr
      split at hr
      · rename_i a ha
        have hne : ¬ a.Result = DiameterSuccess := by simpa using hr
        simp [ha, hne, Notify, Conn.chanSend]
      · rename_i e he
        simp [he, Notify, Conn.chanSend]

/-- C25: the watchdog counter after any event in any state.  A Watchdog event
handled in state open raises it by one; an RcvDWA handled in state open whose
hop-by-hop identifier is registered and whose message decodes with Result-Code
success sets it to 0; every other event in every state leaves it unchanged,
an RcvDWA that does not decode, decodes with another Result-Code or has an
unknown hop-by-hop identifier included. -/
theorem wdCounter_frame (env : Env) (ev : stateEvent) (c : Conn) :
    (isWatchdog ev = true → c.state = state.open →
      (ev.exec env c).1.wdCounter = c.wdCounter + 1) ∧
    (resetsCounter env ev c = true → (ev.exec env c).1.wdCounter = 0) ∧
    (¬ (isWatchdog ev = true ∧ c.state = state.open) → resetsCounter env ev c = false →
      (ev.exec env c).1.wdCounter = c.wdCounter) := by
  refine ⟨?_, ?_, ?_⟩
  · intro hw hs
    cases ev <;> simp [isWatchdog] at hw
    exact (exec_open_counter env stateEvent.eventWatchdog c hs rfl rfl).2
  · intro hr
    cases ev <;> simp [resetsCounter] at hr
    rename_i m
    obtain ⟨⟨hs, hreg⟩, hd⟩ := hr
    obtain ⟨ch, hch⟩ := Option.isSome_iff_exists.mp hreg
    simp only [successDWA] at hd
    split at hd
    · rename_i a ha
      have hrc : a.Result = DiameterSuccess := by simpa using hd
      simp [stateEvent.exec, eventRcvDWA.exec, hs, hch, ha, hrc, Notify, Conn.chanSend]
    · simp at hd
  · intro hnw hnr
    cases ev with
    | eventWatchdog =>
      have hs : c.state ≠ state.open := fun h => hnw ⟨rfl, h⟩
      simp [stateEvent.exec, eventWatchdog.exec, hs]
    | eventRcvDWA m => exact rcvDWA_keeps_counter env m c hnr
    | eventInit => exact exec_keeps_counter env _ c rfl (fun _ h => by cases h)
    | eventConnect => exact exec_keeps_counter env _ c rfl (fun _ h => by cases h)
    | eventStop => exact exec_keeps_counter env _ c rfl (fun _ h => by cases h)
    | eventPeerDisc => exact exec_keeps_counter env _ c rfl (fun _ h => by cases h)
    | eventSndMsg m => exact exec_keeps_counter env _ c rfl (fun _ h => by cases h)
    | eventRcvCER m => exact exec_keeps_counter env _ c rfl (fun _ h => by cases h)
    | eventRcvCEA m => exact exec_keeps_counter env _ c rfl (fun _ h => by cases h)
    | eventRcvDWR m => exact exec_keeps_counter env _ c rfl (fun _ h => by cases h)
    | eventRcvDPR m => exact exec_keeps_counter env _ c rfl (fun _ h => by cases h)
    | eventRcvDPA m => exact exec_keeps_counter env _ c rfl (fun _ h => by cases h)
    | eventRcvMsg m => exact exec_keeps_counter env _ c rfl (fun _ h => by cases h)

theorem wdCounter_frame_witness :
    ((stateEvent.eventRcvDWA (sampleRaw false 280 [resultAVP 3002])).exec (sampleEnv 2001 none)
      (sampleConn state.open 2 [(0, 9)])).1.wdCounter = 2 ∧
    ((stateEvent.eventRcvDWA (sampleRaw false 280 [resultAVP 2001])).exec (sampleEnv 2001 none)
      (sampleConn state.open 2 [(0, 9)])).1.wdCounter = 0 ∧
    (stateEvent.eventWatchdog.exec (sampleEnv 2001 none)
      (sampleConn state.open 2 [(0, 9)])).1.wdCounter = 2 + 1 :=
  ⟨(wdCounter_frame (sampleEnv 2001 none)
      (stateEvent.eventRcvDWA (sampleRaw false 280 [resultAVP 3002]))
      (sampleConn state.open 2 [(0, 9)])).2.2 (by decide) (by decide),
   (wdCounter_frame (sampleEnv 2001 none)
      (stateEvent.eventRcvDWA (sampleRaw false 280 [resultAVP 2001]))
      (sampleConn state.open 2 [(0, 9)])).2.1 (by decide),
   (wdCounter_frame (sampleEnv 2001 none) stateEvent.eventWatchdog
      (sampleConn state.open 2 [(0, 9)])).1 rfl rfl⟩

end sock

namespace ts29338

/-! ## Headers of SRR and SRA -/

theorem Validate_none_iff (m : sock.RawMsg) (appID code : Nat) (r p e t : Bool) :
    Validate m appID code r p e t = none ↔
      m.AppID = appID ∧ m.Code = code ∧ m.FlgR = r ∧ m.FlgP = p ∧ m.FlgE = e ∧ m.FlgT = t := by
  unfold Validate
  split
  · rename_i h
    simp only [false_iff, reduceCtorEq]
    intro hc
    obtain ⟨h1, h2, h3, h4, h5, h6⟩ := hc
    rcases h with h | h | h | h | h | h <;> contradiction
  · rename_i h
    simp only [true_iff]
    push_neg at h
    exact h

/-- C22: for every SRR v and session id s, `SRR.ToRaw` makes a message with
version DiaVer, command code 8388647, application id 16777312, the request
and proxiable flags set and the error and retransmit flags clear; the header
check of `SRR.FromRaw` accepts exactly the messages with this code,
application id and flags, so it accepts every output of `SRR.ToRaw`.
Likewise `SRA.ToRaw` makes, for every SRA and so for every result code, a
message with the same version, code and application id, the request flag
clear, the proxiable flag set and the error and retransmit flags clear; the
header check of `SRA.FromRaw` accepts exactly such messages, so it accepts
every output of `SRA.ToRaw`. -/
theorem ToRaw_header_accepted (k : Lib) :
    (∀ (v : SRR) (s : String),
      (SRR.ToRaw k v s).Ver = DiaVer ∧ (SRR.ToRaw k v s).Code = 8388647 ∧
      (SRR.ToRaw k v s).AppID = 16777312 ∧
      (SRR.ToRaw k v s).FlgR = true ∧ (SRR.ToRaw k v s).FlgP = true ∧
      (SRR.ToRaw k v s).FlgE = false ∧ (SRR.ToRaw k v s).FlgT = false ∧
      SRR.FromRaw.validate (SRR.ToRaw k v s) = none) ∧
    (∀ m : sock.RawMsg, SRR.FromRaw.validate m = none ↔
      m.AppID = 16777312 ∧ m.Code = 8388647 ∧ m.FlgR = true ∧ m.FlgP = true ∧
      m.FlgE = false ∧ m.FlgT = false) ∧
    (∀ (v : SRA) (s : String),
      (SRA.ToRaw k v s).Ver = DiaVer ∧ (SRA.ToRaw k v s).Code = 8388647 ∧
      (SRA.ToRaw k v s).AppID = 16777312 ∧
      (SRA.ToRaw k v s).FlgR = false ∧ (SRA.ToRaw k v s).FlgP = true ∧
      (SRA.ToRaw k v s).FlgE = false ∧ (SRA.ToRaw k v s).FlgT = false ∧
      SRA.FromRaw.validate (SRA.ToRaw k v s) = none) ∧
    (∀ m : sock.RawMsg, SRA.FromRaw.validate m = none ↔
      m.AppID = 16777312 ∧ m.Code = 8388647 ∧ m.FlgR = false ∧ m.FlgP = true ∧
      m.FlgE = false ∧ m.FlgT = false) := by
  refine ⟨fun v s => ?_, fun m => Validate_none_iff m _ _ _ _ _ _, fun v s => ?_,
    fun m => Validate_none_iff m _ _ _ _ _ _⟩
  · refine ⟨rfl, rfl, rfl, rfl, rfl, rfl, rfl, ?_⟩
    exact (Validate_none_iff _ _ _ _ _ _ _).mpr ⟨rfl, rfl, rfl, rfl, rfl, rfl⟩
  · refine ⟨rfl, rfl, rfl, rfl, rfl, rfl, rfl, ?_⟩
    exact (Validate_none_iff _ _ _ _ _ _ _).mpr ⟨rfl, rfl, rfl, rfl, rfl, rfl⟩

/-! ## Mandatory values of SRR -/

theorem SRR_recognised_of_tag (a : sock.RawAVP) (ven code : Nat)
    (hv : a.VenID = ven) (hc : a.Code = code)
    (ht : SRR.recognised { a with VenID := ven, Code := code } = true) :
    SRR.recognised a = true := by
  subst hv
  subst hc
  exact ht

theorem SRR_avp_unrecognised (k : Lib) (a : sock.RawAVP) (v : SRR) (s : String)
    (e : Option DiaError) (h : SRR.recognised a = false) :
    SRR.FromRaw.avp k a v s e = (v, s, e) := by
  have hn : ∀ ven code, SRR.recognised { a with VenID := ven, Code := code } = true →
      ¬ (a.VenID = ven ∧ a.Code = code) := by
    intro ven code ht hc
    rw [SRR_recognised_of_tag a ven code hc.1 hc.2 ht] at h
    exact Bool.noConfusion h
  have n1 := hn 0 263 rfl
  have n2 := hn 0 264 rfl
  have n3 := hn 0 296 rfl
  have n4 := hn 0 293 rfl
  have n5 := hn 0 283 rfl
  have n6 := hn 10415 701 rfl
  have n7 := hn 0 1 rfl
  have n8 := hn 10415 3300 rfl
  have n9 := hn 10415 3308 rfl
  have n10 := hn 10415 3309 rfl
  have n11 := hn 10415 3310 rfl
  have n12 := hn 10415 3311 rfl
  simp only [SRR.FromRaw.avp, if_neg n1, if_neg n2, if_neg n3, if_neg n4, if_neg n5, if_neg n6, if_neg n7, if_neg n8, if_neg n9, if_neg n10, if_neg n11, if_neg n12]

theorem SRR_loop_filter (k : Lib) (l : List sock.RawAVP) :
    ∀ (v : SRR) (s : String),
      SRR.FromRaw.loop k (l.filter SRR.recognised) v s = SRR.FromRaw.loop k l v s := by
  induction l with
  | nil => intro v s; rfl
  | cons a rest ih =>
    intro v s
    by_cases h : SRR.recognised a = true
    · rw [List.filter_cons_of_pos h]
      simp only [SRR.FromRaw.loop]
      split
      · rfl
      · exact ih _ _
    · have h' : SRR.recognised a = false := by simpa using h
      rw [List.filter_cons_of_neg h]
      simp only [SRR.FromRaw.loop, SRR_avp_unrecognised k a v s none h']
      exact ih v s

theorem SRR_check_iff (v : SRR) :
    (SRR.FromRaw.check v = some DiaError.NoMandatoryAVP ↔ SRR.mandatoryMissing v) ∧
    (¬ SRR.mandatoryMissing v → SRR.FromRaw.check v = none) := by
  unfold SRR.FromRaw.check SRR.mandatoryMissing
  split
  · rename_i h
    refine ⟨⟨fun _ => by tauto, fun _ => rfl⟩, fun hn => absurd (by tauto) hn⟩
  · rename_i h
    split
    · rename_i h2
      refine ⟨⟨fun _ => by tauto, fun _ => rfl⟩, fun hn => absurd (by tauto) hn⟩
    · rename_i h2
      refine ⟨⟨fun hc => by simp at hc, fun hm => absurd hm (by tauto)⟩, fun _ => rfl⟩

theorem lastValue_nil {α : Type} (f : sock.RawAVP → α) (ven code : Nat) (d : α) :
    lastValue f ven code [] d = d := rfl

theorem lastValue_cons {α : Type} (f : sock.RawAVP → α) (ven code : Nat) (a : sock.RawAVP)
    (l : List sock.RawAVP) (d : α) :
    lastValue f ven code (a :: l) d =
      lastValue f ven code l (if a.VenID = ven ∧ a.Code = code then f a else d) := by
  unfold lastValue
  by_cases h : a.VenID = ven ∧ a.Code = code
  · have hf : (a :: l).filter (fun b => b.VenID == ven && b.Code == code) =
        a :: l.filter (fun b => b.VenID == ven && b.Code == code) := by
      simp [List.filter_cons, h.1, h.2]
    rw [hf, List.getLast?_cons, if_pos h]
    cases (l.filter fun b => b.VenID == ven && b.Code == code).getLast? <;> rfl
  · have hf : (a :: l).filter (fun b => b.VenID == ven && b.Code == code) =
        l.filter (fun b => b.VenID == ven && b.Code == code) := by
      simp only [List.filter_cons]
      split
      · rename_i hb
        simp only [Bool.and_eq_true, beq_iff_eq] at hb
        exact absurd hb h
      · rfl
    rw [hf, if_neg h]

theorem lastValue_absent {α : Type} (f : sock.RawAVP → α) (ven code : Nat)
    (l : List sock.RawAVP) (d : α) (h : ∀ a ∈ l, ¬ hasTag a ven code) :
    lastValue f ven code l d = d := by
  induction l with
  | nil => rfl
  | cons a rest ih =>
    have ha : ¬ (a.VenID = ven ∧ a.Code = code) := h a (List.mem_cons_self _ _)
    rw [lastValue_cons, if_neg ha]
    exact ih (fun b hb => h b (List.mem_cons_of_mem _ hb))

theorem SRR_avp_spec (k : Lib) (a : sock.RawAVP) (v : SRR) (s : String)
    (hd : SRR.decodes k a) :
    SRR.FromRaw.avp k a v s none =
      ({ OriginHost := if a.VenID = 0 ∧ a.Code = 264 then (k.GetOriginHost a).1
                       else v.OriginHost,
         OriginRealm := if a.VenID = 0 ∧ a.Code = 296 then (k.GetOriginRealm a).1
                        else v.OriginRealm,
         DestinationHost := if a.VenID = 0 ∧ a.Code = 293 then (k.GetDestinationHost a).1
                            else v.DestinationHost,
         DestinationRealm := if a.VenID = 0 ∧ a.Code = 283 then (k.GetDestinationRealm a).1
                             else v.DestinationRealm,
         MSISDN := if a.VenID = 10415 ∧ a.Code = 701 then (k.getMSISDN a).1 else v.MSISDN,
         IMSI := if a.VenID = 0 ∧ a.Code = 1 then (k.getUserName a).1 else v.IMSI,
         SCAddress := if a.VenID = 10415 ∧ a.Code = 3300 then (k.getSCAddress a).1
                      else v.SCAddress,
         MTType := if a.VenID = 10415 ∧ a.Code = 3308 then (k.getSMRPMTI a).1 else v.MTType,
         SMEAddr := if a.VenID = 10415 ∧ a.Code = 3309 then (k.getSMRPSMEA a).1
                    else v.SMEAddr,
         Flags := if a.VenID = 10415 ∧ a.Code = 3310 then
                    { GPRSSupport := (k.getSRRFlags a).1.1,
                      SingleAttempt := (k.getSRRFlags a).1.2.1,
                      Prioritized := (k.getSRRFlags a).1.2.2 }
                  else v.Flags,
         RequiredInfo := if a.VenID = 10415 ∧ a.Code = 3311 then
                           (k.getSMDeliveryNotIntended a).1
                         else v.RequiredInfo },
       if a.VenID = 0 ∧ a.Code = 263 then (k.GetSessionID a).1 else s,
       none) := by
  obtain ⟨d1, d2, d3, d4, d5, d6, d7, d8, d9, d10, d11, d12⟩ := hd
  by_cases h1 : a.VenID = 0 ∧ a.Code = 263
  · have e := d1 h1
    obtain ⟨hv, hc⟩ := h1
    simp [SRR.FromRaw.avp, hv, hc, e]
  by_cases h2 : a.VenID = 0 ∧ a.Code = 264
  · have e := d2 h2
    obtain ⟨hv, hc⟩ := h2
    simp [SRR.FromRaw.avp, hv, hc, e]
  by_cases h3 : a.VenID = 0 ∧ a.Code = 296
  · have e := d3 h3
    obtain ⟨hv, hc⟩ := h3
    simp [SRR.FromRaw.avp, hv, hc, e]
  by_cases h4 : a.VenID = 0 ∧ a.Code = 293
  · have e := d4 h4
    obtain ⟨hv, hc⟩ := h4
    simp [SRR.FromRaw.avp, hv, hc, e]
  by_cases h5 : a.VenID = 0 ∧ a.Code = 283
  · have e := d5 h5
    obtain ⟨hv, hc⟩ := h5
    simp [SRR.FromRaw.avp, hv, hc, e]
  by_cases h6 : a.VenID = 10415 ∧ a.Code = 701
  · have e := d6 h6
    obtain ⟨hv, hc⟩ := h6
    simp [SRR.FromRaw.avp, hv, hc, e]
  by_cases h7 : a.VenID = 0 ∧ a.Code = 1
  · have e := d7 h7
    obtain ⟨hv, hc⟩ := h7
    simp [SRR.FromRaw.avp, hv, hc, e]
  by_cases h8 : a.VenID = 10415 ∧ a.Code = 3300
  · have e := d8 h8
    obtain ⟨hv, hc⟩ := h8
    simp [SRR.FromRaw.avp, hv, hc, e]
  by_cases h9 : a.VenID = 10415 ∧ a.Code = 3308
  · have e := d9 h9
    obtain ⟨hv, hc⟩ := h9
    simp [SRR.FromRaw.avp, hv, hc, e]
  by_cases h10 : a.VenID = 10415 ∧ a.Code = 3309
  · have e := d10 h10
    obtain ⟨hv, hc⟩ := h10
    simp [SRR.FromRaw.avp, hv, hc, e]
  by_cases h11 : a.VenID = 10415 ∧ a.Code = 3310
  · have e := d11 h11
    obtain ⟨hv, hc⟩ := h11
    simp [SRR.FromRaw.avp, hv, hc, e]
  by_cases h12 : a.VenID = 10415 ∧ a.Code = 3311
  · have e := d12 h12
    obtain ⟨hv, hc⟩ := h12
    simp [SRR.FromRaw.avp, hv, hc, e]
  simp only [if_neg h1, if_neg h2, if_neg h3, if_neg h4, if_neg h5, if_neg h6, if_neg h7, if_neg h8, if_neg h9, if_neg h10, if_neg h11, if_neg h12, SRR.FromRaw.avp]

theorem SRR_loop_spec (k : Lib) (l : List sock.RawAVP) :
    ∀ (v : SRR) (s : String), (∀ a ∈ l, SRR.decodes k a) →
      SRR.FromRaw.loop k l v s = Except.ok
        ({ OriginHost := lastValue (fun a => (k.GetOriginHost a).1) 0 264 l v.OriginHost,
           OriginRealm := lastValue (fun a => (k.GetOriginRealm a).1) 0 296 l v.OriginRealm,
           DestinationHost :=
             lastValue (fun a => (k.GetDestinationHost a).1) 0 293 l v.DestinationHost,
           DestinationRealm :=
             lastValue (fun a => (k.GetDestinationRealm a).1) 0 283 l v.DestinationRealm,
           MSISDN := lastValue (fun a => (k.getMSISDN a).1) 10415 701 l v.MSISDN,
           IMSI := lastValue (fun a => (k.getUserName a).1) 0 1 l v.IMSI,
           SCAddress := lastValue (fun a => (k.getSCAddress a).1) 10415 3300 l v.SCAddress,
           MTType := lastValue (fun a => (k.getSMRPMTI a).1) 10415 3308 l v.MTType,
           SMEAddr := lastValue (fun a => (k.getSMRPSMEA a).1) 10415 3309 l v.SMEAddr,
           Flags := lastValue
             (fun a => { GPRSSupport := (k.getSRRFlags a).1.1,
                         SingleAttempt := (k.getSRRFlags a).1.2.1,
                         Prioritized := (k.getSRRFlags a).1.2.2 })
             10415 3310 l v.Flags,
           RequiredInfo :=
             lastValue (fun a => (k.getSMDeliveryNotIntended a).1) 10415 3311 l
               v.RequiredInfo },
         lastValue (fun a => (k.GetSessionID a).1) 0 263 l s) := by
  induction l with
  | nil => intro v s _; rfl
  | cons a rest ih =>
    intro v s hd
    have ha := SRR_avp_spec k a v s (hd a (List.mem_cons_self _ _))
    simp only [SRR.FromRaw.loop, ha, lastValue_cons]
    exact ih _ _ (fun b hb => hd b (List.mem_cons_of_mem _ hb))

theorem SRR_FromRaw_spec (k : Lib) (m : sock.RawMsg)
    (hval : SRR.FromRaw.validate m = none) (hdec : ∀ a ∈ m.AVP, SRR.decodes k a) :
    SRR.FromRaw k m =
      (some (SRR.ofAVPs k m.AVP), SRR.sessionOfAVPs k m.AVP,
        SRR.FromRaw.check (SRR.ofAVPs k m.AVP)) := by
  have hloop := SRR_loop_spec k m.AVP SRR.zero "" hdec
  simp only [SRR.FromRaw, hval, hloop]
  rfl

theorem SRR_absent_missing (k : Lib) (l : List sock.RawAVP)
    (h : (∀ a ∈ l, ¬ hasTag a 0 264) ∨ (∀ a ∈ l, ¬ hasTag a 0 296) ∨
      (∀ a ∈ l, ¬ hasTag a 0 283) ∨ (∀ a ∈ l, ¬ hasTag a 10415 3300) ∨
      ((∀ a ∈ l, ¬ hasTag a 10415 701) ∧ (∀ a ∈ l, ¬ hasTag a 0 1))) :
    SRR.mandatoryMissing (SRR.ofAVPs k l) := by
  unfold SRR.mandatoryMissing SRR.ofAVPs
  rcases h with h | h | h | h | ⟨h1, h2⟩
  · left
    simp only [lastValue_absent _ _ _ _ _ h]
    rfl
  · right; left
    simp only [lastValue_absent _ _ _ _ _ h]
    rfl
  · right; right; left
    simp only [lastValue_absent _ _ _ _ _ h]
    rfl
  · right; right; right; left
    simp only [lastValue_absent _ _ _ _ _ h]
    rfl
  · right; right; right; right
    simp only [lastValue_absent _ _ _ _ _ h1, lastValue_absent _ _ _ _ _ h2]
    exact ⟨rfl, rfl⟩

/-- C23: for every raw message that passes the header check of `SRR.FromRaw`
and all of whose attributes with a recognised (vendor, code) pair decode
without error, `SRR.FromRaw` returns the request whose fields hold the values
decoded from the attributes of the message (for each field the last attribute
with its pair, the empty value when the message has none) and the session id
decoded from its Session-Id attribute.  Its error is NoMandatoryAVP if and
only if Origin-Host, Origin-Realm, Destination-Realm or SC-Address is empty,
or both MSISDN and User-Name are empty, and nil otherwise; in particular it
is NoMandatoryAVP when the message has no Origin-Host, no Origin-Realm, no
Destination-Realm or no SC-Address attribute, or neither an MSISDN nor a
User-Name attribute.  Attributes with a (vendor, code) pair that the loop
does not test for are ignored: leaving them out of any message does not
change the result. -/
theorem SRR_FromRaw_mandatory (k : Lib) (m : sock.RawMsg)
    (hval : SRR.FromRaw.validate m = none) (hdec : ∀ a ∈ m.AVP, SRR.decodes k a) :
    (SRR.FromRaw k m).1 = some (SRR.ofAVPs k m.AVP) ∧
    (SRR.FromRaw k m).2.1 = SRR.sessionOfAVPs k m.AVP ∧
    ((SRR.FromRaw k m).2.2 = some DiaError.NoMandatoryAVP ↔
      SRR.mandatoryMissing (SRR.ofAVPs k m.AVP)) ∧
    (¬ SRR.mandatoryMissing (SRR.ofAVPs k m.AVP) → (SRR.FromRaw k m).2.2 = none) ∧
    (((∀ a ∈ m.AVP, ¬ hasTag a 0 264) ∨ (∀ a ∈ m.AVP, ¬ hasTag a 0 296) ∨
      (∀ a ∈ m.AVP, ¬ hasTag a 0 283) ∨ (∀ a ∈ m.AVP, ¬ hasTag a 10415 3300) ∨
      ((∀ a ∈ m.AVP, ¬ hasTag a 10415 701) ∧ (∀ a ∈ m.AVP, ¬ hasTag a 0 1))) →
      (SRR.FromRaw k m).2.2 = some DiaError.NoMandatoryAVP) ∧
    (∀ m' : sock.RawMsg,
      SRR.FromRaw k { m' with AVP := m'.AVP.filter SRR.recognised } = SRR.FromRaw k m') := by
  have hr := SRR_FromRaw_spec k m hval hdec
  refine ⟨by rw [hr], by rw [hr], ?_, ?_, ?_, ?_⟩
  · rw [hr]; exact (SRR_check_iff _).1
  · rw [hr]; exact (SRR_check_iff _).2
  · intro h
    rw [hr]
    exact (SRR_check_iff _).1.mpr (SRR_absent_missing k m.AVP h)
  · intro m'
    have hv : SRR.FromRaw.validate { m' with AVP := m'.AVP.filter SRR.recognised }
        = SRR.FromRaw.validate m' := rfl
    simp only [SRR.FromRaw, hv, SRR_loop_filter]

theorem sampleLib_decodes (a : sock.RawAVP) : SRR.decodes sampleLib a :=
  ⟨fun _ => rfl, fun _ => rfl, fun _ => rfl, fun _ => rfl, fun _ => rfl, fun _ => rfl,
   fun _ => rfl, fun _ => rfl, fun _ => rfl, fun _ => rfl, fun _ => rfl, fun _ => rfl⟩

theorem SRR_FromRaw_mandatory_witness :
    (SRR.FromRaw sampleLib sampleSRRMsg).1 = some sampleSRR ∧
    (SRR.FromRaw sampleLib sampleSRRMsg).2.2 = none ∧
    (SRR.FromRaw sampleLib sampleSRRBare).1 = some sampleSRR ∧
    (SRR.FromRaw sampleLib sampleSRRBare).2.1 = "" ∧
    (SRR.FromRaw sampleLib sampleSRRBare).2.2 = none ∧
    (SRR.FromRaw sampleLib { sampleSRRBare with AVP := sampleSRRBare.AVP.tail }).2.2
      = some DiaError.NoMandatoryAVP :=
  have h := SRR_FromRaw_mandatory sampleLib sampleSRRMsg rfl
    (fun a _ => sampleLib_decodes a)
  have b := SRR_FromRaw_mandatory sampleLib sampleSRRBare rfl
    (fun a _ => sampleLib_decodes a)
  have c := SRR_FromRaw_mandatory sampleLib
    { sampleSRRBare with AVP := sampleSRRBare.AVP.tail } rfl
    (fun a _ => sampleLib_decodes a)
  ⟨h.1.trans (by decide), h.2.2.2.1 (by unfold SRR.mandatoryMissing; decide),
   b.1.trans (by decide), b.2.1.trans (by decide),
   b.2.2.2.1 (by unfold SRR.mandatoryMissing; decide),
   c.2.2.2.2.1 (Or.inl (by unfold hasTag; decide))⟩

/-! ## Attributes of SRA -/

theorem isResultAVP_of_tag (a : sock.RawAVP) (ven code : Nat) (h : hasTag a ven code) :
    isResultAVP a = (ven == 0 && (code == 268 || code == 297)) := by
  obtain ⟨h1, h2⟩ := h
  simp only [isResultAVP, h1, h2]

theorem isSubscriberAVP_of_tag (a : sock.RawAVP) (ven code : Nat) (h : hasTag a ven code) :
    isSubscriberAVP a =
      ((ven == 0 && code == 1) ||
       (ven == 10415 &&
        (code == 2401 || code == 2406 || code == 2400 || code == 3102 ||
         code == 3312 || code == 3313 || code == 3314 || code == 3315))) := by
  obtain ⟨h1, h2⟩ := h
  simp only [isSubscriberAVP, h1, h2]

theorem SRA_ToRaw_failure_avps (k : Lib) (v : SRA) (s : String)
    (hrc : v.ResultCode ≠ sock.DiameterSuccess) :
    (SRA.ToRaw k v s).AVP =
      [k.SetSessionID s,
       k.SetVendorSpecAppID 10415 16777312,
       (if v.ResultCode > k.ResultOffset then k.SetExperimentalResult 10415 v.ResultCode
        else k.SetResultCode v.ResultCode),
       k.SetAuthSessionState false,
       k.SetOriginHost v.OriginHost,
       k.SetOriginRealm v.OriginRealm] ++
      (if v.FailedAVP ≠ [] then [k.SetFailedAVP v.FailedAVP] else []) := by
  have hl : (v.FailedAVP.length ≠ 0) = (v.FailedAVP ≠ []) := by
    simp [List.length_eq_zero]
  simp only [SRA.ToRaw, if_pos hrc, hl]

theorem SRA_ToRaw_one_result (k : Lib) (v : SRA) (s : String) (ht : k.tagged) :
    (SRA.ToRaw k v s).AVP.countP isResultAVP = 1 := by
  obtain ⟨t1, t2, t3, t4, t5, t6, t7, t8, t9, t10, t11, t12, t13, t14, t15, t16, t17⟩ := ht
  have r1 := fun x => isResultAVP_of_tag _ _ _ (t1 x)
  have r2 := fun x y => isResultAVP_of_tag _ _ _ (t2 x y)
  have r3 := fun x => isResultAVP_of_tag _ _ _ (t3 x)
  have r4 := fun x y => isResultAVP_of_tag _ _ _ (t4 x y)
  have r5 := fun x => isResultAVP_of_tag _ _ _ (t5 x)
  have r6 := fun x => isResultAVP_of_tag _ _ _ (t6 x)
  have r7 := fun x => isResultAVP_of_tag _ _ _ (t7 x)
  have r8 := fun x => isResultAVP_of_tag _ _ _ (t8 x)
  have r9 := fun x => isResultAVP_of_tag _ _ _ (t9 x)
  have r10 := fun x y z w => isResultAVP_of_tag _ _ _ (t10 x y z w)
  have r11 := fun x y z w => isResultAVP_of_tag _ _ _ (t11 x y z w)
  have r12 := fun x => isResultAVP_of_tag _ _ _ (t12 x)
  have r13 := fun x => isResultAVP_of_tag _ _ _ (t13 x)
  have r14 := fun x y z w => isResultAVP_of_tag _ _ _ (t14 x y z w)
  have r15 := fun x => isResultAVP_of_tag _ _ _ (t15 x)
  have r16 := fun x => isResultAVP_of_tag _ _ _ (t16 x)
  have r17 := fun x => isResultAVP_of_tag _ _ _ (t17 x)
  simp only [SRA.ToRaw, List.countP_append, List.countP_cons, List.countP_nil,
    apply_ite (List.countP isResultAVP), apply_ite isResultAVP,
    r1, r2, r3, r4, r5, r6, r7, r8, r9, r10, r11, r12, r13, r14, r15, r16, r17]
  simp

theorem SRA_ToRaw_failure_no_subscriber (k : Lib) (v : SRA) (s : String) (ht : k.tagged)
    (hrc : v.ResultCode ≠ sock.DiameterSuccess) :
    ∀ a ∈ (SRA.ToRaw k v s).AVP, isSubscriberAVP a = false := by
  obtain ⟨t1, t2, t3, t4, t5, t6, t7, t8, _⟩ := ht
  rw [SRA_ToRaw_failure_avps k v s hrc]
  intro a ha
  simp only [List.mem_append, List.mem_cons, List.mem_singleton, List.not_mem_nil, or_false]
    at ha
  rcases ha with (h | h | h | h | h | h) | h
  · rw [h, isSubscriberAVP_of_tag _ _ _ (t1 _)]; rfl
  · rw [h, isSubscriberAVP_of_tag _ _ _ (t2 _ _)]; rfl
  · rw [h]
    split
    · rw [isSubscriberAVP_of_tag _ _ _ (t4 _ _)]; rfl
    · rw [isSubscriberAVP_of_tag _ _ _ (t3 _)]; rfl
  · rw [h, isSubscriberAVP_of_tag _ _ _ (t5 _)]; rfl
  · rw [h, isSubscriberAVP_of_tag _ _ _ (t6 _)]; rfl
  · rw [h, isSubscriberAVP_of_tag _ _ _ (t7 _)]; rfl
  · split at h
    · rw [List.mem_singleton] at h
      rw [h, isSubscriberAVP_of_tag _ _ _ (t8 _)]; rfl
    · exact absurd h (List.not_mem_nil _)

/-- C26: for every SRA v and session id s.  The attributes of `SRA.ToRaw`
begin with Session-Id, Vendor-Specific-Application-Id, the result attribute
(Experimental-Result with vendor 10415 when ResultCode > ResultOffset,
Result-Code otherwise), Auth-Session-State, Origin-Host and Origin-Realm; when
the setters tag their attributes with their codes, exactly one attribute of
the message is a result attribute.  When ResultCode is not DiameterSuccess
the attributes are exactly these six in this order, followed by Failed-AVP
if and only if FailedAVP is not empty, whatever the other fields of v are;
with tagged setters none of them is a User-Name, Serving-Node, LMSI,
User-Identifier, MWD-Status or Absent-User-Diagnostic attribute. -/
theorem SRA_ToRaw_avps (k : Lib) (v : SRA) (s : String) :
    (∃ rest, (SRA.ToRaw k v s).AVP =
      [k.SetSessionID s,
       k.SetVendorSpecAppID 10415 16777312,
       (if v.ResultCode > k.ResultOffset then k.SetExperimentalResult 10415 v.ResultCode
        else k.SetResultCode v.ResultCode),
       k.SetAuthSessionState false,
       k.SetOriginHost v.OriginHost,
       k.SetOriginRealm v.OriginRealm] ++ rest) ∧
    (k.tagged → (SRA.ToRaw k v s).AVP.countP isResultAVP = 1) ∧
    (v.ResultCode ≠ sock.DiameterSuccess →
      (SRA.ToRaw k v s).AVP =
        [k.SetSessionID s,
         k.SetVendorSpecAppID 10415 16777312,
         (if v.ResultCode > k.ResultOffset then k.SetExperimentalResult 10415 v.ResultCode
          else k.SetResultCode v.ResultCode),
         k.SetAuthSessionState false,
         k.SetOriginHost v.OriginHost,
         k.SetOriginRealm v.OriginRealm] ++
        (if v.FailedAVP ≠ [] then [k.SetFailedAVP v.FailedAVP] else [])) ∧
    (k.tagged → v.ResultCode ≠ sock.DiameterSuccess →
      ∀ a ∈ (SRA.ToRaw k v s).AVP, isSubscriberAVP a = false) :=
  ⟨⟨_, rfl⟩, SRA_ToRaw_one_result k v s, SRA_ToRaw_failure_avps k v s,
   SRA_ToRaw_failure_no_subscriber k v s⟩

theorem sampleLib_tagged : sampleLib.tagged := by
  simp [Lib.tagged, hasTag, sampleLib, tagAVP]

theorem SRA_ToRaw_avps_witness :
    (SRA.ToRaw sampleLib sampleSRA "s").AVP.countP isResultAVP = 1 ∧
    (SRA.ToRaw sampleLib sampleSRA "s").AVP =
      [tagAVP 0 263 (strData "s"), tagAVP 0 260 [10415, 16777312], tagAVP 0 268 [5001],
       tagAVP 0 277 [1], tagAVP 0 264 (strData "b"), tagAVP 0 296 (strData "r")] :=
  have h := SRA_ToRaw_avps sampleLib sampleSRA "s"
  ⟨h.2.1 sampleLib_tagged, h.2.2.1 (by decide)⟩

end ts29338
